import Mathlib

/-!
# ZeroServer script manager: `src/game/ScriptMgr.cpp`

A shallow embedding of the DB-script loader of the script manager, of the
spell-effect priority rule, of the target resolution of a script step, of
the execution of a step (`ScriptAction::HandleScriptStep`), of the script
name catalog (`LoadScriptNames`, `GetScriptId`) and of the start of event
scripts (`StartEvents_Event`), followed by the properties proved about them.

Conventions of the embedding

* `uint32`/`uint8` values are natural numbers, `int32` values are integers.
* A pointer returned by a catalog lookup (`LookupEntry`, `GetCreatureTemplate`,
  ...) is an `Option`; where the loader only tests the pointer for null the
  catalog is a `Bool`-valued membership test.
* Constants, enumerations and inline helpers declared in headers that are not
  part of the translated sources are parameters: numeric constants are fields
  of `Defines`, enumerations whose numeric values play no role are inductive
  types, inline helpers of `ScriptInfo` are fields of `Defines`.
* Diagnostics (`sLog.outErrorDb`, the progress bar) are not part of the state.
* The execution of a step does not change the world itself: it returns the
  list of the mutating calls it makes on world objects (`Effect`), in order,
  together with the value returned; a step that evaluates a method on a null
  pointer has no result (`none`).
-/

namespace ZeroServer

/-! ## Constants and enumerations from headers outside the translated sources -/

/-- Spell effect kinds (`enum SpellEffects`). Only the enumerators the script
manager compares against are named; every other effect is `other n`. -/
inductive SpellEffects where
  | SPELL_EFFECT_DUMMY
  | SPELL_EFFECT_TRIGGER_SPELL
  | SPELL_EFFECT_SCRIPT_EFFECT
  | SPELL_EFFECT_SEND_EVENT
  | SPELL_EFFECT_SEND_TAXI
  | other (n : Nat)
  deriving DecidableEq, Repr

/-- Row of the spell store (`SpellEntry`), restricted to the per-effect arrays
the script manager reads. An array is a function of the effect index. -/
structure SpellEntry where
  Effect : Nat → SpellEffects
  EffectTriggerSpell : Nat → Nat
  EffectMiscValue : Nat → Int

/-- The spell store `sSpellStore`: `LookupEntry` and `GetNumRows`. -/
structure SpellStore where
  LookupEntry : Nat → Option SpellEntry
  GetNumRows : Nat

/-! ## Spell-effect priority rule (`ScriptMgr.cpp` lines 94-130) -/

/-- Translation of `GetSpellStartDBScriptPriority`: priority of an effect for
starting a DB script (0 == cannot start script). -/
def GetSpellStartDBScriptPriority (sSpellStore : SpellStore) (spellinfo : SpellEntry)
    (effIdx : Nat) : Nat :=
  if spellinfo.Effect effIdx = SpellEffects.SPELL_EFFECT_SCRIPT_EFFECT then 10
  else if spellinfo.Effect effIdx = SpellEffects.SPELL_EFFECT_DUMMY then 9
  else if spellinfo.Effect effIdx = SpellEffects.SPELL_EFFECT_TRIGGER_SPELL
      ∧ (sSpellStore.LookupEntry (spellinfo.EffectTriggerSpell effIdx)).isNone then 5
  else 0

/-- One iteration of the `for` loop of `CanSpellEffectStartDBScript`:
`true` when the loop goes on to the next index, `false` when it returns false. -/
def canStartStep (sSpellStore : SpellStore) (spellinfo : SpellEntry) (effIdx priority i : Nat) :
    Bool :=
  let currentPriority := GetSpellStartDBScriptPriority sSpellStore spellinfo i
  if currentPriority < priority then true          -- lower priority, continue checking
  else if currentPriority > priority then false    -- take other index with higher priority
  else if i < effIdx then false                    -- same priority at lower index
  else true

/-- Translation of `ScriptMgr::CanSpellEffectStartDBScript`; the loop runs over
`0 ≤ i < MAX_EFFECT_INDEX` and leaves at the first index that returns false. -/
def CanSpellEffectStartDBScript (MAX_EFFECT_INDEX : Nat) (sSpellStore : SpellStore)
    (spellinfo : SpellEntry) (effIdx : Nat) : Bool :=
  let priority := GetSpellStartDBScriptPriority sSpellStore spellinfo effIdx
  if priority = 0 then false
  else (List.range MAX_EFFECT_INDEX).all (canStartStep sSpellStore spellinfo effIdx priority)

/-! ## Data model of the DB-script loader -/

/-- Game-object kinds (`enum GameobjectTypes`); only the enumerators the loader
compares against are named. -/
inductive GameobjectTypes where
  | GAMEOBJECT_TYPE_DOOR
  | GAMEOBJECT_TYPE_BUTTON
  | GAMEOBJECT_TYPE_TRAP
  | GAMEOBJECT_TYPE_FISHINGNODE
  | GAMEOBJECT_TYPE_FISHINGHOLE
  | other (n : Nat)
  deriving DecidableEq, Repr

/-- Game-object template (`GameObjectInfo`): the fields the loader reads. -/
structure GameObjectInfo where
  id : Nat
  type : GameobjectTypes
  deriving DecidableEq, Repr

/-- Spawn record of a creature (`CreatureData`): `id` is the template entry. -/
structure CreatureData where
  id : Nat
  deriving DecidableEq, Repr

/-- Spawn record of a game object (`GameObjectData`): `id` is the template entry. -/
structure GameObjectData where
  id : Nat
  deriving DecidableEq, Repr

/-- Quest template (`Quest`): the special-flag word the loader reads and writes. -/
structure Quest where
  m_SpecialFlags : Nat
  deriving DecidableEq, Repr

/-- One script command (`ScriptInfo`), as filled from a fetched row at
`ScriptMgr.cpp` lines 165-181. `datalong`/`datalong2` are `raw.data[0]`/`raw.data[1]`,
`dataint .. dataint4` are `textId[0] .. textId[3]`; `data_flags` is a `uint8`. -/
structure ScriptInfo where
  id : Nat
  delay : Nat
  command : Nat
  datalong : Nat
  datalong2 : Nat
  buddyEntry : Nat
  searchRadiusOrGuid : Nat
  data_flags : Nat
  dataint : Int
  dataint2 : Int
  dataint3 : Int
  dataint4 : Int
  x : ℚ
  y : ℚ
  z : ℚ
  o : ℚ
  deriving DecidableEq, Repr

/-- Number of text-id slots: the loader fills exactly `textId[0] .. textId[3]`. -/
def MAX_TEXT_ID : Nat := 4

/-- The array `textId` of a command. -/
def ScriptInfo.textId (s : ScriptInfo) (i : Nat) : Int :=
  match i with
  | 0 => s.dataint
  | 1 => s.dataint2
  | 2 => s.dataint3
  | 3 => s.dataint4
  | _ => 0

/-! The command discriminants, with the numbers the `case` labels of
`LoadScripts` carry in the source. -/

@[match_pattern] def SCRIPT_COMMAND_TALK : Nat := 0
@[match_pattern] def SCRIPT_COMMAND_EMOTE : Nat := 1
@[match_pattern] def SCRIPT_COMMAND_FIELD_SET : Nat := 2
@[match_pattern] def SCRIPT_COMMAND_MOVE_TO : Nat := 3
@[match_pattern] def SCRIPT_COMMAND_FLAG_SET : Nat := 4
@[match_pattern] def SCRIPT_COMMAND_FLAG_REMOVE : Nat := 5
@[match_pattern] def SCRIPT_COMMAND_TELEPORT_TO : Nat := 6
@[match_pattern] def SCRIPT_COMMAND_QUEST_EXPLORED : Nat := 7
@[match_pattern] def SCRIPT_COMMAND_KILL_CREDIT : Nat := 8
@[match_pattern] def SCRIPT_COMMAND_RESPAWN_GAMEOBJECT : Nat := 9
@[match_pattern] def SCRIPT_COMMAND_TEMP_SUMMON_CREATURE : Nat := 10
@[match_pattern] def SCRIPT_COMMAND_OPEN_DOOR : Nat := 11
@[match_pattern] def SCRIPT_COMMAND_CLOSE_DOOR : Nat := 12
@[match_pattern] def SCRIPT_COMMAND_ACTIVATE_OBJECT : Nat := 13
@[match_pattern] def SCRIPT_COMMAND_REMOVE_AURA : Nat := 14
@[match_pattern] def SCRIPT_COMMAND_CAST_SPELL : Nat := 15
@[match_pattern] def SCRIPT_COMMAND_PLAY_SOUND : Nat := 16
@[match_pattern] def SCRIPT_COMMAND_CREATE_ITEM : Nat := 17
@[match_pattern] def SCRIPT_COMMAND_DESPAWN_SELF : Nat := 18
@[match_pattern] def SCRIPT_COMMAND_PLAY_MOVIE : Nat := 19
@[match_pattern] def SCRIPT_COMMAND_MOVEMENT : Nat := 20
@[match_pattern] def SCRIPT_COMMAND_SET_ACTIVEOBJECT : Nat := 21
@[match_pattern] def SCRIPT_COMMAND_SET_FACTION : Nat := 22
@[match_pattern] def SCRIPT_COMMAND_MORPH_TO_ENTRY_OR_MODEL : Nat := 23
@[match_pattern] def SCRIPT_COMMAND_MOUNT_TO_ENTRY_OR_MODEL : Nat := 24
@[match_pattern] def SCRIPT_COMMAND_SET_RUN : Nat := 25
@[match_pattern] def SCRIPT_COMMAND_ATTACK_START : Nat := 26
@[match_pattern] def SCRIPT_COMMAND_GO_LOCK_STATE : Nat := 27
@[match_pattern] def SCRIPT_COMMAND_STAND_STATE : Nat := 28
@[match_pattern] def SCRIPT_COMMAND_MODIFY_NPC_FLAGS : Nat := 29
@[match_pattern] def SCRIPT_COMMAND_SEND_TAXI_PATH : Nat := 30
@[match_pattern] def SCRIPT_COMMAND_TERMINATE_SCRIPT : Nat := 31
@[match_pattern] def SCRIPT_COMMAND_PAUSE_WAYPOINTS : Nat := 32
@[match_pattern] def SCRIPT_COMMAND_XP_USER : Nat := 33
@[match_pattern] def SCRIPT_COMMAND_TERMINATE_COND : Nat := 34

/-- Constants and inline helpers of `ScriptInfo` that are declared in headers
outside the translated sources. -/
structure Defines where
  MAX_EFFECT_INDEX : Nat
  MIN_DB_SCRIPT_STRING_ID : Int
  MAX_DB_SCRIPT_STRING_ID : Int
  DEFAULT_VISIBILITY_DISTANCE : ℚ
  INTERACTION_DISTANCE : ℚ
  MAX_DB_MOTION_TYPE : Nat
  MAX_UNIT_STAND_STATE : Nat
  SCRIPT_FLAG_BUDDY_AS_TARGET : Nat
  SCRIPT_FLAG_REVERSE_DIRECTION : Nat
  SCRIPT_FLAG_SOURCE_TARGETS_SELF : Nat
  SCRIPT_FLAG_COMMAND_ADDITIONAL : Nat
  SCRIPT_FLAG_BUDDY_BY_GUID : Nat
  SCRIPT_FLAG_BUDDY_IS_PET : Nat
  MAX_SCRIPT_FLAG_VALID : Nat
  QUEST_SPECIAL_FLAG_EXPLORATION_OR_EVENT : Nat
  /-- Helper `ScriptInfo::IsCreatureBuddy()`. -/
  IsCreatureBuddy : ScriptInfo → Bool
  /-- Helper `ScriptInfo::HasAdditionalScriptFlag()`. -/
  HasAdditionalScriptFlag : ScriptInfo → Bool
  /-- Helper `ScriptInfo::GetGOGuid()`. -/
  GetGOGuid : ScriptInfo → Nat
  /-- Union member `morph.creatureOrModelEntry` / `mount.creatureOrModelEntry`. -/
  creatureOrModelEntry : ScriptInfo → Nat

/-! The members of the payload union read by the loader. Each variant of the
union overlays `raw.data[0]` (column `datalong`) with its first member and
`raw.data[1]` (column `datalong2`) with its second one, which is also the column
the loader names in the diagnostic of the member. -/

def ScriptInfo.emote_emoteId (s : ScriptInfo) : Nat := s.datalong
def ScriptInfo.teleportTo_mapId (s : ScriptInfo) : Nat := s.datalong
def ScriptInfo.questExplored_questId (s : ScriptInfo) : Nat := s.datalong
def ScriptInfo.questExplored_distance (s : ScriptInfo) : Nat := s.datalong2
def ScriptInfo.killCredit_creatureEntry (s : ScriptInfo) : Nat := s.datalong
def ScriptInfo.summonCreature_creatureEntry (s : ScriptInfo) : Nat := s.datalong
def ScriptInfo.removeAura_spellId (s : ScriptInfo) : Nat := s.datalong
def ScriptInfo.castSpell_spellId (s : ScriptInfo) : Nat := s.datalong
def ScriptInfo.playSound_soundId (s : ScriptInfo) : Nat := s.datalong
def ScriptInfo.playSound_flags (s : ScriptInfo) : Nat := s.datalong2
def ScriptInfo.createItem_itemEntry (s : ScriptInfo) : Nat := s.datalong
def ScriptInfo.createItem_amount (s : ScriptInfo) : Nat := s.datalong2
def ScriptInfo.movement_movementType (s : ScriptInfo) : Nat := s.datalong
def ScriptInfo.faction_factionId (s : ScriptInfo) : Nat := s.datalong
def ScriptInfo.goLockState_lockState (s : ScriptInfo) : Nat := s.datalong
def ScriptInfo.standState_stand_state (s : ScriptInfo) : Nat := s.datalong
def ScriptInfo.sendTaxiPath_taxiPathId (s : ScriptInfo) : Nat := s.datalong
def ScriptInfo.terminateScript_npcEntry (s : ScriptInfo) : Nat := s.datalong
def ScriptInfo.terminateCond_conditionId (s : ScriptInfo) : Nat := s.datalong
def ScriptInfo.terminateCond_failQuest (s : ScriptInfo) : Nat := s.datalong2

/-- The read-only catalogs consulted by the loader. A catalog whose entries
are only tested for existence is a membership test. `PQuery` is the result set
of the `SELECT` over the named table, already converted field by field; the
empty list stands for the null result the database layer returns when the
table has no row. -/
structure Catalogs where
  GetCreatureTemplate : Nat → Bool
  GetGameObjectInfo : Nat → Option GameObjectInfo
  GetCreatureData : Nat → Option CreatureData
  GetGOData : Nat → Option GameObjectData
  GetItemPrototype : Nat → Bool
  sSpellStore : SpellStore
  sEmotesStore : Nat → Bool
  sMapStore : Nat → Bool
  sSoundEntriesStore : Nat → Bool
  sFactionTemplateStore : Nat → Bool
  sCreatureDisplayInfoStore : Nat → Bool
  sTaxiPathStore : Nat → Bool
  sConditionStorage : Nat → Bool
  IsValidMapCoord : ℚ → ℚ → ℚ → ℚ → Bool
  /-- Value of `sLog.HasLogFilter(LOG_FILTER_DB_STRICTED_CHECK)`. -/
  HasLogFilter_DB_STRICTED_CHECK : Bool
  PQuery : String → List ScriptInfo

/-- The part of the object manager the loader writes: the quest templates. -/
structure ObjectMgr where
  GetQuestTemplate : Nat → Option Quest

/-- Modelled from the spec: `Quest::HasSpecialFlag`, declared outside the
translated sources; the quest "carries" the capability flag. -/
def Quest.HasSpecialFlag (q : Quest) (flag : Nat) : Bool := (q.m_SpecialFlags &&& flag) != 0

/-- Modelled from the spec: `Quest::SetSpecialFlag`, declared outside the
translated sources; the flag is "auto-set" and nothing else changes. -/
def Quest.SetSpecialFlag (q : Quest) (flag : Nat) : Quest :=
  { q with m_SpecialFlags := q.m_SpecialFlags ||| flag }

/-- The quest templates after `SetSpecialFlag(flag)` on the template of `questId`. -/
def ObjectMgr.setQuestSpecialFlag (mgr : ObjectMgr) (questId flag : Nat) : ObjectMgr :=
  { GetQuestTemplate := fun q =>
      if q = questId then (mgr.GetQuestTemplate q).map (fun t => t.SetSpecialFlag flag)
      else mgr.GetQuestTemplate q }

/-- `ScriptMap = std::multimap<uint32, ScriptInfo>`: the elements in iteration
order, that is by ascending key and, among equal keys, in insertion order. -/
abbrev ScriptMap := List (Nat × ScriptInfo)

/-- `ScriptMapMap = std::map<uint32, ScriptMap>`: the elements in iteration
order, that is by strictly ascending key. -/
abbrev ScriptMapMap := List (Nat × ScriptMap)

/-- `ScriptMapMapName = std::pair<const char*, ScriptMapMap>`. -/
structure ScriptMapMapName where
  first : String
  second : ScriptMapMap
  deriving DecidableEq, Repr

/-- `std::multimap::insert(value)`: the element is placed at the upper bound of
its key, after every element whose key is not greater. -/
def multimapInsert : ScriptMap → Nat × ScriptInfo → ScriptMap
  | [], v => [v]
  | e :: t, v => if v.1 < e.1 then v :: e :: t else e :: multimapInsert t v

/-- `std::map::find(k)`: the mapped value, `none` for `end()`. -/
def mapFind : ScriptMapMap → Nat → Option ScriptMap
  | [], _ => none
  | e :: t, k => if e.1 = k then some e.2 else mapFind t k

/-- `m[k] = v` on a `std::map`: replaces the value of `k` or inserts a new
element at the position its key has in the order. -/
def mapAssign : ScriptMapMap → Nat → ScriptMap → ScriptMapMap
  | [], k, v => [(k, v)]
  | e :: t, k, v =>
      if k < e.1 then (k, v) :: e :: t
      else if k = e.1 then (k, v) :: t
      else e :: mapAssign t k v

/-- The reference `m[k]` read as a value: the mapped value of `k`, the empty
multimap when `operator[]` has to create the element. -/
def mapIndex (m : ScriptMapMap) (k : Nat) : ScriptMap := (mapFind m k).getD []

/-- `m[k].insert(v)` on a map of multimaps. -/
def mapIndexInsert (m : ScriptMapMap) (k : Nat) (v : Nat × ScriptInfo) : ScriptMapMap :=
  mapAssign m k (multimapInsert (mapIndex m k) v)

/-! ## The loader `ScriptMgr::LoadScripts` (`ScriptMgr.cpp` lines 132-700)

Each check function returns `true` when control reaches the statement after
the check and `false` when the row is left with `continue`. -/

/-- Bitwise complement `~x` of a 32-bit value. -/
def bitNot32 (x : Nat) : Nat := 0xFFFFFFFF - x % 2 ^ 32

/-- Conversion `int32(x)` of a `uint32`. -/
def int32 (x : Nat) : Int :=
  if x % 2 ^ 32 < 2 ^ 31 then ((x % 2 ^ 32 : Nat) : Int) else ((x % 2 ^ 32 : Nat) : Int) - 2 ^ 32

/-- Generic command args check, lines 183-201. -/
def genericBuddyCheck (D : Defines) (C : Catalogs) (tmp : ScriptInfo) : Bool :=
  if tmp.buddyEntry ≠ 0 ∧ tmp.data_flags &&& D.SCRIPT_FLAG_BUDDY_BY_GUID = 0 then
    if D.IsCreatureBuddy tmp = true ∧ C.GetCreatureTemplate tmp.buddyEntry = false then false
    else if D.IsCreatureBuddy tmp = false ∧ C.GetGameObjectInfo tmp.buddyEntry = none then false
    else if tmp.searchRadiusOrGuid = 0 then false
    else true
  else true

/-- Check of the flags, lines 203-251. -/
def flagCheck (D : Defines) (C : Catalogs) (tmp : ScriptInfo) : Bool :=
  if tmp.data_flags ≠ 0 then
    if tmp.data_flags &&& bitNot32 D.MAX_SCRIPT_FLAG_VALID ≠ 0 then false
    else if D.HasAdditionalScriptFlag tmp = false
        ∧ tmp.data_flags &&& D.SCRIPT_FLAG_COMMAND_ADDITIONAL ≠ 0 then false
    else if tmp.data_flags &&& D.SCRIPT_FLAG_BUDDY_AS_TARGET ≠ 0 ∧ tmp.buddyEntry = 0 then false
    else if tmp.data_flags &&& D.SCRIPT_FLAG_BUDDY_BY_GUID ≠ 0 then   -- Check guid
      if D.IsCreatureBuddy tmp = true then
        match C.GetCreatureData tmp.searchRadiusOrGuid with
        | none => false
        | some data => if data.id ≠ tmp.buddyEntry then false else true
      else
        match C.GetGOData tmp.searchRadiusOrGuid with
        | none => false
        | some data => if data.id ≠ tmp.buddyEntry then false else true
    else true
  else true

/-- `case SCRIPT_COMMAND_TALK`, lines 255-274. The `continue` in the `for` loop
over the text ids belongs to that loop: after the diagnostic the loop goes on
with the next slot and then reaches `break`, so the loop decides nothing. -/
def talkCheck (tmp : ScriptInfo) : Bool :=
  if tmp.textId 0 = 0 then false else true

/-- `case SCRIPT_COMMAND_EMOTE`, lines 275-291. As for talk, the `continue` in
the `for` loop over the alternative emote ids only resumes that loop. -/
def emoteCheck (C : Catalogs) (tmp : ScriptInfo) : Bool :=
  if C.sEmotesStore tmp.emote_emoteId = false then false else true

/-- `case SCRIPT_COMMAND_TELEPORT_TO`, lines 297-311. -/
def teleportToCheck (C : Catalogs) (tmp : ScriptInfo) : Bool :=
  if C.sMapStore tmp.teleportTo_mapId = false then false
  else if C.IsValidMapCoord tmp.x tmp.y tmp.z tmp.o = false then false
  else true

/-- `case SCRIPT_COMMAND_QUEST_EXPLORED`, lines 312-353: returns the quest
templates as well, since a quest lacking the exploration flag is modified
before the distance is looked at. `float(distance)` is rendered as the exact
value of the distance (the conversion is exact below 2^24). -/
def questExploredCheck (D : Defines) (mgr : ObjectMgr) (tmp : ScriptInfo) : ObjectMgr × Bool :=
  match mgr.GetQuestTemplate tmp.questExplored_questId with
  | none => (mgr, false)
  | some quest =>
    let mgr1 :=
      if quest.HasSpecialFlag D.QUEST_SPECIAL_FLAG_EXPLORATION_OR_EVENT = false then
        mgr.setQuestSpecialFlag tmp.questExplored_questId D.QUEST_SPECIAL_FLAG_EXPLORATION_OR_EVENT
      else mgr
    if (tmp.questExplored_distance : ℚ) > D.DEFAULT_VISIBILITY_DISTANCE then (mgr1, false)
    else if tmp.questExplored_distance ≠ 0
        ∧ (tmp.questExplored_distance : ℚ) > D.DEFAULT_VISIBILITY_DISTANCE then (mgr1, false)
    else if tmp.questExplored_distance ≠ 0
        ∧ (tmp.questExplored_distance : ℚ) < D.INTERACTION_DISTANCE then (mgr1, false)
    else (mgr1, true)

/-- `case SCRIPT_COMMAND_KILL_CREDIT`, lines 354-362. -/
def killCreditCheck (C : Catalogs) (tmp : ScriptInfo) : Bool :=
  if tmp.killCredit_creatureEntry ≠ 0 ∧ C.GetCreatureTemplate tmp.killCredit_creatureEntry = false
  then false else true

/-- The entry `goEntry` computed at lines 365-385 and 423-443: the entry of the
spawn `GetGOGuid()` when that guid is set, the buddy entry otherwise; `none`
when the row is left with `continue`. -/
def scriptGoEntry (D : Defines) (C : Catalogs) (tmp : ScriptInfo) : Option Nat :=
  if D.GetGOGuid tmp = 0 then
    if tmp.buddyEntry = 0 then none else some tmp.buddyEntry
  else
    match C.GetGOData (D.GetGOGuid tmp) with
    | none => none
    | some data => some data.id

/-- `case SCRIPT_COMMAND_RESPAWN_GAMEOBJECT`, lines 363-404. -/
def respawnGameobjectCheck (D : Defines) (C : Catalogs) (tmp : ScriptInfo) : Bool :=
  match scriptGoEntry D C tmp with
  | none => false
  | some goEntry =>
    match C.GetGameObjectInfo goEntry with
    | none => false
    | some info =>
      if info.type = GameobjectTypes.GAMEOBJECT_TYPE_FISHINGNODE
          ∨ info.type = GameobjectTypes.GAMEOBJECT_TYPE_FISHINGHOLE
          ∨ info.type = GameobjectTypes.GAMEOBJECT_TYPE_DOOR
          ∨ info.type = GameobjectTypes.GAMEOBJECT_TYPE_BUTTON
          ∨ info.type = GameobjectTypes.GAMEOBJECT_TYPE_TRAP then false
      else true

/-- `case SCRIPT_COMMAND_TEMP_SUMMON_CREATURE`, lines 405-419. -/
def tempSummonCreatureCheck (C : Catalogs) (tmp : ScriptInfo) : Bool :=
  if C.IsValidMapCoord tmp.x tmp.y tmp.z tmp.o = false then false
  else if C.GetCreatureTemplate tmp.summonCreature_creatureEntry = false then false
  else true

/-- `case SCRIPT_COMMAND_OPEN_DOOR` and `case SCRIPT_COMMAND_CLOSE_DOOR`, lines 420-459. -/
def changeDoorCheck (D : Defines) (C : Catalogs) (tmp : ScriptInfo) : Bool :=
  match scriptGoEntry D C tmp with
  | none => false
  | some goEntry =>
    match C.GetGameObjectInfo goEntry with
    | none => false
    | some info =>
      if info.type ≠ GameobjectTypes.GAMEOBJECT_TYPE_DOOR then false else true

/-- `case SCRIPT_COMMAND_CREATE_ITEM`, lines 497-512. -/
def createItemCheck (C : Catalogs) (tmp : ScriptInfo) : Bool :=
  if C.GetItemPrototype tmp.createItem_itemEntry = false then false
  else if tmp.createItem_amount = 0 then false
  else true

/-- `case SCRIPT_COMMAND_MORPH_TO_ENTRY_OR_MODEL` and
`case SCRIPT_COMMAND_MOUNT_TO_ENTRY_OR_MODEL`, lines 547-588 (the two bodies
are the same up to the name of the union variant). -/
def morphOrMountCheck (D : Defines) (C : Catalogs) (tmp : ScriptInfo) : Bool :=
  if tmp.data_flags &&& D.SCRIPT_FLAG_COMMAND_ADDITIONAL ≠ 0 then
    if D.creatureOrModelEntry tmp ≠ 0
        ∧ C.sCreatureDisplayInfoStore (D.creatureOrModelEntry tmp) = false then false
    else true
  else
    if D.creatureOrModelEntry tmp ≠ 0
        ∧ C.GetCreatureTemplate (D.creatureOrModelEntry tmp) = false then false
    else true

/-- `case SCRIPT_COMMAND_GO_LOCK_STATE`, lines 592-607. -/
def goLockStateCheck (tmp : ScriptInfo) : Bool :=
  if -- lock(0x01) and unlock(0x02) together
     (tmp.goLockState_lockState &&& 0x01 ≠ 0 ∧ tmp.goLockState_lockState &&& 0x02 ≠ 0) ∨
     -- non-interact (0x4) and interact (0x08) together
     (tmp.goLockState_lockState &&& 0x04 ≠ 0 ∧ tmp.goLockState_lockState &&& 0x08 ≠ 0) ∨
     -- no setting
     tmp.goLockState_lockState = 0 ∨
     -- invalid number
     tmp.goLockState_lockState ≥ 0x10 then false
  else true

/-- The search of lines 629-641: the first spell id `i` with
`1 ≤ i < GetNumRows()` one of whose effects is `SPELL_EFFECT_SEND_TAXI` with the
taxi path as misc value; 0 when there is none. -/
def taxiSpell (D : Defines) (C : Catalogs) (tmp : ScriptInfo) : Nat :=
  ((List.range' 1 (C.sSpellStore.GetNumRows - 1)).find? (fun i =>
    match C.sSpellStore.LookupEntry i with
    | none => false
    | some spell => (List.range D.MAX_EFFECT_INDEX).any (fun j =>
        decide (spell.Effect j = SpellEffects.SPELL_EFFECT_SEND_TAXI
          ∧ spell.EffectMiscValue j = int32 tmp.sendTaxiPath_taxiPathId)))).getD 0

/-- `case SCRIPT_COMMAND_SEND_TAXI_PATH`, lines 619-650. -/
def sendTaxiPathCheck (D : Defines) (C : Catalogs) (tmp : ScriptInfo) : Bool :=
  if C.sTaxiPathStore tmp.sendTaxiPath_taxiPathId = false then false
  else if C.HasLogFilter_DB_STRICTED_CHECK = false then
    if taxiSpell D C tmp ≠ 0 then false else true
  else true

/-- `case SCRIPT_COMMAND_TERMINATE_COND`, lines 664-677. -/
def terminateCondCheck (C : Catalogs) (mgr : ObjectMgr) (tmp : ScriptInfo) : Bool :=
  if C.sConditionStorage tmp.terminateCond_conditionId = false then false
  else if tmp.terminateCond_failQuest ≠ 0
      ∧ mgr.GetQuestTemplate tmp.terminateCond_failQuest = none then false
  else true

/-- The `switch (tmp.command)` of lines 253-683: the quest templates after the
case and whether the case ended with `break` (`true`) or `continue` (`false`). -/
def commandCheck (D : Defines) (C : Catalogs) (mgr : ObjectMgr) (tmp : ScriptInfo) :
    ObjectMgr × Bool :=
  match tmp.command with
  | SCRIPT_COMMAND_TALK => (mgr, talkCheck tmp)
  | SCRIPT_COMMAND_EMOTE => (mgr, emoteCheck C tmp)
  | SCRIPT_COMMAND_FIELD_SET | SCRIPT_COMMAND_MOVE_TO | SCRIPT_COMMAND_FLAG_SET
  | SCRIPT_COMMAND_FLAG_REMOVE => (mgr, true)
  | SCRIPT_COMMAND_TELEPORT_TO => (mgr, teleportToCheck C tmp)
  | SCRIPT_COMMAND_QUEST_EXPLORED => questExploredCheck D mgr tmp
  | SCRIPT_COMMAND_KILL_CREDIT => (mgr, killCreditCheck C tmp)
  | SCRIPT_COMMAND_RESPAWN_GAMEOBJECT => (mgr, respawnGameobjectCheck D C tmp)
  | SCRIPT_COMMAND_TEMP_SUMMON_CREATURE => (mgr, tempSummonCreatureCheck C tmp)
  | SCRIPT_COMMAND_OPEN_DOOR | SCRIPT_COMMAND_CLOSE_DOOR => (mgr, changeDoorCheck D C tmp)
  | SCRIPT_COMMAND_ACTIVATE_OBJECT => (mgr, true)
  | SCRIPT_COMMAND_REMOVE_AURA =>
    (mgr, if (C.sSpellStore.LookupEntry tmp.removeAura_spellId).isNone = true then false else true)
  | SCRIPT_COMMAND_CAST_SPELL =>
    (mgr, if (C.sSpellStore.LookupEntry tmp.castSpell_spellId).isNone = true then false else true)
  | SCRIPT_COMMAND_PLAY_SOUND =>
    -- the two tests of the sound flags only emit diagnostics
    (mgr, if C.sSoundEntriesStore tmp.playSound_soundId = false then false else true)
  | SCRIPT_COMMAND_CREATE_ITEM => (mgr, createItemCheck C tmp)
  | SCRIPT_COMMAND_DESPAWN_SELF => (mgr, true)
  | SCRIPT_COMMAND_PLAY_MOVIE => (mgr, false)
  | SCRIPT_COMMAND_MOVEMENT =>
    (mgr, if tmp.movement_movementType ≥ D.MAX_DB_MOTION_TYPE then false else true)
  | SCRIPT_COMMAND_SET_ACTIVEOBJECT => (mgr, true)
  | SCRIPT_COMMAND_SET_FACTION =>
    (mgr, if tmp.faction_factionId ≠ 0 ∧ C.sFactionTemplateStore tmp.faction_factionId = false
          then false else true)
  | SCRIPT_COMMAND_MORPH_TO_ENTRY_OR_MODEL | SCRIPT_COMMAND_MOUNT_TO_ENTRY_OR_MODEL =>
    (mgr, morphOrMountCheck D C tmp)
  | SCRIPT_COMMAND_SET_RUN | SCRIPT_COMMAND_ATTACK_START => (mgr, true)
  | SCRIPT_COMMAND_GO_LOCK_STATE => (mgr, goLockStateCheck tmp)
  | SCRIPT_COMMAND_STAND_STATE =>
    (mgr, if tmp.standState_stand_state ≥ D.MAX_UNIT_STAND_STATE then false else true)
  | SCRIPT_COMMAND_MODIFY_NPC_FLAGS => (mgr, true)
  | SCRIPT_COMMAND_SEND_TAXI_PATH => (mgr, sendTaxiPathCheck D C tmp)
  | SCRIPT_COMMAND_TERMINATE_SCRIPT =>
    (mgr, if tmp.terminateScript_npcEntry ≠ 0
            ∧ C.GetCreatureTemplate tmp.terminateScript_npcEntry = false then false else true)
  | SCRIPT_COMMAND_PAUSE_WAYPOINTS => (mgr, true)
  | SCRIPT_COMMAND_XP_USER => (mgr, true)
  | SCRIPT_COMMAND_TERMINATE_COND => (mgr, terminateCondCheck C mgr tmp)
  | _ => (mgr, false)                                  -- default: unknown command

/-- What the loop of `LoadScripts` carries from row to row: the table being
filled, the quest templates, and the counter `count`. -/
structure LoadState where
  scripts : ScriptMapMapName
  objmgr : ObjectMgr
  count : Nat

/-- Lines 685-692: the command is stored under its id, keyed by its delay. -/
def storeCommand (scripts : ScriptMapMapName) (tmp : ScriptInfo) : ScriptMapMapName :=
  let second1 :=
    if mapFind scripts.second tmp.id = none then mapAssign scripts.second tmp.id []
    else scripts.second
  { scripts with second := mapIndexInsert second1 tmp.id (tmp.delay, tmp) }

/-- One pass through the body of the `do ... while (result->NextRow())` loop,
for the fetched row `tmp`. -/
def processRow (D : Defines) (C : Catalogs) (st : LoadState) (tmp : ScriptInfo) : LoadState :=
  if genericBuddyCheck D C tmp = false then st
  else if flagCheck D C tmp = false then st
  else
    let r := commandCheck D C st.objmgr tmp
    if r.2 = false then { st with objmgr := r.1 }
    else { scripts := storeCommand st.scripts tmp, objmgr := r.1, count := st.count + 1 }

/-- Translation of `ScriptMgr::LoadScripts`. `isScriptScheduled` is the value of
`IsScriptScheduled()`, `mgr` the quest templates and `scripts` the table before
the call; the result holds them after the call, together with the number of
script definitions reported as loaded (0 when nothing is reported). -/
def LoadScripts (D : Defines) (C : Catalogs) (isScriptScheduled : Bool) (mgr : ObjectMgr)
    (scripts : ScriptMapMapName) (tablename : String) : LoadState :=
  if isScriptScheduled = true then { scripts := scripts, objmgr := mgr, count := 0 }
  else
    let cleared : LoadState :=
      { scripts := { first := tablename, second := [] }, objmgr := mgr, count := 0 }
    match C.PQuery tablename with
    | [] => cleared
    | row :: rest => (row :: rest).foldl (processRow D C) cleared

/-- The commands stored for script id `id`, in iteration order of its multimap
(no command when the id is not in the table). -/
def commandsOf (scripts : ScriptMapMapName) (id : Nat) : List ScriptInfo :=
  (mapIndex scripts.second id).map Prod.snd

/-- All commands of a table, in iteration order. -/
def allCommands (scripts : ScriptMapMapName) : List ScriptInfo :=
  scripts.second.flatMap (fun e => e.2.map Prod.snd)

/-- Whether the row `tmp` passes every check of the loop body, for the quest
templates `mgr`. -/
def rowAccepted (D : Defines) (C : Catalogs) (mgr : ObjectMgr) (tmp : ScriptInfo) : Bool :=
  genericBuddyCheck D C tmp && flagCheck D C tmp && (commandCheck D C mgr tmp).2

/-- The multimap obtained by inserting the commands of a list one after the
other, each keyed by its delay, into an empty multimap. -/
def delayOrdered (l : List ScriptInfo) : ScriptMap :=
  l.foldl (fun m r => multimapInsert m (r.delay, r)) []

/-- What holds of the state of the loop after the rows `rs`, when it started
from an empty table named `tablename` and the quest templates `mgr0`. -/
structure LoadInv (D : Defines) (C : Catalogs) (mgr0 : ObjectMgr) (tablename : String)
    (rs : List ScriptInfo) (st : LoadState) : Prop where
  first : st.scripts.first = tablename
  quests : ∀ q, (st.objmgr.GetQuestTemplate q).isSome = (mgr0.GetQuestTemplate q).isSome
  sorted : st.scripts.second.Pairwise (fun a b => a.1 < b.1)
  index : ∀ id, mapIndex st.scripts.second id =
    delayOrdered (rs.filter (fun r => rowAccepted D C mgr0 r && decide (r.id = id)))
  count : st.count = (rs.filter (rowAccepted D C mgr0)).length
  perm : (allCommands st.scripts).Perm (rs.filter (rowAccepted D C mgr0))

/-- The catalogs `C` with the result set of every `SELECT` replaced by `rows`. -/
def Catalogs.withRows (C : Catalogs) (rows : List ScriptInfo) : Catalogs :=
  { C with PQuery := fun _ => rows }

/-- The table obtained by storing the commands of a list one after the other,
as lines 685-692 do, into an empty table named `tablename`. -/
def storeAll (tablename : String) (l : List ScriptInfo) : ScriptMapMapName :=
  l.foldl storeCommand { first := tablename, second := [] }

/-! ## Target resolution `ScriptAction::GetScriptProcessTargets` (`ScriptMgr.cpp` lines 922-1027) -/

/-- Object kinds (`enum TypeID`). -/
inductive TypeID where
  | TYPEID_OBJECT
  | TYPEID_ITEM
  | TYPEID_CONTAINER
  | TYPEID_UNIT
  | TYPEID_PLAYER
  | TYPEID_GAMEOBJECT
  | TYPEID_DYNAMICOBJECT
  | TYPEID_CORPSE
  deriving DecidableEq, Repr

/-- A live object of the map (`WorldObject`), with what the resolver reads of
it: `GetTypeId()`, `GetEntry()` and, for a creature, `isAlive()`. `guid` tells
objects apart. A `WorldObject*` is an `Option WorldObject`, `NULL` being `none`. -/
structure WorldObject where
  guid : Nat
  GetTypeId : TypeID
  GetEntry : Nat
  isAlive : Bool
  deriving DecidableEq, Repr

/-- The map `m_map` of a script action and the grid searches run on it.
`GetCreature entry lowGuid` is `m_map->GetCreature(cinfo->GetObjectGuid(lowGuid))`
for the template `cinfo` of `entry`, `GetGameObject entry lowGuid` is
`m_map->GetGameObject(ObjectGuid(HIGHGUID_GAMEOBJECT, entry, lowGuid))`. The three
searches give the object left in the result pointer by the nearest-match
searcher run from `searcher` for `entry` within `range`: the live creature
search over world objects (`Cell::VisitWorldObjects`) and over grid objects
(`Cell::VisitGridObjects`), and the game-object search over grid objects. -/
structure MapEnv where
  GetCreature : Nat → Nat → Option WorldObject
  GetGameObject : Nat → Nat → Option WorldObject
  NearestCreatureInWorld : WorldObject → Nat → Nat → Option WorldObject
  NearestCreatureInGrid : WorldObject → Nat → Nat → Option WorldObject
  NearestGameObjectInGrid : WorldObject → Nat → Nat → Option WorldObject

/-- The searcher of lines 958-961 ("prefer non-players as searcher"); `none`
when both the original source and the original target are null, the case line
950 leaves the function for. -/
def scriptSearcher (pOrigSource pOrigTarget : Option WorldObject) : Option WorldObject :=
  -- WorldObject* pSearcher = pOrigSource ? pOrigSource : pOrigTarget;
  match (match pOrigSource with | some s => some s | none => pOrigTarget) with
  | none => none
  | some pSearcher =>
    match pOrigTarget with
    | some t =>
      if pSearcher.GetTypeId = TypeID.TYPEID_PLAYER ∧ t.GetTypeId ≠ TypeID.TYPEID_PLAYER then some t
      else some pSearcher
    | none => some pSearcher

/-- The buddy found by entry from `pSearcher`, lines 963-994. -/
def scriptBuddyByEntry (D : Defines) (M : MapEnv) (m_script : ScriptInfo)
    (pSearcher : WorldObject) : Option WorldObject :=
  if D.IsCreatureBuddy m_script = true then
    let pCreatureBuddy :=
      if m_script.data_flags &&& D.SCRIPT_FLAG_BUDDY_IS_PET ≠ 0 then
        M.NearestCreatureInWorld pSearcher m_script.buddyEntry m_script.searchRadiusOrGuid
      else                                        -- Normal Creature
        M.NearestCreatureInGrid pSearcher m_script.buddyEntry m_script.searchRadiusOrGuid
    match pCreatureBuddy with
    | some b => some b
    | none => if pSearcher.GetEntry = m_script.buddyEntry then some pSearcher else none
  else
    M.NearestGameObjectInGrid pSearcher m_script.buddyEntry m_script.searchRadiusOrGuid

/-- Lines 926-1006 of `GetScriptProcessTargets`: `none` when the function
returns false, otherwise the value of `pBuddy` (null when the command has no
buddy entry). -/
def scriptBuddy (D : Defines) (M : MapEnv) (m_script : ScriptInfo)
    (pOrigSource pOrigTarget : Option WorldObject) : Option (Option WorldObject) :=
  if m_script.buddyEntry ≠ 0 then
    if m_script.data_flags &&& D.SCRIPT_FLAG_BUDDY_BY_GUID ≠ 0 then
      if D.IsCreatureBuddy m_script = true then
        match M.GetCreature m_script.buddyEntry m_script.searchRadiusOrGuid with
        | some b => if b.isAlive = false then none else some (some b)
        | none => none
      else
        match M.GetGameObject m_script.buddyEntry m_script.searchRadiusOrGuid with
        | some b => some (some b)
        | none => none
    else                                                -- Buddy by entry
      match scriptSearcher pOrigSource pOrigTarget with
      | none => none
      | some pSearcher =>
        match scriptBuddyByEntry D M m_script pSearcher with
        | some b => some (some b)
        | none => none
  else some none

/-- Lines 1008-1025 of `GetScriptProcessTargets`: the final source and target
for the buddy `pBuddy`. -/
def scriptFinalTargets (D : Defines) (m_script : ScriptInfo)
    (pOrigSource pOrigTarget pBuddy : Option WorldObject) :
    Option WorldObject × Option WorldObject :=
  let st1 : Option WorldObject × Option WorldObject :=
    if m_script.data_flags &&& D.SCRIPT_FLAG_BUDDY_AS_TARGET ≠ 0 then (pOrigSource, pBuddy)
    else ((match pBuddy with | some b => some b | none => pOrigSource), pOrigTarget)
  let st2 : Option WorldObject × Option WorldObject :=
    if m_script.data_flags &&& D.SCRIPT_FLAG_REVERSE_DIRECTION ≠ 0 then (st1.2, st1.1) else st1
  if m_script.data_flags &&& D.SCRIPT_FLAG_SOURCE_TARGETS_SELF ≠ 0 then (st2.1, st2.1) else st2

/-- Translation of `ScriptAction::GetScriptProcessTargets`: `none` when it
returns false, otherwise `(pFinalSource, pFinalTarget)`. -/
def GetScriptProcessTargets (D : Defines) (M : MapEnv) (m_script : ScriptInfo)
    (pOrigSource pOrigTarget : Option WorldObject) :
    Option (Option WorldObject × Option WorldObject) :=
  match scriptBuddy D M m_script pOrigSource pOrigTarget with
  | none => none
  | some pBuddy => some (scriptFinalTargets D m_script pOrigSource pOrigTarget pBuddy)

/-- Step (a) of the flag post-processing as the specification words it: with
buddy-as-target the effective source is the original source and the effective
target the buddy; otherwise the effective source is the buddy if found, else
the original source, and the effective target the original target. -/
def specStepBuddy (buddyAsTarget : Bool) (origSource origTarget buddy : Option WorldObject) :
    Option WorldObject × Option WorldObject :=
  if buddyAsTarget then (origSource, buddy)
  else (if buddy.isSome then buddy else origSource, origTarget)

/-- Step (b) as the specification words it: with reverse-direction, swap the
effective source and target. -/
def specStepReverse (reverseDirection : Bool) (p : Option WorldObject × Option WorldObject) :
    Option WorldObject × Option WorldObject :=
  if reverseDirection then Prod.swap p else p

/-- Step (c) as the specification words it: with source-targets-self, the
effective target is overwritten to equal the effective source. -/
def specStepSelf (sourceTargetsSelf : Bool) (p : Option WorldObject × Option WorldObject) :
    Option WorldObject × Option WorldObject :=
  if sourceTargetsSelf then (p.1, p.1) else p

/-- The flag post-processing of the specification: (a), then (b), then (c). -/
def specProcessTargets (buddyAsTarget reverseDirection sourceTargetsSelf : Bool)
    (origSource origTarget buddy : Option WorldObject) :
    Option WorldObject × Option WorldObject :=
  specStepSelf sourceTargetsSelf
    (specStepReverse reverseDirection (specStepBuddy buddyAsTarget origSource origTarget buddy))

/-! ## Execution of one step: `ScriptAction::HandleScriptStep` (`ScriptMgr.cpp` lines 1028-1795)

The calls by which a step changes the world (methods of the objects, of the
map and of the players that are implemented outside the translated sources)
are recorded as a list of `Effect`s, in the order in which the step makes
them; a step that makes no such call applies no world mutation. What a step
reads of the world is a field of `ScriptWorld`. -/

/-- High part of an object guid (`enum HighGuid`). -/
inductive HighGuid where
  | HIGHGUID_ITEM
  | HIGHGUID_PLAYER
  | HIGHGUID_GAMEOBJECT
  | HIGHGUID_UNIT
  | HIGHGUID_PET
  | HIGHGUID_CORPSE
  | other (n : Nat)
  deriving DecidableEq, Repr

/-- An object guid (`ObjectGuid`): its raw value, 0 for the empty guid (the
guid for which `!guid` holds), and its high part. -/
structure ObjectGuid where
  raw : Nat
  GetHigh : HighGuid
  deriving DecidableEq, Repr

/-- An item (`Item`), an `Object` that is not a `WorldObject`. -/
structure Item where
  guid : Nat
  deriving DecidableEq, Repr

/-- An `Object*` that is not null: a world object (the objects for which
`isType(TYPEMASK_WORLDOBJECT)` holds) or an item (`isType(TYPEMASK_ITEM)`). -/
inductive ScriptObject where
  | worldObject (w : WorldObject)
  | item (i : Item)
  deriving DecidableEq, Repr

/-- The type masks a step tests a world object against with `isType`. -/
inductive TypeMask where
  | TYPEMASK_UNIT
  | TYPEMASK_GAMEOBJECT
  | TYPEMASK_CREATURE_OR_GAMEOBJECT
  deriving DecidableEq, Repr

/-- State of a game object (`enum GOState`); `GO_STATE_READY` is a closed door. -/
inductive GOState where
  | GO_STATE_ACTIVE
  | GO_STATE_READY
  | GO_STATE_ACTIVE_ALTERNATIVE
  deriving DecidableEq, Repr

/-- Loot state of a game object (`enum LootState`). -/
inductive LootState where
  | GO_NOT_READY
  | GO_READY
  | GO_ACTIVATED
  | GO_JUST_DEACTIVATED
  deriving DecidableEq, Repr

/-- Status of a quest for a player (`enum QuestStatus`); only the enumerator
a step compares against is named. -/
inductive QuestStatus where
  | QUEST_STATUS_INCOMPLETE
  | other (n : Nat)
  deriving DecidableEq, Repr

/-- The two summon types a step passes to `SummonCreature`. -/
inductive TempSummonType where
  | TEMPSUMMON_TIMED_OOC_OR_DEAD_DESPAWN
  | TEMPSUMMON_DEAD_DESPAWN
  deriving DecidableEq, Repr

/-- The update field named in a `SetFlag` / `RemoveFlag` call. -/
inductive UpdateField where
  | index (n : Nat)
  | GAMEOBJECT_FLAGS
  | UNIT_NPC_FLAGS
  | PLAYER_FLAGS
  deriving DecidableEq, Repr

/-- The flag value named in a `SetFlag` / `RemoveFlag` call. -/
inductive FlagValue where
  | value (n : Nat)
  | GO_FLAG_LOCKED
  | GO_FLAG_NO_INTERACT
  | PLAYER_FLAGS_XP_USER_DISABLED
  deriving DecidableEq, Repr

/-- The mutating calls a step makes, named after the method called; the
first argument is the object the method is called on. -/
inductive Effect where
  | DoDisplayText (source : WorldObject) (textId : Int) (target : Option WorldObject)
  | HandleEmote (unit : WorldObject) (emote : Nat)
  | SetUInt32Value (obj : ScriptObject) (index value : Nat)
  | SetFlag (obj : ScriptObject) (field : UpdateField) (flag : FlagValue)
  | RemoveFlag (obj : ScriptObject) (field : UpdateField) (flag : FlagValue)
  | SetFacingTo (unit : WorldObject) (o : ℚ)
  | NearTeleportTo (unit : WorldObject) (x y z o : ℚ)
  | MonsterMoveWithSpeed (unit : WorldObject) (x y z speed : ℚ)
  | MotionMasterClear (unit : WorldObject)
  | MovePoint (unit : WorldObject) (id : Nat) (x y z : ℚ)
  | TeleportTo (player : WorldObject) (mapId : Nat) (x y z o : ℚ)
  | AreaExploredOrEventHappens (player : WorldObject) (questId : Nat)
  | FailQuest (player : WorldObject) (questId : Nat)
  | RewardPlayerAndGroupAtEvent (player : WorldObject) (creatureEntry : Nat)
      (searcher : Option WorldObject)
  | KilledMonsterCredit (player : WorldObject) (creatureEntry : Nat)
      (rewardSource : Option WorldObject)
  | SetLootState (go : WorldObject) (state : LootState)
  | SetRespawnTime (go : WorldObject) (time : Nat)
  | Refresh (go : WorldObject)
  | SummonCreature (source : WorldObject) (creatureEntry : Nat) (x y z o : ℚ)
      (summonType : TempSummonType) (despawnDelay : Nat) (asActiveObject : Bool)
  | UseDoorOrButton (go : WorldObject) (time_to_restore : Nat)
  | Use (go : WorldObject) (user : WorldObject)
  | RemoveAurasDueToSpell (unit : WorldObject) (spellId : Nat)
  | CastSpell (caster target : WorldObject) (spellId : Nat) (triggered : Bool)
      (originalCaster : Option WorldObject)
  | PlayDistanceSound (source : WorldObject) (soundId : Nat) (target : Option WorldObject)
  | PlayDirectSoundToMap (soundId zoneId : Nat)
  | PlayDirectSound (source : WorldObject) (soundId : Nat) (target : Option WorldObject)
  | StoreNewItemInInventorySlot (player : WorldObject) (itemEntry amount : Nat)
  | SendNewItem (player : WorldObject) (item : Item) (amount : Nat)
  | ForcedDespawn (creature : WorldObject) (delay : Nat)
  | MoveIdle (creature : WorldObject)
  | MoveRandomAroundPoint (creature : WorldObject) (x y z radius : ℚ)
  | MoveWaypoint (creature : WorldObject)
  | SetActiveObjectState (creature : WorldObject) (activate : Bool)
  | SetFactionTemporary (creature : WorldObject) (factionId flags : Nat)
  | ClearTemporaryFaction (creature : WorldObject)
  | DeMorph (creature : WorldObject)
  | SetDisplayId (creature : WorldObject) (displayId : Nat)
  | Unmount (creature : WorldObject)
  | Mount (creature : WorldObject) (displayId : Nat)
  | SetWalk (creature : WorldObject) (enable : Bool)
  | AttackStart (attacker target : WorldObject)
  | SetStandState (unit : WorldObject) (state : Nat)
  | ActivateTaxiPathTo (player : WorldObject) (taxiPathId : Nat)
  | AddToWaypointPauseTime (creature : WorldObject) (time : Int)
  | addUnitState_WAYPOINT_PAUSED (creature : WorldObject)
  | clearUnitState_WAYPOINT_PAUSED (creature : WorldObject)
  deriving Repr

/-- What one step gives back: the value returned by `HandleScriptStep` (true
when the further parts of the script shall be skipped) and the mutating calls
the step made. -/
structure StepResult where
  halt : Bool
  effects : List Effect
  deriving Repr

/-- Members of the payload union that only the execution reads, and constants
of the execution, all declared in headers outside the translated sources. -/
structure ScriptFields where
  setField_fieldId : ScriptInfo → Nat
  setField_fieldValue : ScriptInfo → Nat
  moveTo_travelSpeed : ScriptInfo → Nat
  setFlag_fieldId : ScriptInfo → Nat
  setFlag_fieldValue : ScriptInfo → Nat
  removeFlag_fieldId : ScriptInfo → Nat
  removeFlag_fieldValue : ScriptInfo → Nat
  killCredit_isGroupCredit : ScriptInfo → Nat
  respawnGo_goGuid : ScriptInfo → Nat
  respawnGo_despawnDelay : ScriptInfo → Nat
  summonCreature_despawnDelay : ScriptInfo → Nat
  changeDoor_goGuid : ScriptInfo → Nat
  changeDoor_resetDelay : ScriptInfo → Nat
  despawn_despawnDelay : ScriptInfo → Nat
  movement_wanderDistance : ScriptInfo → Nat
  activeObject_activate : ScriptInfo → Nat
  faction_flags : ScriptInfo → Nat
  run_run : ScriptInfo → Nat
  npcFlag_flag : ScriptInfo → Nat
  npcFlag_change_flag : ScriptInfo → Nat
  terminateScript_searchDist : ScriptInfo → Nat
  pauseWaypoint_doPause : ScriptInfo → Nat
  xpDisabled_flags : ScriptInfo → Nat
  OBJECT_FIELD_ENTRY : Nat
  IDLE_MOTION_TYPE : Nat
  RANDOM_MOTION_TYPE : Nat
  WAYPOINT_MOTION_TYPE : Nat

/-- What a step reads of the world: the map with its lookups by guid, the
properties of the live objects, the catalog of game-object spawns, the
evaluation of conditions, the groups and quest states of the players, and the
random draw `urand min max`. `StoreNewItem` is the item pointer returned by
`StoreNewItemInInventorySlot`, `ChooseDisplayId entry` the display id chosen for
the creature template of `entry`. -/
structure ScriptWorld where
  map : MapEnv
  GetCreatureByGuid : ObjectGuid → Option WorldObject
  GetPetByGuid : ObjectGuid → Option WorldObject
  GetPlayerByGuid : ObjectGuid → Option WorldObject
  GetGameObjectByGuid : ObjectGuid → Option WorldObject
  FindCorpse : ObjectGuid → Option WorldObject
  GetItemByGuid : WorldObject → ObjectGuid → Option Item
  IsInWorld : ScriptObject → Bool
  isType : WorldObject → TypeMask → Bool
  urand : Nat → Nat → Nat
  GetGOData : Nat → Option GameObjectData
  GetValuesCount : ScriptObject → Nat
  IsWithinDist3d : WorldObject → ℚ → ℚ → ℚ → ℚ → Bool
  GetObjectBoundingRadius : WorldObject → ℚ
  GetOrientation : WorldObject → ℚ
  GetPositionX : WorldObject → ℚ
  GetPositionY : WorldObject → ℚ
  GetPositionZ : WorldObject → ℚ
  GetRespawnCoordX : WorldObject → ℚ
  GetRespawnCoordY : WorldObject → ℚ
  GetRespawnCoordZ : WorldObject → ℚ
  GetRespawnCoordDist : WorldObject → ℚ
  IsWithinDistInMap : WorldObject → WorldObject → ℚ → Bool
  GetGoType : WorldObject → GameobjectTypes
  GetGoState : WorldObject → GOState
  isSpawned : WorldObject → Bool
  GetZoneId : WorldObject → Nat
  StoreNewItem : WorldObject → Nat → Nat → Option Item
  GetCurrentMovementGeneratorType : WorldObject → Nat
  IsFriendlyTo : WorldObject → WorldObject → Bool
  HasFlag_UNIT_NPC_FLAGS : WorldObject → Nat → Bool
  IsPlayerMeetToCondition : Nat → Option WorldObject → Option WorldObject → Bool
  GetGroup : WorldObject → Option (List WorldObject)
  GetQuestStatus : WorldObject → Nat → QuestStatus
  ChooseDisplayId : Nat → Nat

/-- The members of a script action (`ScriptAction`) a step reads besides the
map: the command and the guids of source, target and owner. -/
structure ScriptAction where
  m_script : ScriptInfo
  m_sourceGuid : ObjectGuid
  m_targetGuid : ObjectGuid
  m_ownerGuid : ObjectGuid
  deriving DecidableEq, Repr

/-- Translation of `ScriptAction::GetScriptCommandObject`: `none` when it
returns false, otherwise the value left in `resultObject` (null for the empty
guid, for an object that is not found and for one that is not in world). -/
def GetScriptCommandObject (W : ScriptWorld) (m_ownerGuid guid : ObjectGuid)
    (includeItem : Bool) : Option (Option ScriptObject) :=
  if guid.raw = 0 then some none
  else
    let found : Option (Option ScriptObject) :=
      match guid.GetHigh with
      | HighGuid.HIGHGUID_UNIT => some ((W.GetCreatureByGuid guid).map ScriptObject.worldObject)
      | HighGuid.HIGHGUID_PET => some ((W.GetPetByGuid guid).map ScriptObject.worldObject)
      | HighGuid.HIGHGUID_PLAYER => some ((W.GetPlayerByGuid guid).map ScriptObject.worldObject)
      | HighGuid.HIGHGUID_GAMEOBJECT =>
        some ((W.GetGameObjectByGuid guid).map ScriptObject.worldObject)
      | HighGuid.HIGHGUID_CORPSE => some ((W.FindCorpse guid).map ScriptObject.worldObject)
      | HighGuid.HIGHGUID_ITEM =>
        if includeItem = true then
          match W.GetPlayerByGuid m_ownerGuid with
          | some player => some ((W.GetItemByGuid player guid).map ScriptObject.item)
          | none => some none
        else none                   -- no break, falls into the default case
      | HighGuid.other _ => none
    match found with
    | none => none
    | some none => some none
    | some (some resultObject) =>
      if W.IsInWorld resultObject = false then some none else some (some resultObject)

/-- Translation of `ScriptAction::LogIfNotCreature`. -/
def LogIfNotCreature (pWorldObject : Option WorldObject) : Bool :=
  match pWorldObject with
  | none => true
  | some w => if w.GetTypeId ≠ TypeID.TYPEID_UNIT then true else false

/-- Translation of `ScriptAction::LogIfNotUnit`. -/
def LogIfNotUnit (W : ScriptWorld) (pWorldObject : Option WorldObject) : Bool :=
  match pWorldObject with
  | none => true
  | some w => if W.isType w TypeMask.TYPEMASK_UNIT = false then true else false

/-- Translation of `ScriptAction::LogIfNotGameObject`. -/
def LogIfNotGameObject (pWorldObject : Option WorldObject) : Bool :=
  match pWorldObject with
  | none => true
  | some w => if w.GetTypeId ≠ TypeID.TYPEID_GAMEOBJECT then true else false

/-- Whether a pointer is non-null and points to a player
(`p && p->GetTypeId() == TYPEID_PLAYER`). -/
def isPlayerPtr (p : Option WorldObject) : Bool :=
  match p with
  | none => false
  | some w => decide (w.GetTypeId = TypeID.TYPEID_PLAYER)

/-- Translation of `ScriptAction::GetPlayerTargetOrSourceAndLog`: a player if
possible, the target preferred. -/
def GetPlayerTargetOrSourceAndLog (pSource pTarget : Option WorldObject) : Option WorldObject :=
  if isPlayerPtr pTarget = false ∧ isPlayerPtr pSource = false then none
  else if isPlayerPtr pTarget = true then pTarget else pSource

/-- The result of a case that ends with `break` after the calls `es`. -/
def stepBreak (es : List Effect) : StepResult := { halt := false, effects := es }

/-- The value of `i` after the loop of lines 1113-1118: the first index from 2
on whose text id is 0, `MAX_TEXT_ID` when there is none. -/
def talkTextIdBound (m_script : ScriptInfo) : Nat :=
  ((List.range' 2 (MAX_TEXT_ID - 2)).find? (fun i => decide (m_script.textId i = 0))).getD
    MAX_TEXT_ID

/-- The text id displayed by a talk step, lines 1108-1122. -/
def talkTextId (W : ScriptWorld) (m_script : ScriptInfo) : Int :=
  if m_script.textId 1 ≠ 0 then        -- May have text for random
    m_script.textId (W.urand 0 (talkTextIdBound m_script - 1))
  else m_script.textId 0

/-- `case SCRIPT_COMMAND_TALK`, lines 1099-1127. -/
def stepTalk (W : ScriptWorld) (m_script : ScriptInfo) (pSource pTarget : Option WorldObject) :
    StepResult :=
  match pSource with
  | none => stepBreak []
  | some source =>
    let unitTarget : Option WorldObject :=
      match pTarget with
      | some t => if W.isType t TypeMask.TYPEMASK_UNIT = true then some t else none
      | none => none
    stepBreak [Effect.DoDisplayText source (talkTextId W m_script) unitTarget]

/-- The vector `emotes` of lines 1133-1140; `uint32(textId[i])` is the text
id modulo 2^32. -/
def emoteList (m_script : ScriptInfo) : List Nat :=
  m_script.emote_emoteId ::
    ((List.range MAX_TEXT_ID).takeWhile (fun i => decide (m_script.textId i ≠ 0))).map
      (fun i => (m_script.textId i % 2 ^ 32).toNat)

/-- `case SCRIPT_COMMAND_EMOTE`, lines 1128-1144. -/
def stepEmote (W : ScriptWorld) (m_script : ScriptInfo) (pSource : Option WorldObject) :
    StepResult :=
  if LogIfNotUnit W pSource = true then stepBreak []
  else
    match pSource with
    | none => stepBreak []
    | some unit =>
      stepBreak [Effect.HandleEmote unit
        ((emoteList m_script).getD (W.urand 0 ((emoteList m_script).length - 1)) 0)]

/-- The common body of `case SCRIPT_COMMAND_FIELD_SET`, `FLAG_SET` and
`FLAG_REMOVE` (lines 1145-1158, 1190-1217): the call `call obj` is made unless
the object is null or the field index is out of bounds. -/
def stepField (F : ScriptFields) (W : ScriptWorld) (fieldId : Nat)
    (pSourceOrItem : Option ScriptObject) (call : ScriptObject → Effect) : StepResult :=
  match pSourceOrItem with
  | none => stepBreak []
  | some obj =>
    if fieldId ≤ F.OBJECT_FIELD_ENTRY ∨ fieldId ≥ W.GetValuesCount obj then stepBreak []
    else stepBreak [call obj]

/-- `case SCRIPT_COMMAND_MOVE_TO`, lines 1159-1189; `0.01f` is 1/100. -/
def stepMoveTo (D : Defines) (F : ScriptFields) (W : ScriptWorld) (m_script : ScriptInfo)
    (pSource : Option WorldObject) : StepResult :=
  if LogIfNotUnit W pSource = true then stepBreak []
  else
    match pSource with
    | none => stepBreak []
    | some unit =>
      -- Just turn around
      if (m_script.x = 0 ∧ m_script.y = 0 ∧ m_script.z = 0) ∨
          W.IsWithinDist3d unit m_script.x m_script.y m_script.z
            (1 / 100 - W.GetObjectBoundingRadius unit) = true then
        stepBreak [Effect.SetFacingTo unit m_script.o]
      -- For command additional teleport the unit
      else if m_script.data_flags &&& D.SCRIPT_FLAG_COMMAND_ADDITIONAL ≠ 0 then
        stepBreak [Effect.NearTeleportTo unit m_script.x m_script.y m_script.z
          (if m_script.o ≠ 0 then m_script.o else W.GetOrientation unit)]
      -- Normal Movement
      else if F.moveTo_travelSpeed m_script ≠ 0 then
        stepBreak [Effect.MonsterMoveWithSpeed unit m_script.x m_script.y m_script.z
          ((F.moveTo_travelSpeed m_script : ℚ) * (1 / 100))]
      else
        stepBreak [Effect.MotionMasterClear unit,
          Effect.MovePoint unit 0 m_script.x m_script.y m_script.z]

/-- `case SCRIPT_COMMAND_TELEPORT_TO`, lines 1218-1226. -/
def stepTeleportTo (m_script : ScriptInfo) (pSource pTarget : Option WorldObject) : StepResult :=
  match GetPlayerTargetOrSourceAndLog pSource pTarget with
  | none => stepBreak []
  | some pPlayer =>
    stepBreak [Effect.TeleportTo pPlayer m_script.teleportTo_mapId m_script.x m_script.y
      m_script.z m_script.o]

/-- The pointer itself when it is non-null and
`isType(TYPEMASK_CREATURE_OR_GAMEOBJECT)` holds of it, null otherwise. -/
def creatureOrGameObjectPtr (W : ScriptWorld) (p : Option WorldObject) : Option WorldObject :=
  match p with
  | some w => if W.isType w TypeMask.TYPEMASK_CREATURE_OR_GAMEOBJECT = true then some w else none
  | none => none

/-- The pointer `pWorldObject` of lines 1233-1237. -/
def questExploredWorldObject (W : ScriptWorld) (pSource pTarget : Option WorldObject) :
    Option WorldObject :=
  match creatureOrGameObjectPtr W pSource with
  | some w => some w
  | none => creatureOrGameObjectPtr W pTarget

/-- `case SCRIPT_COMMAND_QUEST_EXPLORED`, lines 1227-1260. `none` stands for
the evaluation of `pWorldObject->IsWithinDistInMap` on a null `pWorldObject`. -/
def stepQuestExplored (W : ScriptWorld) (m_script : ScriptInfo)
    (pSource pTarget : Option WorldObject) : Option StepResult :=
  match GetPlayerTargetOrSourceAndLog pSource pTarget with
  | none => some (stepBreak [])
  | some pPlayer =>
    -- if we have a distance, we must have a worldobject
    if m_script.questExplored_distance ≠ 0 ∧ questExploredWorldObject W pSource pTarget = none then
      some (stepBreak [])
    else
      let failQuest : Option Bool :=
        match questExploredWorldObject W pSource pTarget with
        | some w =>
          -- Creature must be alive for giving credit
          if w.GetTypeId = TypeID.TYPEID_UNIT ∧ w.isAlive = false then some true
          else if m_script.questExplored_distance ≠ 0 ∧
              W.IsWithinDistInMap w pPlayer (m_script.questExplored_distance : ℚ) = false then
            some true
          else some false
        | none =>
          if m_script.questExplored_distance ≠ 0 then none else some false
      match failQuest with
      | none => none
      | some false =>
        some (stepBreak [Effect.AreaExploredOrEventHappens pPlayer m_script.questExplored_questId])
      | some true => some (stepBreak [Effect.FailQuest pPlayer m_script.questExplored_questId])

/-- The pointer `pRewardSource` of line 1268. -/
def killCreditRewardSource (pSource pTarget : Option WorldObject) : Option WorldObject :=
  match pSource with
  | some s =>
    if s.GetTypeId = TypeID.TYPEID_UNIT then some s
    else
      match pTarget with
      | some t => if t.GetTypeId = TypeID.TYPEID_UNIT then some t else none
      | none => none
  | none =>
    match pTarget with
    | some t => if t.GetTypeId = TypeID.TYPEID_UNIT then some t else none
    | none => none

/-- The creature entry credited by a kill-credit step, lines 1267-1280; `none`
when the step is left for lack of a creature partner. -/
def killCreditEntry (m_script : ScriptInfo) (pSource pTarget : Option WorldObject) :
    Option Nat :=
  if m_script.killCredit_creatureEntry ≠ 0 then some m_script.killCredit_creatureEntry
  else
    -- dynamic effect, take entry of reward Source
    match killCreditRewardSource pSource pTarget with
    | some r => some r.GetEntry
    | none => none

/-- `case SCRIPT_COMMAND_KILL_CREDIT`, lines 1261-1293. -/
def stepKillCredit (F : ScriptFields) (m_script : ScriptInfo)
    (pSource pTarget : Option WorldObject) : StepResult :=
  match GetPlayerTargetOrSourceAndLog pSource pTarget with
  | none => stepBreak []
  | some pPlayer =>
    match killCreditEntry m_script pSource pTarget with
    | none => stepBreak []
    | some creatureEntry =>
      if F.killCredit_isGroupCredit m_script ≠ 0 then
        let pSearcher : Option WorldObject :=
          match killCreditRewardSource pSource pTarget with
          | some r => some r
          | none => (match pSource with | some s => some s | none => pTarget)
        stepBreak [Effect.RewardPlayerAndGroupAtEvent pPlayer creatureEntry pSearcher]
      else
        stepBreak [Effect.KilledMonsterCredit pPlayer creatureEntry
          (killCreditRewardSource pSource pTarget)]

/-- The game object of a respawn or door step, lines 1299-1320 and 1367-1388:
the spawn `goGuid` of the map when `goGuid` is set, otherwise the source when
it is a game object; `none` when the step is left with `break`. -/
def stepGameObject (W : ScriptWorld) (goGuid : Nat) (pSource : Option WorldObject) :
    Option WorldObject :=
  if goGuid ≠ 0 then
    match W.GetGOData goGuid with
    | none => none                                      -- checked at load
    | some goData => W.map.GetGameObject goData.id goGuid
  else
    if LogIfNotGameObject pSource = true then none else pSource

/-- `case SCRIPT_COMMAND_RESPAWN_GAMEOBJECT`, lines 1294-1338. -/
def stepRespawnGameobject (F : ScriptFields) (W : ScriptWorld) (m_script : ScriptInfo)
    (pSource : Option WorldObject) : StepResult :=
  let time_to_despawn : Nat :=
    if F.respawnGo_despawnDelay m_script < 5 then 5 else F.respawnGo_despawnDelay m_script
  match stepGameObject W (F.respawnGo_goGuid m_script) pSource with
  | none => stepBreak []
  | some pGo =>
    if W.GetGoType pGo = GameobjectTypes.GAMEOBJECT_TYPE_FISHINGNODE ∨
        W.GetGoType pGo = GameobjectTypes.GAMEOBJECT_TYPE_DOOR ∨
        W.GetGoType pGo = GameobjectTypes.GAMEOBJECT_TYPE_BUTTON ∨
        W.GetGoType pGo = GameobjectTypes.GAMEOBJECT_TYPE_TRAP then stepBreak []
    else if W.isSpawned pGo = true then stepBreak []    -- gameobject already spawned
    else
      stepBreak [Effect.SetLootState pGo LootState.GO_READY,
        Effect.SetRespawnTime pGo time_to_despawn,       -- despawn object in ? seconds
        Effect.Refresh pGo]

/-- `case SCRIPT_COMMAND_TEMP_SUMMON_CREATURE`, lines 1339-1360. -/
def stepTempSummonCreature (D : Defines) (F : ScriptFields) (m_script : ScriptInfo)
    (pSource : Option WorldObject) : StepResult :=
  match pSource with
  | none => stepBreak []
  | some source =>
    stepBreak [Effect.SummonCreature source m_script.summonCreature_creatureEntry
      m_script.x m_script.y m_script.z m_script.o
      (if F.summonCreature_despawnDelay m_script ≠ 0 then
        TempSummonType.TEMPSUMMON_TIMED_OOC_OR_DEAD_DESPAWN
       else TempSummonType.TEMPSUMMON_DEAD_DESPAWN)
      (F.summonCreature_despawnDelay m_script)
      (decide (m_script.data_flags &&& D.SCRIPT_FLAG_COMMAND_ADDITIONAL ≠ 0))]

/-- Lines 1401-1402: the target is toggled with the door when it is a game
object of type button. -/
def doorButtonCalls (W : ScriptWorld) (pTarget : Option WorldObject) (time_to_reset : Nat) :
    List Effect :=
  match pTarget with
  | some t =>
    if W.isType t TypeMask.TYPEMASK_GAMEOBJECT = true ∧
        W.GetGoType t = GameobjectTypes.GAMEOBJECT_TYPE_BUTTON then
      [Effect.UseDoorOrButton t time_to_reset]
    else []
  | none => []

/-- `case SCRIPT_COMMAND_OPEN_DOOR` and `case SCRIPT_COMMAND_CLOSE_DOOR`,
lines 1361-1406. -/
def stepChangeDoor (F : ScriptFields) (W : ScriptWorld) (m_script : ScriptInfo)
    (pSource pTarget : Option WorldObject) : StepResult :=
  let time_to_reset : Nat :=
    if F.changeDoor_resetDelay m_script < 15 then 15 else F.changeDoor_resetDelay m_script
  match stepGameObject W (F.changeDoor_goGuid m_script) pSource with
  | none => stepBreak []
  | some pDoor =>
    if W.GetGoType pDoor ≠ GameobjectTypes.GAMEOBJECT_TYPE_DOOR then stepBreak []
    else if (m_script.command = SCRIPT_COMMAND_OPEN_DOOR ∧
          W.GetGoState pDoor ≠ GOState.GO_STATE_READY) ∨
        (m_script.command = SCRIPT_COMMAND_CLOSE_DOOR ∧
          W.GetGoState pDoor = GOState.GO_STATE_READY) then
      stepBreak []        -- to be opened door already open, or to be closed door already closed
    else
      stepBreak (Effect.UseDoorOrButton pDoor time_to_reset ::
        doorButtonCalls W pTarget time_to_reset)

/-- `case SCRIPT_COMMAND_ACTIVATE_OBJECT`, lines 1407-1416. -/
def stepActivateObject (W : ScriptWorld) (pSource pTarget : Option WorldObject) : StepResult :=
  if LogIfNotUnit W pSource = true then stepBreak []
  else if LogIfNotGameObject pTarget = true then stepBreak []
  else
    match pSource, pTarget with
    | some unit, some go => stepBreak [Effect.Use go unit]
    | _, _ => stepBreak []

/-- `case SCRIPT_COMMAND_REMOVE_AURA`, lines 1417-1424. -/
def stepRemoveAura (W : ScriptWorld) (m_script : ScriptInfo) (pSource : Option WorldObject) :
    StepResult :=
  if LogIfNotUnit W pSource = true then stepBreak []
  else
    match pSource with
    | some unit => stepBreak [Effect.RemoveAurasDueToSpell unit m_script.removeAura_spellId]
    | none => stepBreak []

/-- `case SCRIPT_COMMAND_CAST_SPELL`, lines 1425-1442. -/
def stepCastSpell (D : Defines) (W : ScriptWorld) (m_script : ScriptInfo)
    (pSource pTarget : Option WorldObject) : StepResult :=
  if LogIfNotUnit W pTarget = true then stepBreak []
  else
    match pTarget with
    | none => stepBreak []
    | some target =>
      if (match pSource with
          | some s => decide (s.GetTypeId = TypeID.TYPEID_GAMEOBJECT)
          | none => false) = true then
        stepBreak [Effect.CastSpell target target m_script.castSpell_spellId true pSource]
      else if LogIfNotUnit W pSource = true then stepBreak []
      else
        match pSource with
        | none => stepBreak []
        | some source =>
          stepBreak [Effect.CastSpell source target m_script.castSpell_spellId
            (decide (m_script.data_flags &&& D.SCRIPT_FLAG_COMMAND_ADDITIONAL ≠ 0)) none]

/-- `case SCRIPT_COMMAND_PLAY_SOUND`, lines 1443-1468. -/
def stepPlaySound (W : ScriptWorld) (m_script : ScriptInfo)
    (pSource pTarget : Option WorldObject) : StepResult :=
  match pSource with
  | none => stepBreak []
  | some source =>
    -- bitmask: 0/1=target-player, 0/2=with distance dependent, 0/4=map wide, 0/8=zone wide
    let pSoundTarget : Option WorldObject :=
      if m_script.playSound_flags &&& 1 ≠ 0 then GetPlayerTargetOrSourceAndLog pSource pTarget
      else none
    if m_script.playSound_flags &&& 1 ≠ 0 ∧ pSoundTarget = none then stepBreak []
    else if m_script.playSound_flags &&& 2 ≠ 0 then
      stepBreak [Effect.PlayDistanceSound source m_script.playSound_soundId pSoundTarget]
    else if m_script.playSound_flags &&& (4 ||| 8) ≠ 0 then
      stepBreak [Effect.PlayDirectSoundToMap m_script.playSound_soundId
        (if m_script.playSound_flags &&& 8 ≠ 0 then W.GetZoneId source else 0)]
    else
      stepBreak [Effect.PlayDirectSound source m_script.playSound_soundId pSoundTarget]

/-- `case SCRIPT_COMMAND_CREATE_ITEM`, lines 1469-1479. -/
def stepCreateItem (W : ScriptWorld) (m_script : ScriptInfo)
    (pSource pTarget : Option WorldObject) : StepResult :=
  match GetPlayerTargetOrSourceAndLog pSource pTarget with
  | none => stepBreak []
  | some pPlayer =>
    stepBreak (Effect.StoreNewItemInInventorySlot pPlayer m_script.createItem_itemEntry
        m_script.createItem_amount ::
      (match W.StoreNewItem pPlayer m_script.createItem_itemEntry m_script.createItem_amount with
       | some pItem => [Effect.SendNewItem pPlayer pItem m_script.createItem_amount]
       | none => []))

/-- `case SCRIPT_COMMAND_DESPAWN_SELF`, lines 1480-1495. -/
def stepDespawnSelf (F : ScriptFields) (m_script : ScriptInfo)
    (pSource pTarget : Option WorldObject) : StepResult :=
  let pTarget1 : Option WorldObject :=
    match pTarget, pSource with
    | some t, some s =>
      if t.GetTypeId ≠ TypeID.TYPEID_UNIT ∧ s.GetTypeId = TypeID.TYPEID_UNIT then some s
      else some t
    | t, _ => t
  if LogIfNotCreature pTarget1 = true then stepBreak []
  else
    match pTarget1 with
    | some creature => stepBreak [Effect.ForcedDespawn creature (F.despawn_despawnDelay m_script)]
    | none => stepBreak []

/-- `case SCRIPT_COMMAND_MOVEMENT`, lines 1500-1530. -/
def stepMovement (D : Defines) (F : ScriptFields) (W : ScriptWorld) (m_script : ScriptInfo)
    (pSource : Option WorldObject) : StepResult :=
  if LogIfNotCreature pSource = true then stepBreak []
  else
    match pSource with
    | none => stepBreak []
    | some creature =>
      if m_script.movement_movementType = F.IDLE_MOTION_TYPE then
        stepBreak [Effect.MoveIdle creature]
      else if m_script.movement_movementType = F.RANDOM_MOTION_TYPE then
        if m_script.data_flags &&& D.SCRIPT_FLAG_COMMAND_ADDITIONAL ≠ 0 then
          stepBreak [Effect.MoveRandomAroundPoint creature (W.GetPositionX creature)
            (W.GetPositionY creature) (W.GetPositionZ creature)
            (F.movement_wanderDistance m_script : ℚ)]
        else
          stepBreak [Effect.MoveRandomAroundPoint creature (W.GetRespawnCoordX creature)
            (W.GetRespawnCoordY creature) (W.GetRespawnCoordZ creature)
            (if F.movement_wanderDistance m_script ≠ 0 then
              (F.movement_wanderDistance m_script : ℚ)
             else W.GetRespawnCoordDist creature)]
      else if m_script.movement_movementType = F.WAYPOINT_MOTION_TYPE then
        stepBreak [Effect.MoveWaypoint creature]
      else stepBreak []

/-- The common shape of the cases that act on the source when it is a
creature and are left otherwise (`if (LogIfNotCreature(pSource)) break;`). -/
def stepOnCreature (pSource : Option WorldObject) (calls : WorldObject → List Effect) :
    StepResult :=
  if LogIfNotCreature pSource = true then stepBreak []
  else
    match pSource with
    | some creature => stepBreak (calls creature)
    | none => stepBreak []

/-- `case SCRIPT_COMMAND_MORPH_TO_ENTRY_OR_MODEL`, lines 1551-1569, on a creature. -/
def morphCalls (D : Defines) (W : ScriptWorld) (m_script : ScriptInfo) (creature : WorldObject) :
    List Effect :=
  if D.creatureOrModelEntry m_script = 0 then [Effect.DeMorph creature]
  else if m_script.data_flags &&& D.SCRIPT_FLAG_COMMAND_ADDITIONAL ≠ 0 then
    [Effect.SetDisplayId creature (D.creatureOrModelEntry m_script)]
  else [Effect.SetDisplayId creature (W.ChooseDisplayId (D.creatureOrModelEntry m_script))]

/-- `case SCRIPT_COMMAND_MOUNT_TO_ENTRY_OR_MODEL`, lines 1570-1588, on a creature. -/
def mountCalls (D : Defines) (W : ScriptWorld) (m_script : ScriptInfo) (creature : WorldObject) :
    List Effect :=
  if D.creatureOrModelEntry m_script = 0 then [Effect.Unmount creature]
  else if m_script.data_flags &&& D.SCRIPT_FLAG_COMMAND_ADDITIONAL ≠ 0 then
    [Effect.Mount creature (D.creatureOrModelEntry m_script)]
  else [Effect.Mount creature (W.ChooseDisplayId (D.creatureOrModelEntry m_script))]

/-- `case SCRIPT_COMMAND_ATTACK_START`, lines 1598-1617. -/
def stepAttackStart (W : ScriptWorld) (pSource pTarget : Option WorldObject) : StepResult :=
  if LogIfNotCreature pSource = true then stepBreak []
  else if LogIfNotUnit W pTarget = true then stepBreak []
  else
    match pSource, pTarget with
    | some pAttacker, some unitTarget =>
      if W.IsFriendlyTo pAttacker unitTarget = true then stepBreak []
      else stepBreak [Effect.AttackStart pAttacker unitTarget]
    | _, _ => stepBreak []

/-- `case SCRIPT_COMMAND_GO_LOCK_STATE`, lines 1618-1644. -/
def stepGoLockState (m_script : ScriptInfo) (pSource : Option WorldObject) : StepResult :=
  if LogIfNotGameObject pSource = true then stepBreak []
  else
    match pSource with
    | none => stepBreak []
    | some pGo =>
      stepBreak (
        -- Lock or Unlock
        (if m_script.goLockState_lockState &&& 0x01 ≠ 0 then
          [Effect.SetFlag (ScriptObject.worldObject pGo) UpdateField.GAMEOBJECT_FLAGS
            FlagValue.GO_FLAG_LOCKED]
         else if m_script.goLockState_lockState &&& 0x02 ≠ 0 then
          [Effect.RemoveFlag (ScriptObject.worldObject pGo) UpdateField.GAMEOBJECT_FLAGS
            FlagValue.GO_FLAG_LOCKED]
         else []) ++
        -- Set Non Interactable or Set Interactable
        (if m_script.goLockState_lockState &&& 0x04 ≠ 0 then
          [Effect.SetFlag (ScriptObject.worldObject pGo) UpdateField.GAMEOBJECT_FLAGS
            FlagValue.GO_FLAG_NO_INTERACT]
         else if m_script.goLockState_lockState &&& 0x08 ≠ 0 then
          [Effect.RemoveFlag (ScriptObject.worldObject pGo) UpdateField.GAMEOBJECT_FLAGS
            FlagValue.GO_FLAG_NO_INTERACT]
         else []))

/-- `case SCRIPT_COMMAND_MODIFY_NPC_FLAGS`, lines 1654-1675, on a creature. -/
def npcFlagCalls (F : ScriptFields) (W : ScriptWorld) (m_script : ScriptInfo)
    (creature : WorldObject) : List Effect :=
  -- Add Flags
  if F.npcFlag_change_flag m_script &&& 0x01 ≠ 0 then
    [Effect.SetFlag (ScriptObject.worldObject creature) UpdateField.UNIT_NPC_FLAGS
      (FlagValue.value (F.npcFlag_flag m_script))]
  -- Remove Flags
  else if F.npcFlag_change_flag m_script &&& 0x02 ≠ 0 then
    [Effect.RemoveFlag (ScriptObject.worldObject creature) UpdateField.UNIT_NPC_FLAGS
      (FlagValue.value (F.npcFlag_flag m_script))]
  -- Toggle Flags
  else if W.HasFlag_UNIT_NPC_FLAGS creature (F.npcFlag_flag m_script) = true then
    [Effect.RemoveFlag (ScriptObject.worldObject creature) UpdateField.UNIT_NPC_FLAGS
      (FlagValue.value (F.npcFlag_flag m_script))]
  else
    [Effect.SetFlag (ScriptObject.worldObject creature) UpdateField.UNIT_NPC_FLAGS
      (FlagValue.value (F.npcFlag_flag m_script))]

/-- The common shape of the cases that act on the player of the step and are
left when there is none (`GetPlayerTargetOrSourceAndLog`). -/
def stepOnPlayer (pSource pTarget : Option WorldObject) (calls : WorldObject → List Effect) :
    StepResult :=
  match GetPlayerTargetOrSourceAndLog pSource pTarget with
  | none => stepBreak []
  | some pPlayer => stepBreak (calls pPlayer)

/-- The variable `result` of the terminate-script case after lines 1688-1712.
The searcher is chosen as at lines 958-961; `none` stands for the evaluation
of `pSearcher->GetTypeId()` on a null `pSearcher`. -/
def terminateScriptResult (D : Defines) (F : ScriptFields) (W : ScriptWorld)
    (m_script : ScriptInfo) (pSource pTarget : Option WorldObject) : Option Bool :=
  if m_script.terminateScript_npcEntry ≠ 0 then
    match scriptSearcher pSource pTarget with
    | none => none
    | some pSearcher =>
      let pCreatureBuddy : Option WorldObject :=
        W.map.NearestCreatureInGrid pSearcher m_script.terminateScript_npcEntry
          (F.terminateScript_searchDist m_script)
      if m_script.data_flags &&& D.SCRIPT_FLAG_COMMAND_ADDITIONAL = 0 ∧ pCreatureBuddy = none then
        some true
      else if m_script.data_flags &&& D.SCRIPT_FLAG_COMMAND_ADDITIONAL ≠ 0 ∧
          pCreatureBuddy ≠ none then
        some true
      else some false
  else some true

/-- `case SCRIPT_COMMAND_TERMINATE_SCRIPT`, lines 1686-1727. -/
def stepTerminateScript (D : Defines) (F : ScriptFields) (W : ScriptWorld)
    (m_script : ScriptInfo) (pSource pTarget : Option WorldObject) : Option StepResult :=
  match terminateScriptResult D F W m_script pSource pTarget with
  | none => none
  | some true =>                                 -- Terminate further steps of this script
    some { halt := true,
           effects :=
            if m_script.textId 0 ≠ 0 ∧ LogIfNotCreature pSource = false then
              match pSource with
              | some cSource =>
                if W.GetCurrentMovementGeneratorType cSource = F.WAYPOINT_MOTION_TYPE then
                  [Effect.AddToWaypointPauseTime cSource (m_script.textId 0)]
                else []
              | none => []
            else [] }
  | some false => some (stepBreak [])

/-- `case SCRIPT_COMMAND_PAUSE_WAYPOINTS`, lines 1728-1737. -/
def stepPauseWaypoints (F : ScriptFields) (m_script : ScriptInfo)
    (pSource : Option WorldObject) : StepResult :=
  if LogIfNotCreature pSource = true then { halt := false, effects := [] }   -- return false
  else
    match pSource with
    | some creature =>
      if F.pauseWaypoint_doPause m_script ≠ 0 then
        stepBreak [Effect.addUnitState_WAYPOINT_PAUSED creature]
      else stepBreak [Effect.clearUnitState_WAYPOINT_PAUSED creature]
    | none => stepBreak []

/-- The pointer `player` of the terminate-condition case, lines 1752-1762. -/
def terminateCondPlayer (pSource pTarget : Option WorldObject) : Option WorldObject :=
  -- First case: target is player
  if isPlayerPtr pTarget = true then pTarget
  -- Second case: source is player
  else if isPlayerPtr pSource = true then pSource
  else none

/-- The pointer `second` of the terminate-condition case, lines 1753-1762. -/
def terminateCondSecond (pSource pTarget : Option WorldObject) : Option WorldObject :=
  if isPlayerPtr pTarget = true then pSource
  else if isPlayerPtr pSource = true then pTarget
  else pSource

/-- The value `terminateResult` of the terminate-condition case, lines 1764-1768. -/
def terminateCondResult (D : Defines) (W : ScriptWorld) (m_script : ScriptInfo)
    (pSource pTarget : Option WorldObject) : Bool :=
  if m_script.data_flags &&& D.SCRIPT_FLAG_COMMAND_ADDITIONAL ≠ 0 then
    !W.IsPlayerMeetToCondition m_script.terminateCond_conditionId
      (terminateCondPlayer pSource pTarget) (terminateCondSecond pSource pTarget)
  else
    W.IsPlayerMeetToCondition m_script.terminateCond_conditionId
      (terminateCondPlayer pSource pTarget) (terminateCondSecond pSource pTarget)

/-- The `FailQuest` calls of lines 1770-1786 for the player `player`. -/
def terminateCondFailQuest (W : ScriptWorld) (failQuest : Nat) (player : WorldObject) :
    List Effect :=
  match W.GetGroup player with
  | some members =>
    (members.filter (fun member =>
        decide (W.GetQuestStatus member failQuest = QuestStatus.QUEST_STATUS_INCOMPLETE))).map
      (fun member => Effect.FailQuest member failQuest)
  | none =>
    if W.GetQuestStatus player failQuest = QuestStatus.QUEST_STATUS_INCOMPLETE then
      [Effect.FailQuest player failQuest]
    else []

/-- `case SCRIPT_COMMAND_TERMINATE_COND`, lines 1750-1788. -/
def stepTerminateCond (D : Defines) (W : ScriptWorld) (m_script : ScriptInfo)
    (pSource pTarget : Option WorldObject) : StepResult :=
  { halt := terminateCondResult D W m_script pSource pTarget,
    effects :=
      if terminateCondResult D W m_script pSource pTarget = true ∧
          m_script.terminateCond_failQuest ≠ 0 then
        match terminateCondPlayer pSource pTarget with
        | some player => terminateCondFailQuest W m_script.terminateCond_failQuest player
        | none => []
      else [] }

/-- The `switch (m_script->command)` of lines 1097-1792 followed by the final
`return false`, for the resolved `pSource`, `pTarget` and `pSourceOrItem`.
`none` stands for a step that evaluates a method on a null pointer. -/
def commandStep (D : Defines) (F : ScriptFields) (W : ScriptWorld) (m_script : ScriptInfo)
    (pSource pTarget : Option WorldObject) (pSourceOrItem : Option ScriptObject) :
    Option StepResult :=
  match m_script.command with
  | SCRIPT_COMMAND_TALK => some (stepTalk W m_script pSource pTarget)
  | SCRIPT_COMMAND_EMOTE => some (stepEmote W m_script pSource)
  | SCRIPT_COMMAND_FIELD_SET =>
    some (stepField F W (F.setField_fieldId m_script) pSourceOrItem (fun obj =>
      Effect.SetUInt32Value obj (F.setField_fieldId m_script) (F.setField_fieldValue m_script)))
  | SCRIPT_COMMAND_MOVE_TO => some (stepMoveTo D F W m_script pSource)
  | SCRIPT_COMMAND_FLAG_SET =>
    some (stepField F W (F.setFlag_fieldId m_script) pSourceOrItem (fun obj =>
      Effect.SetFlag obj (UpdateField.index (F.setFlag_fieldId m_script))
        (FlagValue.value (F.setFlag_fieldValue m_script))))
  | SCRIPT_COMMAND_FLAG_REMOVE =>
    some (stepField F W (F.removeFlag_fieldId m_script) pSourceOrItem (fun obj =>
      Effect.RemoveFlag obj (UpdateField.index (F.removeFlag_fieldId m_script))
        (FlagValue.value (F.removeFlag_fieldValue m_script))))
  | SCRIPT_COMMAND_TELEPORT_TO => some (stepTeleportTo m_script pSource pTarget)
  | SCRIPT_COMMAND_QUEST_EXPLORED => stepQuestExplored W m_script pSource pTarget
  | SCRIPT_COMMAND_KILL_CREDIT => some (stepKillCredit F m_script pSource pTarget)
  | SCRIPT_COMMAND_RESPAWN_GAMEOBJECT => some (stepRespawnGameobject F W m_script pSource)
  | SCRIPT_COMMAND_TEMP_SUMMON_CREATURE => some (stepTempSummonCreature D F m_script pSource)
  | SCRIPT_COMMAND_OPEN_DOOR | SCRIPT_COMMAND_CLOSE_DOOR =>
    some (stepChangeDoor F W m_script pSource pTarget)
  | SCRIPT_COMMAND_ACTIVATE_OBJECT => some (stepActivateObject W pSource pTarget)
  | SCRIPT_COMMAND_REMOVE_AURA => some (stepRemoveAura W m_script pSource)
  | SCRIPT_COMMAND_CAST_SPELL => some (stepCastSpell D W m_script pSource pTarget)
  | SCRIPT_COMMAND_PLAY_SOUND => some (stepPlaySound W m_script pSource pTarget)
  | SCRIPT_COMMAND_CREATE_ITEM => some (stepCreateItem W m_script pSource pTarget)
  | SCRIPT_COMMAND_DESPAWN_SELF => some (stepDespawnSelf F m_script pSource pTarget)
  | SCRIPT_COMMAND_PLAY_MOVIE => some (stepBreak [])       -- must be skipped at loading
  | SCRIPT_COMMAND_MOVEMENT => some (stepMovement D F W m_script pSource)
  | SCRIPT_COMMAND_SET_ACTIVEOBJECT =>
    some (stepOnCreature pSource (fun creature =>
      [Effect.SetActiveObjectState creature (decide (F.activeObject_activate m_script ≠ 0))]))
  | SCRIPT_COMMAND_SET_FACTION =>
    some (stepOnCreature pSource (fun creature =>
      if m_script.faction_factionId ≠ 0 then
        [Effect.SetFactionTemporary creature m_script.faction_factionId
          (F.faction_flags m_script)]
      else [Effect.ClearTemporaryFaction creature]))
  | SCRIPT_COMMAND_MORPH_TO_ENTRY_OR_MODEL =>
    some (stepOnCreature pSource (morphCalls D W m_script))
  | SCRIPT_COMMAND_MOUNT_TO_ENTRY_OR_MODEL =>
    some (stepOnCreature pSource (mountCalls D W m_script))
  | SCRIPT_COMMAND_SET_RUN =>
    some (stepOnCreature pSource (fun creature =>
      [Effect.SetWalk creature (decide (F.run_run m_script = 0))]))
  | SCRIPT_COMMAND_ATTACK_START => some (stepAttackStart W pSource pTarget)
  | SCRIPT_COMMAND_GO_LOCK_STATE => some (stepGoLockState m_script pSource)
  | SCRIPT_COMMAND_STAND_STATE =>
    some (stepOnCreature pSource (fun creature =>
      [Effect.SetStandState creature m_script.standState_stand_state]))
  | SCRIPT_COMMAND_MODIFY_NPC_FLAGS =>
    some (stepOnCreature pSource (npcFlagCalls F W m_script))
  | SCRIPT_COMMAND_SEND_TAXI_PATH =>
    some (stepOnPlayer pSource pTarget (fun pPlayer =>
      [Effect.ActivateTaxiPathTo pPlayer m_script.sendTaxiPath_taxiPathId]))
  | SCRIPT_COMMAND_TERMINATE_SCRIPT => stepTerminateScript D F W m_script pSource pTarget
  | SCRIPT_COMMAND_PAUSE_WAYPOINTS => some (stepPauseWaypoints F m_script pSource)
  | SCRIPT_COMMAND_XP_USER =>
    some (stepOnPlayer pSource pTarget (fun pPlayer =>
      if F.xpDisabled_flags m_script ≠ 0 then
        [Effect.SetFlag (ScriptObject.worldObject pPlayer) UpdateField.PLAYER_FLAGS
          FlagValue.PLAYER_FLAGS_XP_USER_DISABLED]
      else
        [Effect.RemoveFlag (ScriptObject.worldObject pPlayer) UpdateField.PLAYER_FLAGS
          FlagValue.PLAYER_FLAGS_XP_USER_DISABLED]))
  | SCRIPT_COMMAND_TERMINATE_COND => some (stepTerminateCond D W m_script pSource pTarget)
  | _ => some (stepBreak [])                           -- default: unknown command

/-- The world object behind an `Object*`: the pointer when it is non-null and
`isType(TYPEMASK_WORLDOBJECT)` holds, null otherwise. -/
def worldObjectPtr (obj : Option ScriptObject) : Option WorldObject :=
  match obj with
  | some (ScriptObject.worldObject w) => some w
  | _ => none

/-- Lines 1077-1095 of `HandleScriptStep`: `none` when the step returns false
from there, otherwise the resolved `pSource`, `pTarget` and `pSourceOrItem`. -/
def scriptStepTargets (D : Defines) (W : ScriptWorld) (a : ScriptAction) :
    Option (Option WorldObject × Option WorldObject × Option ScriptObject) :=
  match GetScriptCommandObject W a.m_ownerGuid a.m_sourceGuid true with
  | none => none
  | some source =>
    match GetScriptCommandObject W a.m_ownerGuid a.m_targetGuid false with
    | none => none
    | some target =>
      -- Get expected source and target (if defined with buddy)
      match GetScriptProcessTargets D W.map a.m_script (worldObjectPtr source)
          (worldObjectPtr target) with
      | none => none
      | some (pSource, pTarget) =>
        some (pSource, pTarget,
          match pSource with
          | some s => some (ScriptObject.worldObject s)
          | none =>
            (match source with
             | some (ScriptObject.item i) => some (ScriptObject.item i)
             | _ => none))

/-- Translation of `ScriptAction::HandleScriptStep`: the value returned and the
mutating calls made; `none` stands for a step that evaluates a method on a
null pointer. -/
def HandleScriptStep (D : Defines) (F : ScriptFields) (W : ScriptWorld) (a : ScriptAction) :
    Option StepResult :=
  match scriptStepTargets D W a with
  | none => some { halt := false, effects := [] }
  | some (pSource, pTarget, pSourceOrItem) =>
    commandStep D F W a.m_script pSource pTarget pSourceOrItem

/-- The number of text-id slots a talk step chooses among, lines 1108-1122:
one when `textId[1]` is 0, otherwise the value of `i` after the loop. -/
def talkTextCount (m_script : ScriptInfo) : Nat :=
  if m_script.textId 1 ≠ 0 then talkTextIdBound m_script else 1

/-- Modelled from the spec: the iteration over the commands of one invocation
(the caller of `HandleScriptStep`, `Map::ScriptsProcess`, which is not part of
the translated sources): "for each command in ascending-delay, stable order →
Skip, Apply or Terminate"; a step applies its calls to the world, and a step
that signals halt stops the whole remaining sequence. `step w a` is the result
of the step `a` in the world `w`, `apply w es` the world after the calls `es`;
the result is the world after the invocation, the calls made, in order, and
whether a step halted the sequence; it is `none` when a step that is run
evaluates a method on a null pointer. -/
def runInvocation {World : Type} (step : World → ScriptAction → Option StepResult)
    (apply : World → List Effect → World) :
    World → List ScriptAction → Option (World × List Effect × Bool)
  | w, [] => some (w, [], false)
  | w, a :: rest =>
    match step w a with
    | none => none
    | some r =>
      if r.halt = true then some (apply w r.effects, r.effects, true)
      else
        match runInvocation step apply (apply w r.effects) rest with
        | none => none
        | some (w', es, halted) => some (w', r.effects ++ es, halted)


/-! ## Script names (`ScriptMgr.cpp` lines 1893-1951) -/

/-- The vector `m_scriptNames` (`ScriptNameMap`). A name is the list of the
bytes of the string: `std::string` compares and orders names byte by byte, as
unsigned values, lexicographically, which is the order of `List Nat`; the
empty list is the name `""`. -/
abbrev ScriptNameMap := List (List Nat)

/-- The bisection of `std::lower_bound` over the range `[first, first + len)`
of the vector: `half = len / 2`, `middle = first + half`, and the range becomes
`[middle + 1, middle + 1 + (len - half - 1))` when `*middle < value` and
`[first, first + half)` otherwise, until `len` is 0. The first argument bounds
the number of iterations; `len` gets smaller with every iteration, so `len`
iterations are enough. -/
def lowerBoundLoop (v : ScriptNameMap) (value : List Nat) : Nat → Nat → Nat → Nat
  | 0, first, _ => first
  | fuel + 1, first, len =>
    if len = 0 then first
    else
      if v.getD (first + len / 2) [] < value then
        lowerBoundLoop v value fuel (first + len / 2 + 1) (len - len / 2 - 1)
      else lowerBoundLoop v value fuel first (len / 2)

/-- The index returned by `std::lower_bound(v.begin(), v.end(), value)`, as a
distance from `v.begin()`; `v.length` stands for `v.end()`. -/
def lower_bound (v : ScriptNameMap) (value : List Nat) : Nat :=
  lowerBoundLoop v value v.length 0 v.length

/-- Translation of `ScriptMgr::LoadScriptNames`: the vector after the call,
for the vector `m_scriptNames` before the call and the names fetched by the
query (no name: the query has no result); `std::sort` gives the names in
ascending order. -/
def LoadScriptNames (m_scriptNames : ScriptNameMap) (result : List (List Nat)) :
    ScriptNameMap :=
  match result with
  | [] => m_scriptNames ++ [[]]                  -- push_back(""); if (!result) return
  | row :: rest =>
    List.insertionSort (fun a b => a ≤ b) ((m_scriptNames ++ [[]]) ++ (row :: rest))

/-- Translation of `ScriptMgr::GetScriptId`; `none` is the null name. -/
def GetScriptId (m_scriptNames : ScriptNameMap) (name : Option (List Nat)) : Nat :=
  match name with
  | none => 0
  | some name =>
    -- use binary search to find the script name in the sorted vector
    if lower_bound m_scriptNames name = m_scriptNames.length ∨
        m_scriptNames.getD (lower_bound m_scriptNames name) [] ≠ name then 0
    else lower_bound m_scriptNames name % 2 ^ 32

/-! ## Start of event scripts (`ScriptMgr.cpp` lines 2349-2391) -/

/-- The execution parameters `StartEvents_Event` chooses among
(`Map::ScriptExecutionParam`). -/
inductive ScriptExecutionParam where
  | SCRIPT_EXEC_PARAM_UNIQUE_BY_SOURCE
  | SCRIPT_EXEC_PARAM_UNIQUE_BY_TARGET
  | SCRIPT_EXEC_PARAM_UNIQUE_BY_SOURCE_TARGET
  deriving DecidableEq, Repr

/-- What `StartEvents_Event` reads and calls outside the translated sources:
`OnProcessEvent` of the script library, `GetTypeId` and `isType` of an
`Object`, the battleground of a player or of the map and the outdoor-pvp
script of a zone (handles, `none` for null) with their `HandleEvent`, and
`Map::ScriptsStart` for the event table. -/
structure EventEnv where
  OnProcessEvent : Nat → ScriptObject → Option ScriptObject → Bool → Bool
  GetTypeId : ScriptObject → TypeID
  isType : ScriptObject → TypeMask → Bool
  GetBattleGround : WorldObject → Option Nat
  GetCachedZoneId : WorldObject → Nat
  GetZoneId : ScriptObject → Nat
  OutdoorPvPGetScript : Nat → Option Nat
  IsBattleGround : Bool
  GetBG : Option Nat
  BattleGroundHandleEvent : Nat → Nat → ScriptObject → Bool
  OutdoorPvPHandleEvent : Nat → Nat → ScriptObject → Bool
  ScriptsStart : Nat → ScriptObject → Option ScriptObject → ScriptExecutionParam → Bool

/-- What `StartEvents_Event` gives back: the value returned and the execution
parameter of the `ScriptsStart` call when the function reaches it (`none` when
the event is handled before). -/
structure StartEventsResult where
  value : Bool
  execParam : Option ScriptExecutionParam
  deriving DecidableEq, Repr

/-- The pointers `bg` and `opvp` of lines 2361-2376. -/
def eventPvpHandlers (E : EventEnv) (source : ScriptObject) (forwardToPvp : WorldObject) :
    Option Nat × Option Nat :=
  if forwardToPvp.GetTypeId = TypeID.TYPEID_PLAYER then
    match E.GetBattleGround forwardToPvp with
    | some bg => (some bg, none)
    | none => (none, E.OutdoorPvPGetScript (E.GetCachedZoneId forwardToPvp))
  else
    if E.IsBattleGround = true then (E.GetBG, none)
    else (none, E.OutdoorPvPGetScript (E.GetZoneId source))  -- Use the go, because GOs don't move

/-- Lines 2358-2382: whether a battleground or an outdoor-pvp script handles
the event. -/
def eventHandledByPvp (E : EventEnv) (id : Nat) (source : ScriptObject)
    (forwardToPvp : Option WorldObject) : Bool :=
  match forwardToPvp with
  | none => false
  | some pvp =>
    if E.GetTypeId source = TypeID.TYPEID_GAMEOBJECT then
      if (match (eventPvpHandlers E source pvp).1 with
          | some bg => E.BattleGroundHandleEvent bg id source
          | none => false) = true then true
      else
        match (eventPvpHandlers E source pvp).2 with
        | some opvp => E.OutdoorPvPHandleEvent opvp id source
        | none => false
    else false

/-- Translation of `StartEvents_Event`; `source` is not null
(`MANGOS_ASSERT(source)`). -/
def StartEvents_Event (E : EventEnv) (id : Nat) (source : ScriptObject)
    (target : Option ScriptObject) (isStart : Bool) (forwardToPvp : Option WorldObject) :
    StartEventsResult :=
  -- Handle SD2 script
  if E.OnProcessEvent id source target isStart = true then { value := true, execParam := none }
  -- Handle PvP Calls
  else if eventHandledByPvp E id source forwardToPvp = true then
    { value := true, execParam := none }
  else
    let execParam : ScriptExecutionParam :=
      if E.isType source TypeMask.TYPEMASK_CREATURE_OR_GAMEOBJECT = true then
        ScriptExecutionParam.SCRIPT_EXEC_PARAM_UNIQUE_BY_SOURCE
      else if (match target with
          | some t => E.isType t TypeMask.TYPEMASK_CREATURE_OR_GAMEOBJECT
          | none => false) = true then
        ScriptExecutionParam.SCRIPT_EXEC_PARAM_UNIQUE_BY_TARGET
      else ScriptExecutionParam.SCRIPT_EXEC_PARAM_UNIQUE_BY_SOURCE_TARGET
    { value := E.ScriptsStart id source target execParam, execParam := some execParam }
/-! ## Sample instantiation used to evaluate the definitions on concrete inputs -/

/-- A spell store with the single spell 7, whose effects are dummy, script
effect, script effect. -/
def sampleSpellStore : SpellStore where
  LookupEntry := fun i =>
    if i = 7 then
      some { Effect := fun j =>
               if j = 0 then SpellEffects.SPELL_EFFECT_DUMMY
               else if j = 1 then SpellEffects.SPELL_EFFECT_SCRIPT_EFFECT
               else if j = 2 then SpellEffects.SPELL_EFFECT_SCRIPT_EFFECT
               else SpellEffects.other 0,
             EffectTriggerSpell := fun _ => 0,
             EffectMiscValue := fun _ => 0 }
    else none
  GetNumRows := 8

/-- The spell 7 of `sampleSpellStore`. -/
def sampleSpell : SpellEntry where
  Effect := fun j =>
    if j = 0 then SpellEffects.SPELL_EFFECT_DUMMY
    else if j = 1 then SpellEffects.SPELL_EFFECT_SCRIPT_EFFECT
    else if j = 2 then SpellEffects.SPELL_EFFECT_SCRIPT_EFFECT
    else SpellEffects.other 0
  EffectTriggerSpell := fun _ => 0
  EffectMiscValue := fun _ => 0

/-- Sample values of the constants and helpers of `Defines`: script flags
0x01 .. 0x20 with all six valid, game-object commands (respawn, open door,
close door, activate, lock state) looking for a game-object buddy, and the
guid of respawn / open door / close door read from `datalong`. -/
def sampleDefines : Defines where
  MAX_EFFECT_INDEX := 3
  MIN_DB_SCRIPT_STRING_ID := 2000000000
  MAX_DB_SCRIPT_STRING_ID := 2000010000
  DEFAULT_VISIBILITY_DISTANCE := 90
  INTERACTION_DISTANCE := 5
  MAX_DB_MOTION_TYPE := 3
  MAX_UNIT_STAND_STATE := 9
  SCRIPT_FLAG_BUDDY_AS_TARGET := 0x01
  SCRIPT_FLAG_REVERSE_DIRECTION := 0x02
  SCRIPT_FLAG_SOURCE_TARGETS_SELF := 0x04
  SCRIPT_FLAG_COMMAND_ADDITIONAL := 0x08
  SCRIPT_FLAG_BUDDY_BY_GUID := 0x10
  SCRIPT_FLAG_BUDDY_IS_PET := 0x20
  MAX_SCRIPT_FLAG_VALID := 0x3F
  QUEST_SPECIAL_FLAG_EXPLORATION_OR_EVENT := 0x02
  IsCreatureBuddy := fun s =>
    !(s.command == SCRIPT_COMMAND_RESPAWN_GAMEOBJECT || s.command == SCRIPT_COMMAND_OPEN_DOOR
      || s.command == SCRIPT_COMMAND_CLOSE_DOOR || s.command == SCRIPT_COMMAND_ACTIVATE_OBJECT
      || s.command == SCRIPT_COMMAND_GO_LOCK_STATE)
  HasAdditionalScriptFlag := fun s =>
    s.command == SCRIPT_COMMAND_MOVE_TO || s.command == SCRIPT_COMMAND_TEMP_SUMMON_CREATURE
      || s.command == SCRIPT_COMMAND_CAST_SPELL || s.command == SCRIPT_COMMAND_MOVEMENT
      || s.command == SCRIPT_COMMAND_MORPH_TO_ENTRY_OR_MODEL
      || s.command == SCRIPT_COMMAND_MOUNT_TO_ENTRY_OR_MODEL
      || s.command == SCRIPT_COMMAND_TERMINATE_SCRIPT || s.command == SCRIPT_COMMAND_TERMINATE_COND
  GetGOGuid := fun s =>
    if s.command = SCRIPT_COMMAND_RESPAWN_GAMEOBJECT ∨ s.command = SCRIPT_COMMAND_OPEN_DOOR
        ∨ s.command = SCRIPT_COMMAND_CLOSE_DOOR then s.datalong else 0
  creatureOrModelEntry := fun s => s.datalong

/-- A row with script id 1 and command despawn-self, every other column 0. -/
def sampleRow : ScriptInfo where
  id := 1
  delay := 0
  command := SCRIPT_COMMAND_DESPAWN_SELF
  datalong := 0
  datalong2 := 0
  buddyEntry := 0
  searchRadiusOrGuid := 0
  data_flags := 0
  dataint := 0
  dataint2 := 0
  dataint3 := 0
  dataint4 := 0
  x := 0
  y := 0
  z := 0
  o := 0

/-- A go-lock-state row that sets the lock bit only. -/
def sampleLockRow : ScriptInfo :=
  { sampleRow with command := SCRIPT_COMMAND_GO_LOCK_STATE, datalong := 0x01 }

/-- A go-lock-state row that sets both the lock and the unlock bit. -/
def sampleLockUnlockRow : ScriptInfo :=
  { sampleRow with command := SCRIPT_COMMAND_GO_LOCK_STATE, datalong := 0x03 }

/-- A set-run row with delay 5. -/
def sampleLateRow : ScriptInfo :=
  { sampleRow with command := SCRIPT_COMMAND_SET_RUN, delay := 5 }

/-- A play-movie row. -/
def sampleMovieRow : ScriptInfo :=
  { sampleRow with command := SCRIPT_COMMAND_PLAY_MOVIE }

/-- A set-run row for script id 2, delay 3. -/
def sampleOtherIdRow : ScriptInfo :=
  { sampleRow with id := 2, command := SCRIPT_COMMAND_SET_RUN, delay := 3 }

/-- A move-to row whose buddy is the creature spawned with guid 1, but which
names the entry 101 while that spawn has the entry 100. -/
def sampleGuidBuddyRow : ScriptInfo :=
  { sampleRow with command := SCRIPT_COMMAND_MOVE_TO, buddyEntry := 101,
                   searchRadiusOrGuid := 1, data_flags := 0x10 }

/-- A move-to row with the creature 100 as buddy, searched within radius 30,
and the additional flag. -/
def sampleBuddyRow : ScriptInfo :=
  { sampleRow with command := SCRIPT_COMMAND_MOVE_TO, buddyEntry := 100,
                   searchRadiusOrGuid := 30, data_flags := 0x09 }

/-- Sample catalogs: creature template 100, game-object templates 200 (a door)
and 201, creature spawn 1 of entry 100, game-object spawns 2 and 3, and three
script tables. -/
def sampleCatalogs : Catalogs where
  GetCreatureTemplate := fun e => e == 100
  GetGameObjectInfo := fun e =>
    if e = 200 then some { id := 200, type := GameobjectTypes.GAMEOBJECT_TYPE_DOOR }
    else if e = 201 then some { id := 201, type := GameobjectTypes.other 3 }
    else none
  GetCreatureData := fun g => if g = 1 then some { id := 100 } else none
  GetGOData := fun g =>
    if g = 2 then some { id := 200 } else if g = 3 then some { id := 201 } else none
  GetItemPrototype := fun e => e == 300
  sSpellStore := sampleSpellStore
  sEmotesStore := fun e => e == 10
  sMapStore := fun e => e == 0 || e == 1
  sSoundEntriesStore := fun e => e == 20
  sFactionTemplateStore := fun e => e == 35
  sCreatureDisplayInfoStore := fun e => e == 40
  sTaxiPathStore := fun e => e == 50
  sConditionStorage := fun e => e == 60
  IsValidMapCoord := fun x y _ _ => decide (|x| ≤ 17066 ∧ |y| ≤ 17066)
  HasLogFilter_DB_STRICTED_CHECK := false
  PQuery := fun t =>
    if t = "dbscripts_on_event" then
      [sampleRow, sampleLockRow, sampleLateRow]
    else if t = "dbscripts_on_gossip" then
      [sampleLateRow, sampleMovieRow, sampleOtherIdRow, sampleRow, sampleLockUnlockRow,
       sampleGuidBuddyRow, sampleLockRow, sampleBuddyRow]
    else []

/-- Sample quest templates: the quest 70, without special flags. -/
def sampleObjectMgr : ObjectMgr where
  GetQuestTemplate := fun q => if q = 70 then some { m_SpecialFlags := 0 } else none

/-- An empty, unnamed script table. -/
def emptyScripts : ScriptMapMapName where
  first := ""
  second := []

/-- A teleport-to row whose map id 5 is not in the sample map catalog. -/
def sampleTeleportRow : ScriptInfo :=
  { sampleRow with command := SCRIPT_COMMAND_TELEPORT_TO, datalong := 5 }

/-- A talk row whose primary text id is in the sample range and whose second
text id, 7, is below it. -/
def sampleTalkRow : ScriptInfo :=
  { sampleRow with command := SCRIPT_COMMAND_TALK, dataint := 2000000001, dataint2 := 7 }

/-- An emote row whose primary emote 10 is in the sample emote catalog and
whose alternative emote 11 is not. -/
def sampleEmoteRow : ScriptInfo :=
  { sampleRow with command := SCRIPT_COMMAND_EMOTE, datalong := 10, dataint2 := 11 }

/-- A quest-explored row for the sample quest 70 with completion distance 0. -/
def sampleExploredRow : ScriptInfo :=
  { sampleRow with command := SCRIPT_COMMAND_QUEST_EXPLORED, datalong := 70, datalong2 := 0 }

/-- A quest-explored row for the sample quest 70 with completion distance 20. -/
def sampleExploredFarRow : ScriptInfo :=
  { sampleRow with command := SCRIPT_COMMAND_QUEST_EXPLORED, datalong := 70, datalong2 := 20 }

/-- A quest-explored row for the sample quest 70 that names the creature 100
as buddy, by entry, with search radius 0. -/
def sampleExploredNoRadiusRow : ScriptInfo :=
  { sampleRow with command := SCRIPT_COMMAND_QUEST_EXPLORED, datalong := 70, datalong2 := 20,
                   buddyEntry := 100, searchRadiusOrGuid := 0 }

/-- A respawn-object row for the game-object spawn 3 (template 201). -/
def sampleRespawnRow : ScriptInfo :=
  { sampleRow with command := SCRIPT_COMMAND_RESPAWN_GAMEOBJECT, datalong := 3, datalong2 := 2 }

/-- An open-door row for the game-object spawn 2 (template 200, a door). -/
def sampleDoorRow : ScriptInfo :=
  { sampleRow with command := SCRIPT_COMMAND_OPEN_DOOR, datalong := 2 }

/-- A respawn-object row with neither a guid nor a buddy entry. -/
def sampleRespawnNothingRow : ScriptInfo :=
  { sampleRow with command := SCRIPT_COMMAND_RESPAWN_GAMEOBJECT }

/-- A player. -/
def samplePlayer : WorldObject where
  guid := 1
  GetTypeId := TypeID.TYPEID_PLAYER
  GetEntry := 0
  isAlive := true

/-- A live creature of entry 100. -/
def sampleCreature : WorldObject where
  guid := 2
  GetTypeId := TypeID.TYPEID_UNIT
  GetEntry := 100
  isAlive := true

/-- A dead creature of entry 100. -/
def sampleDeadCreature : WorldObject where
  guid := 3
  GetTypeId := TypeID.TYPEID_UNIT
  GetEntry := 100
  isAlive := false

/-- A game object of entry 200. -/
def sampleGameObject : WorldObject where
  guid := 4
  GetTypeId := TypeID.TYPEID_GAMEOBJECT
  GetEntry := 200
  isAlive := false

/-- A sample map: the creature spawn 1 of entry 100 is the live sample
creature, the spawn 9 the dead one, the game-object spawn 2 of entry 200 is the
sample game object; a grid search from a player for the creature 100 finds the
sample creature, every other search finds nothing. -/
def sampleMapEnv : MapEnv where
  GetCreature := fun entry lowGuid =>
    if entry = 100 ∧ lowGuid = 1 then some sampleCreature
    else if entry = 100 ∧ lowGuid = 9 then some sampleDeadCreature
    else none
  GetGameObject := fun entry lowGuid =>
    if entry = 200 ∧ lowGuid = 2 then some sampleGameObject else none
  NearestCreatureInWorld := fun _ _ _ => none
  NearestCreatureInGrid := fun searcher entry _ =>
    if searcher.GetTypeId = TypeID.TYPEID_PLAYER ∧ entry = 100 then some sampleCreature else none
  NearestGameObjectInGrid := fun _ _ _ => none

/-- A move-to row whose buddy is the dead creature spawn 9 of entry 100, by guid. -/
def sampleDeadBuddyRow : ScriptInfo :=
  { sampleRow with command := SCRIPT_COMMAND_MOVE_TO, buddyEntry := 100,
                   searchRadiusOrGuid := 9, data_flags := 0x10 }

/-- A move-to row with the creature 100 as buddy within radius 30 and the
flags reverse-direction and source-targets-self. -/
def sampleReverseSelfRow : ScriptInfo :=
  { sampleRow with command := SCRIPT_COMMAND_MOVE_TO, buddyEntry := 100,
                   searchRadiusOrGuid := 30, data_flags := 0x06 }

/-- Sample layout of the union members read by the execution: the first
member of a variant is `datalong`, the second `datalong2` (the travel speed of
move-to being a second member). -/
def sampleFields : ScriptFields where
  setField_fieldId := fun s => s.datalong
  setField_fieldValue := fun s => s.datalong2
  moveTo_travelSpeed := fun s => s.datalong2
  setFlag_fieldId := fun s => s.datalong
  setFlag_fieldValue := fun s => s.datalong2
  removeFlag_fieldId := fun s => s.datalong
  removeFlag_fieldValue := fun s => s.datalong2
  killCredit_isGroupCredit := fun s => s.datalong2
  respawnGo_goGuid := fun s => s.datalong
  respawnGo_despawnDelay := fun s => s.datalong2
  summonCreature_despawnDelay := fun s => s.datalong2
  changeDoor_goGuid := fun s => s.datalong
  changeDoor_resetDelay := fun s => s.datalong2
  despawn_despawnDelay := fun s => s.datalong
  movement_wanderDistance := fun s => s.datalong2
  activeObject_activate := fun s => s.datalong
  faction_flags := fun s => s.datalong2
  run_run := fun s => s.datalong
  npcFlag_flag := fun s => s.datalong
  npcFlag_change_flag := fun s => s.datalong2
  terminateScript_searchDist := fun s => s.datalong2
  pauseWaypoint_doPause := fun s => s.datalong
  xpDisabled_flags := fun s => s.datalong
  OBJECT_FIELD_ENTRY := 3
  IDLE_MOTION_TYPE := 0
  RANDOM_MOTION_TYPE := 1
  WAYPOINT_MOTION_TYPE := 2

/-- A game object of entry 202 (the fishing hole of `sampleWorld`). -/
def sampleFishingHole : WorldObject where
  guid := 5
  GetTypeId := TypeID.TYPEID_GAMEOBJECT
  GetEntry := 202
  isAlive := false

/-- A game object of entry 201 (a chest). -/
def sampleChest : WorldObject where
  guid := 7
  GetTypeId := TypeID.TYPEID_GAMEOBJECT
  GetEntry := 201
  isAlive := false

/-- A second player. -/
def samplePlayer2 : WorldObject where
  guid := 6
  GetTypeId := TypeID.TYPEID_PLAYER
  GetEntry := 0
  isAlive := true

/-- The guid of the sample player. -/
def samplePlayerGuid : ObjectGuid where
  raw := 1
  GetHigh := HighGuid.HIGHGUID_PLAYER

/-- The guid of the sample creature. -/
def sampleCreatureGuid : ObjectGuid where
  raw := 2
  GetHigh := HighGuid.HIGHGUID_UNIT

/-- The guid of the sample game object (a door). -/
def sampleDoorGuid : ObjectGuid where
  raw := 4
  GetHigh := HighGuid.HIGHGUID_GAMEOBJECT

/-- The guid of an item. -/
def sampleItemGuid : ObjectGuid where
  raw := 8
  GetHigh := HighGuid.HIGHGUID_ITEM

/-- The empty guid. -/
def emptyGuid : ObjectGuid where
  raw := 0
  GetHigh := HighGuid.other 0

/-- A sample world over `sampleMapEnv`, extended with the game-object spawns 3
(entry 201, a chest) and 4 (entry 202, a fishing hole): the sample player,
creature and door are found by their guids and are in world; the door (entry
200) is closed; no game object is spawned; units are players and creatures; the random
draw gives its upper bound; the condition 60 holds of the sample player only;
the sample player is in a group with the second player, and the quest 70 is
incomplete for the second player only. -/
def sampleWorld : ScriptWorld where
  map :=
    { sampleMapEnv with
      GetGameObject := fun entry lowGuid =>
        if entry = 200 ∧ lowGuid = 2 then some sampleGameObject
        else if entry = 201 ∧ lowGuid = 3 then some sampleChest
        else if entry = 202 ∧ lowGuid = 4 then some sampleFishingHole
        else none }
  GetCreatureByGuid := fun g => if g = sampleCreatureGuid then some sampleCreature else none
  GetPetByGuid := fun _ => none
  GetPlayerByGuid := fun g => if g = samplePlayerGuid then some samplePlayer else none
  GetGameObjectByGuid := fun g => if g = sampleDoorGuid then some sampleGameObject else none
  FindCorpse := fun _ => none
  GetItemByGuid := fun _ _ => none
  IsInWorld := fun _ => true
  isType := fun w m =>
    match m with
    | TypeMask.TYPEMASK_UNIT =>
      decide (w.GetTypeId = TypeID.TYPEID_UNIT ∨ w.GetTypeId = TypeID.TYPEID_PLAYER)
    | TypeMask.TYPEMASK_GAMEOBJECT => decide (w.GetTypeId = TypeID.TYPEID_GAMEOBJECT)
    | TypeMask.TYPEMASK_CREATURE_OR_GAMEOBJECT =>
      decide (w.GetTypeId = TypeID.TYPEID_UNIT ∨ w.GetTypeId = TypeID.TYPEID_PLAYER
        ∨ w.GetTypeId = TypeID.TYPEID_GAMEOBJECT)
  urand := fun _ hi => hi
  GetGOData := fun g => if g = 4 then some { id := 202 } else sampleCatalogs.GetGOData g
  GetValuesCount := fun _ => 100
  IsWithinDist3d := fun _ _ _ _ _ => false
  GetObjectBoundingRadius := fun _ => 0
  GetOrientation := fun _ => 0
  GetPositionX := fun _ => 0
  GetPositionY := fun _ => 0
  GetPositionZ := fun _ => 0
  GetRespawnCoordX := fun _ => 0
  GetRespawnCoordY := fun _ => 0
  GetRespawnCoordZ := fun _ => 0
  GetRespawnCoordDist := fun _ => 0
  IsWithinDistInMap := fun _ _ _ => true
  GetGoType := fun w =>
    if w.GetEntry = 200 then GameobjectTypes.GAMEOBJECT_TYPE_DOOR
    else if w.GetEntry = 202 then GameobjectTypes.GAMEOBJECT_TYPE_FISHINGHOLE
    else GameobjectTypes.other 3
  GetGoState := fun _ => GOState.GO_STATE_READY
  isSpawned := fun _ => false
  GetZoneId := fun _ => 0
  StoreNewItem := fun _ _ _ => none
  GetCurrentMovementGeneratorType := fun _ => 0
  IsFriendlyTo := fun _ _ => false
  HasFlag_UNIT_NPC_FLAGS := fun _ _ => false
  IsPlayerMeetToCondition := fun c player _ => decide (c = 60 ∧ player = some samplePlayer)
  GetGroup := fun p => if p = samplePlayer then some [samplePlayer, samplePlayer2] else none
  GetQuestStatus := fun p q =>
    if p = samplePlayer2 ∧ q = 70 then QuestStatus.QUEST_STATUS_INCOMPLETE
    else QuestStatus.other 1
  ChooseDisplayId := fun e => e

/-- A go-lock-state row whose buddy is a game object of entry 200, searched
by entry within radius 10. -/
def sampleGoBuddyRow : ScriptInfo :=
  { sampleRow with command := SCRIPT_COMMAND_GO_LOCK_STATE, datalong := 0x01,
                   buddyEntry := 200, searchRadiusOrGuid := 10 }

/-- A move-to row whose buddy is a creature of entry 100, searched by entry
within radius 10, without flags. -/
def sampleCreatureBuddyRow : ScriptInfo :=
  { sampleRow with command := SCRIPT_COMMAND_MOVE_TO, buddyEntry := 100,
                   searchRadiusOrGuid := 10 }

/-- A talk row with the text ids 5, 0, 7, 0. -/
def sampleTalkGapRow : ScriptInfo :=
  { sampleRow with command := SCRIPT_COMMAND_TALK, dataint := 5, dataint2 := 0, dataint3 := 7,
                   dataint4 := 0 }

/-- A talk row with the text ids 5, 7, 0, 0. -/
def sampleTalkPairRow : ScriptInfo :=
  { sampleRow with command := SCRIPT_COMMAND_TALK, dataint := 5, dataint2 := 7, dataint3 := 0,
                   dataint4 := 0 }

/-- A terminate-script row without npc entry. -/
def sampleTerminateRow : ScriptInfo :=
  { sampleRow with command := SCRIPT_COMMAND_TERMINATE_SCRIPT }

/-- A terminate-script row that looks for a live creature 100 within 30. -/
def sampleTerminateNpcRow : ScriptInfo :=
  { sampleRow with command := SCRIPT_COMMAND_TERMINATE_SCRIPT, datalong := 100, datalong2 := 30 }

/-- A terminate-condition row for the condition 60 that fails the quest 70. -/
def sampleTerminateCondRow : ScriptInfo :=
  { sampleRow with command := SCRIPT_COMMAND_TERMINATE_COND, datalong := 60, datalong2 := 70 }

/-- A respawn-object row for the game-object spawn 4 (the fishing hole), with
despawn delay 2. -/
def sampleRespawnHoleRow : ScriptInfo :=
  { sampleRow with command := SCRIPT_COMMAND_RESPAWN_GAMEOBJECT, datalong := 4, datalong2 := 2 }

/-- A close-door row for the game-object spawn 2, reset delay 0. -/
def sampleCloseDoorRow : ScriptInfo :=
  { sampleRow with command := SCRIPT_COMMAND_CLOSE_DOOR, datalong := 2 }

/-- A script action for the row `s` with the sample player as source and the
sample creature as target. -/
def sampleAction (s : ScriptInfo) : ScriptAction where
  m_script := s
  m_sourceGuid := samplePlayerGuid
  m_targetGuid := sampleCreatureGuid
  m_ownerGuid := samplePlayerGuid


/-- A third player, with guid 9. -/
def samplePlayer3 : WorldObject where
  guid := 9
  GetTypeId := TypeID.TYPEID_PLAYER
  GetEntry := 0
  isAlive := true

/-- The sample world with the sample player in a group of three, the quest 70
incomplete for the sample player and the second player and not for the
third. -/
def sampleGroupWorld : ScriptWorld :=
  { sampleWorld with
    GetGroup := fun p =>
      if p = samplePlayer then some [samplePlayer, samplePlayer2, samplePlayer3] else none
    GetQuestStatus := fun p q =>
      if (p = samplePlayer ∨ p = samplePlayer2) ∧ q = 70 then QuestStatus.QUEST_STATUS_INCOMPLETE
      else QuestStatus.other 1 }

/-- The sample world with the sample player outside of any group and the
quest 70 incomplete for the sample player. -/
def sampleSoloWorld : ScriptWorld :=
  { sampleWorld with
    GetGroup := fun _ => none
    GetQuestStatus := fun p q =>
      if p = samplePlayer ∧ q = 70 then QuestStatus.QUEST_STATUS_INCOMPLETE
      else QuestStatus.other 1 }

/-- A terminate-condition row for the condition 61, which does not hold of
the sample player, that fails the quest 70. -/
def sampleTerminateCondContinueRow : ScriptInfo :=
  { sampleRow with command := SCRIPT_COMMAND_TERMINATE_COND, datalong := 61, datalong2 := 70 }

/-- A kill-credit row with the creature entry 150. -/
def sampleKillCreditRow : ScriptInfo :=
  { sampleRow with command := SCRIPT_COMMAND_KILL_CREDIT, datalong := 150 }

/-- A kill-credit row without creature entry. -/
def sampleKillCreditDynamicRow : ScriptInfo :=
  { sampleRow with command := SCRIPT_COMMAND_KILL_CREDIT, datalong := 0 }

/-- A step whose source and target guids are both empty. -/
def sampleActionWithoutObjects (s : ScriptInfo) : ScriptAction where
  m_script := s
  m_sourceGuid := emptyGuid
  m_targetGuid := emptyGuid
  m_ownerGuid := emptyGuid

/-- A step whose source is the sample player and whose target guid is empty. -/
def sampleActionPlayerOnly (s : ScriptInfo) : ScriptAction where
  m_script := s
  m_sourceGuid := samplePlayerGuid
  m_targetGuid := emptyGuid
  m_ownerGuid := samplePlayerGuid

/-- The bytes of an ASCII name. -/
def sampleName (s : String) : List Nat := s.toList.map Char.toNat

/-- Names fetched by the query of `LoadScriptNames`. -/
def sampleScriptNames : List (List Nat) :=
  [sampleName "npc_guard", sampleName "go_door", sampleName "item_key"]

/-- A spell with a dummy effect at index 0, script effects at the indexes 1
and 2. -/
def sampleTwoScriptSpell : SpellEntry where
  Effect := fun i =>
    if i = 0 then SpellEffects.SPELL_EFFECT_DUMMY
    else if i = 1 ∨ i = 2 then SpellEffects.SPELL_EFFECT_SCRIPT_EFFECT
    else SpellEffects.other 0
  EffectTriggerSpell := fun _ => 0
  EffectMiscValue := fun _ => 0

/-- A sample environment of `StartEvents_Event`: no script library and no pvp
handler takes the event, creatures, players and game objects are the
creature-or-game-object typed objects, and `ScriptsStart` starts a script. -/
def sampleEventEnv : EventEnv where
  OnProcessEvent := fun _ _ _ _ => false
  GetTypeId := fun obj =>
    match obj with
    | ScriptObject.worldObject w => w.GetTypeId
    | ScriptObject.item _ => TypeID.TYPEID_ITEM
  isType := fun obj m =>
    match obj with
    | ScriptObject.worldObject w => sampleWorld.isType w m
    | ScriptObject.item _ => false
  GetBattleGround := fun _ => none
  GetCachedZoneId := fun _ => 0
  GetZoneId := fun _ => 0
  OutdoorPvPGetScript := fun _ => none
  IsBattleGround := false
  GetBG := none
  BattleGroundHandleEvent := fun _ _ _ => false
  OutdoorPvPHandleEvent := fun _ _ _ => false
  ScriptsStart := fun _ _ _ _ => true

/-- An item, with guid 8. -/
def sampleItem : Item where
  guid := 8

/-- The guid of a creature that is not on the map of the sample world. -/
def sampleGoneCreatureGuid : ObjectGuid where
  raw := 50
  GetHigh := HighGuid.HIGHGUID_UNIT

/-- A step started by a creature that is no longer on the map, without
target. -/
def sampleActionGoneSource (s : ScriptInfo) : ScriptAction where
  m_script := s
  m_sourceGuid := sampleGoneCreatureGuid
  m_targetGuid := emptyGuid
  m_ownerGuid := emptyGuid
/-! ## Spell-effect priority rule: properties -/

theorem canStartStep_eq_true (store : SpellStore) (spell : SpellEntry) (idx p i : Nat) :
    canStartStep store spell idx p i = true ↔
      GetSpellStartDBScriptPriority store spell i ≤ p ∧
        (i < idx → GetSpellStartDBScriptPriority store spell i ≠ p) := by
  unfold canStartStep
  simp only
  split_ifs with h1 h2 h3 <;> simp <;> omega

theorem canSpellEffectStartDBScript_eq_true (n : Nat) (store : SpellStore) (spell : SpellEntry)
    (idx : Nat) :
    CanSpellEffectStartDBScript n store spell idx = true ↔
      GetSpellStartDBScriptPriority store spell idx ≠ 0 ∧
      (∀ i, i < n → GetSpellStartDBScriptPriority store spell i
          ≤ GetSpellStartDBScriptPriority store spell idx) ∧
      (∀ i, i < n → i < idx → GetSpellStartDBScriptPriority store spell i
          ≠ GetSpellStartDBScriptPriority store spell idx) := by
  unfold CanSpellEffectStartDBScript
  simp only
  split_ifs with h0
  · simp [h0]
  · simp only [List.all_eq_true, List.mem_range, canStartStep_eq_true]
    constructor
    · intro h
      exact ⟨h0, fun i hi => (h i hi).1, fun i hi hlt => (h i hi).2 hlt⟩
    · rintro ⟨_, h1, h2⟩ i hi
      exact ⟨h1 i hi, h2 i hi⟩

/-- C1: an effect index can start a DB script exactly when its priority is
non-zero, no effect index of the spell has a strictly higher priority and no
lower effect index has the same priority; the priority is 10 for a script
effect, 9 for a dummy effect, 5 for a trigger-spell effect whose triggered
spell does not exist, and 0 for every other effect. -/
theorem C1_canSpellEffectStartDBScript_iff (n : Nat) (store : SpellStore) (spell : SpellEntry)
    (idx : Nat) :
    (CanSpellEffectStartDBScript n store spell idx = true ↔
      GetSpellStartDBScriptPriority store spell idx ≠ 0 ∧
      (∀ i, i < n → ¬ GetSpellStartDBScriptPriority store spell idx
          < GetSpellStartDBScriptPriority store spell i) ∧
      (∀ i, i < n → i < idx → GetSpellStartDBScriptPriority store spell i
          ≠ GetSpellStartDBScriptPriority store spell idx)) ∧
    (spell.Effect idx = SpellEffects.SPELL_EFFECT_SCRIPT_EFFECT →
      GetSpellStartDBScriptPriority store spell idx = 10) ∧
    (spell.Effect idx = SpellEffects.SPELL_EFFECT_DUMMY →
      GetSpellStartDBScriptPriority store spell idx = 9) ∧
    (spell.Effect idx = SpellEffects.SPELL_EFFECT_TRIGGER_SPELL →
      store.LookupEntry (spell.EffectTriggerSpell idx) = none →
      GetSpellStartDBScriptPriority store spell idx = 5) ∧
    (spell.Effect idx ≠ SpellEffects.SPELL_EFFECT_SCRIPT_EFFECT →
      spell.Effect idx ≠ SpellEffects.SPELL_EFFECT_DUMMY →
      ¬ (spell.Effect idx = SpellEffects.SPELL_EFFECT_TRIGGER_SPELL ∧
          store.LookupEntry (spell.EffectTriggerSpell idx) = none) →
      GetSpellStartDBScriptPriority store spell idx = 0) := by
  refine ⟨?_, ?_, ?_, ?_, ?_⟩
  · rw [canSpellEffectStartDBScript_eq_true]
    simp only [Nat.not_lt]
  · intro h
    simp [GetSpellStartDBScriptPriority, h]
  · intro h
    simp [GetSpellStartDBScriptPriority, h]
  · intro h h'
    simp [GetSpellStartDBScriptPriority, h, h']
  · intro h1 h2 h3
    unfold GetSpellStartDBScriptPriority
    rw [if_neg h1, if_neg h2, if_neg]
    rintro ⟨h4, h5⟩
    exact h3 ⟨h4, by simpa using h5⟩

/-- C2: at most one effect index of a spell can start a DB script. -/
theorem C2_canSpellEffectStartDBScript_unique (n : Nat) (store : SpellStore)
    (spell : SpellEntry) (i j : Nat) (hi : i < n) (hj : j < n)
    (hci : CanSpellEffectStartDBScript n store spell i = true)
    (hcj : CanSpellEffectStartDBScript n store spell j = true) : i = j := by
  rw [canSpellEffectStartDBScript_eq_true] at hci hcj
  obtain ⟨_, hi1, hi2⟩ := hci
  obtain ⟨_, hj1, hj2⟩ := hcj
  have heq : GetSpellStartDBScriptPriority store spell i
      = GetSpellStartDBScriptPriority store spell j :=
    Nat.le_antisymm (hj1 i hi) (hi1 j hj)
  rcases Nat.lt_trichotomy i j with h | h | h
  · exact absurd heq (hj2 i hi h)
  · exact h
  · exact absurd heq.symm (hi2 j hj h)

/-- Witness of C2 on the sample spell, whose selected effect index is 1. -/
theorem C2_canSpellEffectStartDBScript_unique_witness :
    CanSpellEffectStartDBScript 3 sampleSpellStore sampleSpell 1 = true ∧
    CanSpellEffectStartDBScript 3 sampleSpellStore sampleSpell 0 = false ∧
    CanSpellEffectStartDBScript 3 sampleSpellStore sampleSpell 2 = false ∧ (1 : Nat) = 1 :=
  ⟨by decide, by decide, by decide,
   C2_canSpellEffectStartDBScript_unique 3 sampleSpellStore sampleSpell 1 1 (by decide)
     (by decide) (by decide) (by decide)⟩

/-! ## Containers: properties of the multimap and map operations -/

theorem multimapInsert_perm (m : ScriptMap) (v : Nat × ScriptInfo) :
    (multimapInsert m v).Perm (v :: m) := by
  induction m with
  | nil => simp [multimapInsert]
  | cons e t ih =>
    unfold multimapInsert
    split_ifs with h
    · exact List.Perm.refl _
    · exact (List.Perm.cons e ih).trans (List.Perm.swap v e t)

theorem multimapInsert_sorted (m : ScriptMap) (v : Nat × ScriptInfo)
    (hm : m.Pairwise (fun a b => a.1 ≤ b.1)) :
    (multimapInsert m v).Pairwise (fun a b => a.1 ≤ b.1) := by
  induction m with
  | nil => simp [multimapInsert]
  | cons e t ih =>
    rw [List.pairwise_cons] at hm
    unfold multimapInsert
    split_ifs with h
    · refine List.pairwise_cons.2 ⟨?_, List.pairwise_cons.2 hm⟩
      intro a ha
      rcases List.mem_cons.1 ha with rfl | ha
      · exact Nat.le_of_lt h
      · exact Nat.le_trans (Nat.le_of_lt h) (hm.1 a ha)
    · refine List.pairwise_cons.2 ⟨?_, ih hm.2⟩
      intro a ha
      rcases List.mem_cons.1 ((multimapInsert_perm t v).subset ha) with rfl | ha
      · exact Nat.le_of_not_lt h
      · exact hm.1 a ha

theorem multimapInsert_filter (m : ScriptMap) (v : Nat × ScriptInfo) (p : Nat × ScriptInfo → Bool)
    (hm : m.Pairwise (fun a b => a.1 ≤ b.1))
    (hp : ∀ a, p a = true → a.1 = v.1) :
    (multimapInsert m v).filter p = if p v = true then m.filter p ++ [v] else m.filter p := by
  induction m with
  | nil => simp [multimapInsert, List.filter_cons]
  | cons e t ih =>
    rw [List.pairwise_cons] at hm
    unfold multimapInsert
    split_ifs with h hv hv
    · -- all of e :: t has a key above the key of v
      have hnone : (e :: t).filter p = [] := by
        rw [List.filter_eq_nil_iff]
        intro a ha hpa
        have hk := hp a hpa
        rcases List.mem_cons.1 ha with rfl | ha
        · omega
        · have := hm.1 a ha
          omega
      rw [List.filter_cons, if_pos hv, hnone]
      rfl
    · have hnone : (e :: t).filter p = [] := by
        rw [List.filter_eq_nil_iff]
        intro a ha hpa
        have hk := hp a hpa
        rcases List.mem_cons.1 ha with rfl | ha
        · omega
        · have := hm.1 a ha
          omega
      rw [List.filter_cons, if_neg hv, hnone]
    · rw [List.filter_cons, List.filter_cons, ih hm.2, if_pos hv]
      split_ifs <;> simp
    · rw [List.filter_cons, List.filter_cons, ih hm.2, if_neg hv]

theorem mapAssign_cons (e : Nat × ScriptMap) (t : ScriptMapMap) (k : Nat) (v : ScriptMap) :
    mapAssign (e :: t) k v =
      if k < e.1 then (k, v) :: e :: t
      else if k = e.1 then (k, v) :: t
      else e :: mapAssign t k v := rfl

theorem mapFind_cons (e : Nat × ScriptMap) (t : ScriptMapMap) (k : Nat) :
    mapFind (e :: t) k = if e.1 = k then some e.2 else mapFind t k := rfl

theorem mapFind_mapAssign (m : ScriptMapMap) (k k' : Nat) (v : ScriptMap) :
    mapFind (mapAssign m k v) k' = if k' = k then some v else mapFind m k' := by
  induction m with
  | nil =>
    show mapFind [(k, v)] k' = _
    rw [mapFind_cons]
    by_cases h : k' = k
    · rw [if_pos h.symm, if_pos h]
    · rw [if_neg (fun h' => h h'.symm), if_neg h]
  | cons e t ih =>
    rw [mapAssign_cons]
    by_cases h1 : k < e.1
    · rw [if_pos h1, mapFind_cons]
      by_cases h : k' = k
      · rw [if_pos h.symm, if_pos h]
      · rw [if_neg (fun h' => h h'.symm), if_neg h]
    · rw [if_neg h1]
      by_cases h2 : k = e.1
      · rw [if_pos h2, mapFind_cons, mapFind_cons]
        by_cases h : k' = k
        · rw [if_pos h.symm, if_pos h]
        · rw [if_neg (fun h' => h h'.symm), if_neg h, if_neg (fun h' => h (h'.symm.trans h2.symm))]
      · rw [if_neg h2, mapFind_cons, mapFind_cons, ih]
        by_cases h : k' = k
        · rw [if_pos h, if_pos h, if_neg (fun h' => h2 (h.symm.trans h'.symm))]
        · rw [if_neg h, if_neg h]

theorem mapFind_eq_none_of_lt (m : ScriptMapMap) (k : Nat)
    (h : ∀ e ∈ m, k < e.1) : mapFind m k = none := by
  induction m with
  | nil => rfl
  | cons e t ih =>
    have he := h e (List.mem_cons_self _ _)
    simp only [mapFind]
    rw [if_neg (by omega)]
    exact ih (fun a ha => h a (List.mem_cons_of_mem _ ha))

theorem mapAssign_keys_sorted (m : ScriptMapMap) (k : Nat) (v : ScriptMap)
    (hm : m.Pairwise (fun a b => a.1 < b.1)) :
    (mapAssign m k v).Pairwise (fun a b => a.1 < b.1) := by
  induction m with
  | nil => simp [mapAssign]
  | cons e t ih =>
    rw [List.pairwise_cons] at hm
    unfold mapAssign
    split_ifs with h1 h2
    · refine List.pairwise_cons.2 ⟨?_, List.pairwise_cons.2 hm⟩
      intro a ha
      rcases List.mem_cons.1 ha with rfl | ha
      · exact h1
      · exact Nat.lt_trans h1 (hm.1 a ha)
    · refine List.pairwise_cons.2 ⟨?_, hm.2⟩
      intro a ha
      have := hm.1 a ha
      simpa [h2] using this
    · refine List.pairwise_cons.2 ⟨?_, ih hm.2⟩
      intro a ha
      have hmem : ∀ (l : ScriptMapMap), a ∈ mapAssign l k v → a = (k, v) ∨ a ∈ l := by
        intro l
        induction l with
        | nil => intro h; simpa [mapAssign] using h
        | cons x l ihl =>
          unfold mapAssign
          split_ifs
          · intro h; simpa using h
          · intro h
            rcases List.mem_cons.1 h with h | h
            · exact Or.inl h
            · exact Or.inr (List.mem_cons_of_mem _ h)
          · intro h
            rcases List.mem_cons.1 h with h | h
            · exact Or.inr (h ▸ List.mem_cons_self _ _)
            · rcases ihl h with h | h
              · exact Or.inl h
              · exact Or.inr (List.mem_cons_of_mem _ h)
      rcases hmem t ha with rfl | ha
      · show e.1 < k
        omega
      · exact hm.1 a ha

theorem mapAssign_mapAssign (m : ScriptMapMap) (k : Nat) (v w : ScriptMap) :
    mapAssign (mapAssign m k v) k w = mapAssign m k w := by
  induction m with
  | nil =>
    show mapAssign [(k, v)] k w = [(k, w)]
    rw [mapAssign_cons, if_neg (Nat.lt_irrefl k), if_pos rfl]
  | cons e t ih =>
    rw [mapAssign_cons, mapAssign_cons]
    by_cases h1 : k < e.1
    · rw [if_pos h1, if_pos h1, mapAssign_cons, if_neg (Nat.lt_irrefl k), if_pos rfl]
    · rw [if_neg h1, if_neg h1]
      by_cases h2 : k = e.1
      · rw [if_pos h2, if_pos h2, mapAssign_cons, if_neg (Nat.lt_irrefl k), if_pos rfl]
      · rw [if_neg h2, if_neg h2, mapAssign_cons, if_neg h1, if_neg h2, ih]

theorem mapIndex_mapAssign (m : ScriptMapMap) (k k' : Nat) (v : ScriptMap) :
    mapIndex (mapAssign m k v) k' = if k' = k then v else mapIndex m k' := by
  unfold mapIndex
  rw [mapFind_mapAssign]
  split_ifs <;> rfl

theorem mapIndex_mapIndexInsert (m : ScriptMapMap) (k k' : Nat) (v : Nat × ScriptInfo) :
    mapIndex (mapIndexInsert m k v) k' =
      if k' = k then multimapInsert (mapIndex m k) v else mapIndex m k' := by
  unfold mapIndexInsert
  exact mapIndex_mapAssign m k k' _

theorem storeCommand_second (scripts : ScriptMapMapName) (tmp : ScriptInfo) :
    (storeCommand scripts tmp).second = mapIndexInsert scripts.second tmp.id (tmp.delay, tmp) := by
  unfold storeCommand
  simp only
  split_ifs with h
  · unfold mapIndexInsert
    rw [mapAssign_mapAssign, mapIndex_mapAssign, if_pos rfl]
    unfold mapIndex
    rw [h]
    rfl
  · rfl

theorem storeCommand_first (scripts : ScriptMapMapName) (tmp : ScriptInfo) :
    (storeCommand scripts tmp).first = scripts.first := rfl

theorem mapIndexInsert_keys_sorted (m : ScriptMapMap) (k : Nat) (v : Nat × ScriptInfo)
    (hm : m.Pairwise (fun a b => a.1 < b.1)) :
    (mapIndexInsert m k v).Pairwise (fun a b => a.1 < b.1) :=
  mapAssign_keys_sorted m k _ hm

theorem mapIndexInsert_flatMap_perm (m : ScriptMapMap) (k : Nat) (v : Nat × ScriptInfo)
    (hm : m.Pairwise (fun a b => a.1 < b.1)) :
    ((mapIndexInsert m k v).flatMap (fun e => e.2.map Prod.snd)).Perm
      (v.2 :: m.flatMap (fun e => e.2.map Prod.snd)) := by
  induction m with
  | nil => exact List.Perm.refl _
  | cons e t ih =>
    rw [List.pairwise_cons] at hm
    unfold mapIndexInsert
    rw [mapAssign_cons]
    by_cases h1 : k < e.1
    · have hnone : mapFind (e :: t) k = none := by
        apply mapFind_eq_none_of_lt
        intro a ha
        rcases List.mem_cons.1 ha with rfl | ha
        · exact h1
        · exact Nat.lt_trans h1 (hm.1 a ha)
      rw [if_pos h1]
      unfold mapIndex
      rw [hnone]
      exact List.Perm.refl _
    · rw [if_neg h1]
      by_cases h2 : k = e.1
      · rw [if_pos h2]
        have hidx : mapIndex (e :: t) k = e.2 := by
          unfold mapIndex
          rw [mapFind_cons, if_pos h2.symm]
          rfl
        rw [hidx, List.flatMap_cons, List.flatMap_cons]
        exact List.Perm.append_right _ ((multimapInsert_perm e.2 v).map Prod.snd)
      · rw [if_neg h2]
        have hidx : mapIndex (e :: t) k = mapIndex t k := by
          unfold mapIndex
          rw [mapFind_cons, if_neg (fun h => h2 h.symm)]
        rw [hidx, List.flatMap_cons, List.flatMap_cons]
        have := ih hm.2
        unfold mapIndexInsert at this
        exact (List.Perm.append_left _ this).trans List.perm_middle

/-! ## The loader: how one row changes the state -/

theorem questExploredCheck_isSome (D : Defines) (mgr : ObjectMgr) (tmp : ScriptInfo) (q : Nat) :
    ((questExploredCheck D mgr tmp).1.GetQuestTemplate q).isSome
      = (mgr.GetQuestTemplate q).isSome := by
  unfold questExploredCheck
  split
  · rfl
  · simp only
    have key : ∀ f : Nat, ((mgr.setQuestSpecialFlag tmp.questExplored_questId f).GetQuestTemplate
        q).isSome = (mgr.GetQuestTemplate q).isSome := by
      intro f
      unfold ObjectMgr.setQuestSpecialFlag
      simp only
      split_ifs <;> simp
    split_ifs <;> simp only [key]

theorem commandCheck_isSome (D : Defines) (C : Catalogs) (mgr : ObjectMgr) (tmp : ScriptInfo)
    (q : Nat) :
    ((commandCheck D C mgr tmp).1.GetQuestTemplate q).isSome = (mgr.GetQuestTemplate q).isSome := by
  unfold commandCheck
  split <;> first | rfl | exact questExploredCheck_isSome D mgr tmp q

theorem questExploredCheck_congr (D : Defines) (mgr mgr' : ObjectMgr) (tmp : ScriptInfo)
    (h : ∀ q, (mgr.GetQuestTemplate q).isSome = (mgr'.GetQuestTemplate q).isSome) :
    (questExploredCheck D mgr tmp).2 = (questExploredCheck D mgr' tmp).2 := by
  have hq := h tmp.questExplored_questId
  unfold questExploredCheck
  cases h1 : mgr.GetQuestTemplate tmp.questExplored_questId <;>
    cases h2 : mgr'.GetQuestTemplate tmp.questExplored_questId <;>
    simp [h1, h2] at hq ⊢
  split_ifs <;> rfl

theorem terminateCondCheck_congr (C : Catalogs) (mgr mgr' : ObjectMgr) (tmp : ScriptInfo)
    (h : ∀ q, (mgr.GetQuestTemplate q).isSome = (mgr'.GetQuestTemplate q).isSome) :
    terminateCondCheck C mgr tmp = terminateCondCheck C mgr' tmp := by
  have hq := h tmp.terminateCond_failQuest
  unfold terminateCondCheck
  cases h1 : mgr.GetQuestTemplate tmp.terminateCond_failQuest <;>
    cases h2 : mgr'.GetQuestTemplate tmp.terminateCond_failQuest <;>
    simp [h1, h2] at hq ⊢

theorem commandCheck_congr (D : Defines) (C : Catalogs) (mgr mgr' : ObjectMgr) (tmp : ScriptInfo)
    (h : ∀ q, (mgr.GetQuestTemplate q).isSome = (mgr'.GetQuestTemplate q).isSome) :
    (commandCheck D C mgr tmp).2 = (commandCheck D C mgr' tmp).2 := by
  unfold commandCheck
  split <;>
    first
    | rfl
    | exact questExploredCheck_congr D mgr mgr' tmp h
    | exact terminateCondCheck_congr C mgr mgr' tmp h

theorem rowAccepted_congr (D : Defines) (C : Catalogs) (mgr mgr' : ObjectMgr) (tmp : ScriptInfo)
    (h : ∀ q, (mgr.GetQuestTemplate q).isSome = (mgr'.GetQuestTemplate q).isSome) :
    rowAccepted D C mgr tmp = rowAccepted D C mgr' tmp := by
  unfold rowAccepted
  rw [commandCheck_congr D C mgr mgr' tmp h]

theorem processRow_isSome (D : Defines) (C : Catalogs) (st : LoadState) (tmp : ScriptInfo)
    (q : Nat) :
    ((processRow D C st tmp).objmgr.GetQuestTemplate q).isSome
      = (st.objmgr.GetQuestTemplate q).isSome := by
  unfold processRow
  simp only
  split_ifs <;> first | rfl | exact commandCheck_isSome D C st.objmgr tmp q

theorem processRow_scripts (D : Defines) (C : Catalogs) (st : LoadState) (tmp : ScriptInfo) :
    (processRow D C st tmp).scripts =
      if rowAccepted D C st.objmgr tmp = true then storeCommand st.scripts tmp
      else st.scripts := by
  unfold processRow rowAccepted
  simp only
  split_ifs <;> simp_all

theorem processRow_count (D : Defines) (C : Catalogs) (st : LoadState) (tmp : ScriptInfo) :
    (processRow D C st tmp).count =
      if rowAccepted D C st.objmgr tmp = true then st.count + 1 else st.count := by
  unfold processRow rowAccepted
  simp only
  split_ifs <;> simp_all


theorem multimapInsert_filter_of_false (m : ScriptMap) (v : Nat × ScriptInfo)
    (p : Nat × ScriptInfo → Bool) (hv : p v = false) :
    (multimapInsert m v).filter p = m.filter p := by
  induction m with
  | nil => simp [multimapInsert, List.filter_cons, hv]
  | cons e t ih =>
    unfold multimapInsert
    split_ifs with h
    · rw [List.filter_cons, hv]
      rfl
    · rw [List.filter_cons, List.filter_cons, ih]

/-! ## The loader: the state after a list of rows -/

theorem delayOrdered_append_singleton (l : List ScriptInfo) (r : ScriptInfo) :
    delayOrdered (l ++ [r]) = multimapInsert (delayOrdered l) (r.delay, r) := by
  unfold delayOrdered
  rw [List.foldl_append]
  rfl

theorem delayOrdered_sorted (l : List ScriptInfo) :
    (delayOrdered l).Pairwise (fun a b => a.1 ≤ b.1) := by
  induction l using List.reverseRecOn with
  | nil => exact List.Pairwise.nil
  | append_singleton l r ih =>
    rw [delayOrdered_append_singleton]
    exact multimapInsert_sorted _ _ ih

theorem delayOrdered_key (l : List ScriptInfo) :
    ∀ e ∈ delayOrdered l, e.1 = e.2.delay := by
  induction l using List.reverseRecOn with
  | nil => intro e he; cases he
  | append_singleton l r ih =>
    rw [delayOrdered_append_singleton]
    intro e he
    rcases List.mem_cons.1 ((multimapInsert_perm _ _).subset he) with rfl | he
    · rfl
    · exact ih e he

theorem delayOrdered_filter (l : List ScriptInfo) (d : Nat) :
    (delayOrdered l).filter (fun e => decide (e.1 = d))
      = (l.filter (fun r => decide (r.delay = d))).map (fun r => (r.delay, r)) := by
  induction l using List.reverseRecOn with
  | nil => rfl
  | append_singleton l r ih =>
    rw [delayOrdered_append_singleton, List.filter_append]
    by_cases h : r.delay = d
    · rw [multimapInsert_filter _ _ _ (delayOrdered_sorted l)
        (fun a ha => by simpa [h] using ha), ih]
      simp [h]
    · rw [multimapInsert_filter_of_false _ _ _ (by simpa using h), ih]
      simp [h]

theorem delayOrdered_map_snd_sorted (l : List ScriptInfo) :
    ((delayOrdered l).map Prod.snd).Pairwise (fun a b => a.delay ≤ b.delay) := by
  rw [List.pairwise_map]
  refine (delayOrdered_sorted l).imp_of_mem ?_
  intro a b ha hb hab
  rw [← delayOrdered_key l a ha, ← delayOrdered_key l b hb]
  exact hab

theorem delayOrdered_map_snd_filter (l : List ScriptInfo) (d : Nat) :
    ((delayOrdered l).map Prod.snd).filter (fun r => decide (r.delay = d))
      = l.filter (fun r => decide (r.delay = d)) := by
  rw [List.filter_map]
  have h1 : (delayOrdered l).filter ((fun r : ScriptInfo => decide (r.delay = d)) ∘ Prod.snd)
      = (delayOrdered l).filter (fun e => decide (e.1 = d)) := by
    apply List.filter_congr
    intro e he
    simp [delayOrdered_key l e he]
  rw [h1, delayOrdered_filter, List.map_map]
  have hid : (Prod.snd ∘ fun r : ScriptInfo => (r.delay, r)) = id := rfl
  rw [hid, List.map_id]

theorem LoadScripts_eq_foldl (D : Defines) (C : Catalogs) (mgr : ObjectMgr)
    (scripts : ScriptMapMapName) (tablename : String) :
    LoadScripts D C false mgr scripts tablename =
      (C.PQuery tablename).foldl (processRow D C)
        { scripts := { first := tablename, second := [] }, objmgr := mgr, count := 0 } := by
  unfold LoadScripts
  simp only [Bool.false_eq_true, if_false]
  split
  · next h => rw [h]; rfl
  · next h => rw [h]

theorem loadInv_foldl (D : Defines) (C : Catalogs) (mgr0 : ObjectMgr) (tablename : String)
    (rs : List ScriptInfo) :
    LoadInv D C mgr0 tablename rs
      (rs.foldl (processRow D C)
        { scripts := { first := tablename, second := [] }, objmgr := mgr0, count := 0 }) := by
  induction rs using List.reverseRecOn with
  | nil =>
    exact ⟨rfl, fun _ => rfl, List.Pairwise.nil, fun _ => rfl, rfl, List.Perm.refl _⟩
  | append_singleton l r ih =>
    rw [List.foldl_append]
    simp only [List.foldl_cons, List.foldl_nil]
    generalize l.foldl (processRow D C)
      { scripts := { first := tablename, second := [] }, objmgr := mgr0, count := 0 } = st at ih
    have hacc : rowAccepted D C st.objmgr r = rowAccepted D C mgr0 r :=
      rowAccepted_congr D C _ _ r ih.quests
    refine ⟨?_, ?_, ?_, ?_, ?_, ?_⟩
    · rw [processRow_scripts]
      split_ifs
      · exact ih.first
      · exact ih.first
    · intro q
      rw [processRow_isSome]
      exact ih.quests q
    · rw [processRow_scripts]
      split_ifs
      · rw [storeCommand_second]
        exact mapIndexInsert_keys_sorted _ _ _ ih.sorted
      · exact ih.sorted
    · intro id
      rw [processRow_scripts, hacc, List.filter_append]
      by_cases ha : rowAccepted D C mgr0 r = true
      · rw [if_pos ha, storeCommand_second, mapIndex_mapIndexInsert]
        by_cases hid : id = r.id
        · subst hid
          rw [if_pos rfl, ih.index]
          simp [List.filter_cons, ha, delayOrdered_append_singleton]
        · rw [if_neg hid, ih.index]
          have : r.id ≠ id := fun h => hid h.symm
          simp [List.filter_cons, this]
      · rw [if_neg ha, ih.index]
        simp [List.filter_cons, ha]
    · rw [processRow_count, hacc, List.filter_append]
      by_cases ha : rowAccepted D C mgr0 r = true
      · simp [List.filter_cons, ha, ih.count]
      · simp [List.filter_cons, ha, ih.count]
    · rw [processRow_scripts, hacc, List.filter_append]
      by_cases ha : rowAccepted D C mgr0 r = true
      · rw [if_pos ha]
        have h1 : (allCommands (storeCommand st.scripts r)).Perm (r :: allCommands st.scripts) := by
          unfold allCommands
          rw [storeCommand_second]
          exact mapIndexInsert_flatMap_perm _ _ _ ih.sorted
        refine h1.trans ?_
        simp only [List.filter_cons, ha, if_true, List.filter_nil]
        exact (List.Perm.cons r ih.perm).trans (List.perm_append_singleton r _).symm
      · rw [if_neg ha]
        simpa [List.filter_cons, ha] using ih.perm

theorem loadInv_LoadScripts (D : Defines) (C : Catalogs) (mgr : ObjectMgr)
    (scripts : ScriptMapMapName) (tablename : String) :
    LoadInv D C mgr tablename (C.PQuery tablename)
      (LoadScripts D C false mgr scripts tablename) := by
  rw [LoadScripts_eq_foldl]
  exact loadInv_foldl D C mgr tablename _

theorem mem_allCommands_LoadScripts (D : Defines) (C : Catalogs) (mgr : ObjectMgr)
    (scripts : ScriptMapMapName) (tablename : String) (c : ScriptInfo) :
    c ∈ allCommands (LoadScripts D C false mgr scripts tablename).scripts ↔
      c ∈ C.PQuery tablename ∧ rowAccepted D C mgr c = true := by
  rw [(loadInv_LoadScripts D C mgr scripts tablename).perm.mem_iff, List.mem_filter]

/-! ## The loader: consequences of the checks for an accepted row -/

theorem processRow_of_genericBuddyCheck_false (D : Defines) (C : Catalogs) (st : LoadState)
    (tmp : ScriptInfo) (h : genericBuddyCheck D C tmp = false) : processRow D C st tmp = st := by
  unfold processRow
  rw [if_pos h]

theorem processRow_of_flagCheck_false (D : Defines) (C : Catalogs) (st : LoadState)
    (tmp : ScriptInfo) (h : flagCheck D C tmp = false) : processRow D C st tmp = st := by
  unfold processRow
  split_ifs <;> rfl

theorem processRow_of_not_accepted (D : Defines) (C : Catalogs) (st : LoadState)
    (tmp : ScriptInfo) (h : rowAccepted D C st.objmgr tmp = false) :
    (processRow D C st tmp).scripts = st.scripts ∧ (processRow D C st tmp).count = st.count := by
  rw [processRow_scripts, processRow_count, h]
  exact ⟨rfl, rfl⟩

theorem rowAccepted_genericBuddyCheck (D : Defines) (C : Catalogs) (mgr : ObjectMgr)
    (tmp : ScriptInfo) (h : rowAccepted D C mgr tmp = true) : genericBuddyCheck D C tmp = true := by
  unfold rowAccepted at h
  simp only [Bool.and_eq_true] at h
  exact h.1.1

theorem rowAccepted_flagCheck (D : Defines) (C : Catalogs) (mgr : ObjectMgr)
    (tmp : ScriptInfo) (h : rowAccepted D C mgr tmp = true) : flagCheck D C tmp = true := by
  unfold rowAccepted at h
  simp only [Bool.and_eq_true] at h
  exact h.1.2

theorem rowAccepted_commandCheck (D : Defines) (C : Catalogs) (mgr : ObjectMgr)
    (tmp : ScriptInfo) (h : rowAccepted D C mgr tmp = true) :
    (commandCheck D C mgr tmp).2 = true := by
  unfold rowAccepted at h
  simp only [Bool.and_eq_true] at h
  exact h.2

theorem commandCheck_command (D : Defines) (C : Catalogs) (mgr : ObjectMgr) (tmp : ScriptInfo)
    (h : (commandCheck D C mgr tmp).2 = true) :
    tmp.command ≤ 34 ∧ tmp.command ≠ SCRIPT_COMMAND_PLAY_MOVIE := by
  unfold commandCheck at h
  split at h
  case h_20 => cases h
  case h_36 => cases h
  all_goals
    rename_i hc
    rw [hc]
    decide

theorem commandCheck_goLockState (D : Defines) (C : Catalogs) (mgr : ObjectMgr)
    (tmp : ScriptInfo) (hc : tmp.command = SCRIPT_COMMAND_GO_LOCK_STATE) :
    (commandCheck D C mgr tmp).2 = goLockStateCheck tmp := by
  unfold commandCheck
  rw [hc]

theorem land_ne_zero_imp_ne_zero (a b : Nat) (h : a &&& b ≠ 0) : a ≠ 0 := by
  rintro rfl
  exact h (Nat.zero_and b)

theorem flagCheck_flags (D : Defines) (C : Catalogs) (tmp : ScriptInfo)
    (h : flagCheck D C tmp = true) :
    tmp.data_flags &&& bitNot32 D.MAX_SCRIPT_FLAG_VALID = 0 ∧
    (tmp.data_flags &&& D.SCRIPT_FLAG_COMMAND_ADDITIONAL ≠ 0 →
      D.HasAdditionalScriptFlag tmp = true) ∧
    (tmp.data_flags &&& D.SCRIPT_FLAG_BUDDY_AS_TARGET ≠ 0 → tmp.buddyEntry ≠ 0) := by
  unfold flagCheck at h
  by_cases h0 : tmp.data_flags = 0
  · rw [h0]
    simp
  · rw [if_pos h0] at h
    by_cases h1 : tmp.data_flags &&& bitNot32 D.MAX_SCRIPT_FLAG_VALID ≠ 0
    · rw [if_pos h1] at h; cases h
    · rw [if_neg h1] at h
      by_cases h2 : D.HasAdditionalScriptFlag tmp = false
          ∧ tmp.data_flags &&& D.SCRIPT_FLAG_COMMAND_ADDITIONAL ≠ 0
      · rw [if_pos h2] at h; cases h
      · rw [if_neg h2] at h
        by_cases h3 : tmp.data_flags &&& D.SCRIPT_FLAG_BUDDY_AS_TARGET ≠ 0 ∧ tmp.buddyEntry = 0
        · rw [if_pos h3] at h; cases h
        · refine ⟨not_not.1 h1, ?_, ?_⟩
          · intro ha
            by_contra hn
            exact h2 ⟨by simpa using hn, ha⟩
          · intro ha hb
            exact h3 ⟨ha, hb⟩

theorem flagCheck_buddyByGuid (D : Defines) (C : Catalogs) (tmp : ScriptInfo)
    (h : flagCheck D C tmp = true)
    (hf : tmp.data_flags &&& D.SCRIPT_FLAG_BUDDY_BY_GUID ≠ 0) :
    (D.IsCreatureBuddy tmp = true →
      ∃ data, C.GetCreatureData tmp.searchRadiusOrGuid = some data ∧ data.id = tmp.buddyEntry) ∧
    (D.IsCreatureBuddy tmp = false →
      ∃ data, C.GetGOData tmp.searchRadiusOrGuid = some data ∧ data.id = tmp.buddyEntry) := by
  have h0 : tmp.data_flags ≠ 0 := land_ne_zero_imp_ne_zero _ _ hf
  unfold flagCheck at h
  rw [if_pos h0] at h
  split_ifs at h with h1 h2 h3 h4
  · constructor
    · intro _
      cases hd : C.GetCreatureData tmp.searchRadiusOrGuid with
      | none => rw [hd] at h; cases h
      | some data =>
        rw [hd] at h
        refine ⟨data, rfl, ?_⟩
        by_contra hne
        simp [hne] at h
    · intro hb
      rw [h4] at hb
      cases hb
  · constructor
    · intro hb
      exact absurd hb h4
    · intro _
      cases hd : C.GetGOData tmp.searchRadiusOrGuid with
      | none => rw [hd] at h; cases h
      | some data =>
        rw [hd] at h
        refine ⟨data, rfl, ?_⟩
        by_contra hne
        simp [hne] at h

theorem genericBuddyCheck_buddy (D : Defines) (C : Catalogs) (tmp : ScriptInfo)
    (h : genericBuddyCheck D C tmp = true) (hb : tmp.buddyEntry ≠ 0)
    (hf : tmp.data_flags &&& D.SCRIPT_FLAG_BUDDY_BY_GUID = 0) :
    (D.IsCreatureBuddy tmp = true → C.GetCreatureTemplate tmp.buddyEntry = true) ∧
    (D.IsCreatureBuddy tmp = false → (C.GetGameObjectInfo tmp.buddyEntry).isSome = true) ∧
    tmp.searchRadiusOrGuid ≠ 0 := by
  unfold genericBuddyCheck at h
  rw [if_pos ⟨hb, hf⟩] at h
  split_ifs at h with h1 h2 h3
  refine ⟨?_, ?_, h3⟩
  · intro hc
    by_contra hn
    exact h1 ⟨hc, by simpa using hn⟩
  · intro hc
    by_contra hn
    exact h2 ⟨hc, by simpa using hn⟩

theorem goLockStateCheck_eq_true (tmp : ScriptInfo) :
    goLockStateCheck tmp = true ↔
      ¬ (tmp.goLockState_lockState &&& 0x01 ≠ 0 ∧ tmp.goLockState_lockState &&& 0x02 ≠ 0) ∧
      ¬ (tmp.goLockState_lockState &&& 0x04 ≠ 0 ∧ tmp.goLockState_lockState &&& 0x08 ≠ 0) ∧
      tmp.goLockState_lockState ≠ 0 ∧ tmp.goLockState_lockState < 0x10 := by
  unfold goLockStateCheck
  split_ifs with h
  · simp only [Bool.false_eq_true, false_iff]
    rintro ⟨h1, h2, h3, h4⟩
    rcases h with h | h | h | h
    · exact h1 h
    · exact h2 h
    · exact h3 h
    · omega
  · simp only [true_iff]
    refine ⟨fun h1 => h (Or.inl h1), fun h2 => h (Or.inr (Or.inl h2)),
      fun h3 => h (Or.inr (Or.inr (Or.inl h3))), ?_⟩
    by_contra h4
    exact h (Or.inr (Or.inr (Or.inr (by omega))))

theorem testBit_of_land_bitNot32 (a m i : Nat) (h : a &&& bitNot32 m = 0) (hi : i < 32)
    (ha : a.testBit i = true) : m.testBit i = true := by
  have hbit : (a &&& bitNot32 m).testBit i = false := by rw [h]; exact Nat.zero_testBit i
  rw [Nat.testBit_and, ha, Bool.true_and] at hbit
  unfold bitNot32 at hbit
  have hlt : m % 2 ^ 32 < 2 ^ 32 := Nat.mod_lt _ (by decide)
  have hsub : 0xFFFFFFFF - m % 2 ^ 32 = 2 ^ 32 - (m % 2 ^ 32 + 1) := by omega
  rw [hsub, Nat.testBit_two_pow_sub_succ hlt, Nat.testBit_mod_two_pow] at hbit
  simpa [hi] using hbit

/-! ## The loader: the claims -/

/-- C3: for every result set and every script id, the commands `LoadScripts`
stores for the id are sorted by ascending delay, and the stored commands of
any one delay are exactly the accepted rows of that id and delay in the order
in which they were read (stable). On the sample table whose rows have the
delays 0, 0, 5 the stored order is first row, second row, delay-5 row, and it
is the same when the delay-5 row is read first. -/
theorem C3_LoadScripts_sorted_by_delay_stable (D : Defines) (C : Catalogs) (mgr : ObjectMgr)
    (scripts : ScriptMapMapName) (tablename : String) (id : Nat) :
    (commandsOf (LoadScripts D C false mgr scripts tablename).scripts id).Pairwise
        (fun a b => a.delay ≤ b.delay) ∧
    (∀ d : Nat,
      (commandsOf (LoadScripts D C false mgr scripts tablename).scripts id).filter
          (fun c => decide (c.delay = d)) =
        (C.PQuery tablename).filter
          (fun r => rowAccepted D C mgr r && decide (r.id = id) && decide (r.delay = d))) ∧
    commandsOf (LoadScripts sampleDefines sampleCatalogs false sampleObjectMgr emptyScripts
        "dbscripts_on_event").scripts 1 = [sampleRow, sampleLockRow, sampleLateRow] ∧
    commandsOf (LoadScripts sampleDefines sampleCatalogs false sampleObjectMgr emptyScripts
        "dbscripts_on_gossip").scripts 1
      = [sampleRow, sampleLockRow, sampleBuddyRow, sampleLateRow] := by
  have hidx := (loadInv_LoadScripts D C mgr scripts tablename).index id
  refine ⟨?_, ?_, by decide, by decide⟩
  · unfold commandsOf
    rw [hidx]
    exact delayOrdered_map_snd_sorted _
  · intro d
    unfold commandsOf
    rw [hidx, delayOrdered_map_snd_filter, List.filter_filter]
    apply List.filter_congr
    intro r _
    rw [Bool.and_comm]

/-- C4: `LoadScripts` is a per-row filter. The commands of the resulting table
are, as a multiset, exactly the rows of the result set that pass the checks,
each row judged on its own; the reported count is the number of those rows;
so every row that passes is in the table, whatever rows come before or after. -/
theorem C4_LoadScripts_per_row_filter (D : Defines) (C : Catalogs) (mgr : ObjectMgr)
    (scripts : ScriptMapMapName) (tablename : String) :
    (allCommands (LoadScripts D C false mgr scripts tablename).scripts).Perm
        ((C.PQuery tablename).filter (rowAccepted D C mgr)) ∧
    (LoadScripts D C false mgr scripts tablename).count
      = ((C.PQuery tablename).filter (rowAccepted D C mgr)).length ∧
    (∀ before after : List ScriptInfo, ∀ r : ScriptInfo,
      C.PQuery tablename = before ++ r :: after → rowAccepted D C mgr r = true →
      r ∈ allCommands (LoadScripts D C false mgr scripts tablename).scripts) := by
  have hinv := loadInv_LoadScripts D C mgr scripts tablename
  refine ⟨hinv.perm, hinv.count, ?_⟩
  intro before after r hq hr
  rw [mem_allCommands_LoadScripts, hq]
  exact ⟨List.mem_append_right _ (List.mem_cons_self _ _), hr⟩

/-- Witness of C4 on the sample gossip table: five of its eight rows are loaded. -/
theorem C4_LoadScripts_per_row_filter_witness :
    (LoadScripts sampleDefines sampleCatalogs false sampleObjectMgr emptyScripts
        "dbscripts_on_gossip").count = 5 ∧
    sampleBuddyRow ∈ allCommands (LoadScripts sampleDefines sampleCatalogs false sampleObjectMgr
        emptyScripts "dbscripts_on_gossip").scripts :=
  ⟨((C4_LoadScripts_per_row_filter sampleDefines sampleCatalogs sampleObjectMgr emptyScripts
      "dbscripts_on_gossip").2.1).trans (by decide),
   (C4_LoadScripts_per_row_filter sampleDefines sampleCatalogs sampleObjectMgr emptyScripts
      "dbscripts_on_gossip").2.2
      [sampleLateRow, sampleMovieRow, sampleOtherIdRow, sampleRow, sampleLockUnlockRow,
        sampleGuidBuddyRow, sampleLockRow] [] sampleBuddyRow (by decide) (by decide)⟩

/-- C5: every command of a table produced by `LoadScripts` has a command
number in 0..34 other than play-movie (19); a row whose command is play-movie
or above 34 is not in the table and leaves table and count as they are when
the loop processes it, whatever its other fields are. -/
theorem C5_LoadScripts_command_supported (D : Defines) (C : Catalogs) (mgr : ObjectMgr)
    (scripts : ScriptMapMapName) (tablename : String) (c : ScriptInfo) :
    (c ∈ allCommands (LoadScripts D C false mgr scripts tablename).scripts →
      c.command ≤ 34 ∧ c.command ≠ SCRIPT_COMMAND_PLAY_MOVIE) ∧
    (c.command = SCRIPT_COMMAND_PLAY_MOVIE ∨ 34 < c.command →
      c ∉ allCommands (LoadScripts D C false mgr scripts tablename).scripts ∧
      ∀ st : LoadState, (processRow D C st c).scripts = st.scripts ∧
        (processRow D C st c).count = st.count) := by
  constructor
  · intro hc
    rw [mem_allCommands_LoadScripts] at hc
    exact commandCheck_command D C mgr c (rowAccepted_commandCheck D C mgr c hc.2)
  · intro hbad
    have hrej : ∀ m : ObjectMgr, rowAccepted D C m c = false := by
      intro m
      by_contra hacc
      have h := commandCheck_command D C m c
        (rowAccepted_commandCheck D C m c (by simpa using hacc))
      rcases hbad with hb | hb
      · exact h.2 hb
      · omega
    constructor
    · rw [mem_allCommands_LoadScripts, hrej mgr]
      simp
    · intro st
      exact processRow_of_not_accepted D C st c (hrej st.objmgr)

/-- Witness of C5 on the sample gossip table, which has a play-movie row. -/
theorem C5_LoadScripts_command_supported_witness :
    sampleMovieRow ∈ sampleCatalogs.PQuery "dbscripts_on_gossip" ∧
    sampleMovieRow ∉ allCommands (LoadScripts sampleDefines sampleCatalogs false sampleObjectMgr
        emptyScripts "dbscripts_on_gossip").scripts :=
  ⟨by decide,
   ((C5_LoadScripts_command_supported sampleDefines sampleCatalogs sampleObjectMgr emptyScripts
      "dbscripts_on_gossip" sampleMovieRow).2 (Or.inl rfl)).1⟩

/-- C6: every command loaded by `LoadScripts` satisfies the flag invariant:
`data_flags` has no bit outside the valid mask, the additional flag is set only
if the command kind supports it, and the buddy-as-target flag is set only if
`buddyEntry` is non-zero. -/
theorem C6_LoadScripts_flag_invariant (D : Defines) (C : Catalogs) (mgr : ObjectMgr)
    (scripts : ScriptMapMapName) (tablename : String) (c : ScriptInfo)
    (hc : c ∈ allCommands (LoadScripts D C false mgr scripts tablename).scripts) :
    c.data_flags &&& bitNot32 D.MAX_SCRIPT_FLAG_VALID = 0 ∧
    (∀ i : Nat, i < 32 → c.data_flags.testBit i = true →
      D.MAX_SCRIPT_FLAG_VALID.testBit i = true) ∧
    (c.data_flags &&& D.SCRIPT_FLAG_COMMAND_ADDITIONAL ≠ 0 →
      D.HasAdditionalScriptFlag c = true) ∧
    (c.data_flags &&& D.SCRIPT_FLAG_BUDDY_AS_TARGET ≠ 0 → c.buddyEntry ≠ 0) := by
  rw [mem_allCommands_LoadScripts] at hc
  obtain ⟨h1, h2, h3⟩ := flagCheck_flags D C c (rowAccepted_flagCheck D C mgr c hc.2)
  exact ⟨h1, fun i hi ha => testBit_of_land_bitNot32 _ _ i h1 hi ha, h2, h3⟩

/-- Witness of C6: the sample buddy row, with the flags buddy-as-target and
additional, is loaded from the sample gossip table. -/
theorem C6_LoadScripts_flag_invariant_witness :
    sampleBuddyRow ∈ allCommands (LoadScripts sampleDefines sampleCatalogs false sampleObjectMgr
        emptyScripts "dbscripts_on_gossip").scripts ∧
    sampleBuddyRow.data_flags &&& sampleDefines.SCRIPT_FLAG_BUDDY_AS_TARGET ≠ 0 ∧
    sampleBuddyRow.buddyEntry ≠ 0 :=
  ⟨by decide, by decide,
   (C6_LoadScripts_flag_invariant sampleDefines sampleCatalogs sampleObjectMgr emptyScripts
      "dbscripts_on_gossip" sampleBuddyRow (by decide)).2.2.2 (by decide)⟩

/-- C7: a row with a non-zero `buddyEntry` and the buddy-by-guid flag is not
loaded when no creature (for a creature-buddy command) or game object
(otherwise) is spawned with the guid in `search_radius`, or when that spawn
has a template entry other than `buddyEntry`: the row is not in the table and
the loop leaves its state as it is on that row. -/
theorem C7_LoadScripts_buddy_by_guid (D : Defines) (C : Catalogs) (mgr : ObjectMgr)
    (scripts : ScriptMapMapName) (tablename : String) (tmp : ScriptInfo)
    (_hb : tmp.buddyEntry ≠ 0)
    (hf : tmp.data_flags &&& D.SCRIPT_FLAG_BUDDY_BY_GUID ≠ 0)
    (hbad :
      (D.IsCreatureBuddy tmp = true ∧
        (C.GetCreatureData tmp.searchRadiusOrGuid = none ∨
          ∃ data, C.GetCreatureData tmp.searchRadiusOrGuid = some data ∧
            data.id ≠ tmp.buddyEntry)) ∨
      (D.IsCreatureBuddy tmp = false ∧
        (C.GetGOData tmp.searchRadiusOrGuid = none ∨
          ∃ data, C.GetGOData tmp.searchRadiusOrGuid = some data ∧
            data.id ≠ tmp.buddyEntry))) :
    tmp ∉ allCommands (LoadScripts D C false mgr scripts tablename).scripts ∧
    ∀ st : LoadState, processRow D C st tmp = st := by
  have hflag : flagCheck D C tmp = false := by
    by_contra hne
    have hok : flagCheck D C tmp = true := by simpa using hne
    obtain ⟨hcr, hgo⟩ := flagCheck_buddyByGuid D C tmp hok hf
    rcases hbad with ⟨hk, hbad⟩ | ⟨hk, hbad⟩
    · obtain ⟨data, hd, hid⟩ := hcr hk
      rcases hbad with hn | ⟨data', hd', hid'⟩
      · rw [hn] at hd; cases hd
      · rw [hd'] at hd
        cases hd
        exact hid' hid
    · obtain ⟨data, hd, hid⟩ := hgo hk
      rcases hbad with hn | ⟨data', hd', hid'⟩
      · rw [hn] at hd; cases hd
      · rw [hd'] at hd
        cases hd
        exact hid' hid
  constructor
  · rw [mem_allCommands_LoadScripts]
    rintro ⟨_, hacc⟩
    rw [rowAccepted_flagCheck D C mgr tmp hacc] at hflag
    cases hflag
  · intro st
    exact processRow_of_flagCheck_false D C st tmp hflag

/-- Witness of C7: the sample row that names the creature spawn 1 with the
wrong entry is read from the sample gossip table and not loaded. -/
theorem C7_LoadScripts_buddy_by_guid_witness :
    sampleGuidBuddyRow ∈ sampleCatalogs.PQuery "dbscripts_on_gossip" ∧
    sampleGuidBuddyRow ∉ allCommands (LoadScripts sampleDefines sampleCatalogs false
        sampleObjectMgr emptyScripts "dbscripts_on_gossip").scripts :=
  ⟨by decide,
   (C7_LoadScripts_buddy_by_guid sampleDefines sampleCatalogs sampleObjectMgr emptyScripts
      "dbscripts_on_gossip" sampleGuidBuddyRow (by decide) (by decide)
      (Or.inl ⟨by decide, Or.inr ⟨{ id := 100 }, by decide, by decide⟩⟩)).1⟩

/-- C8: a row with a non-zero `buddyEntry` and without the buddy-by-guid flag
is loaded only if `buddyEntry` is in the creature-template catalog (for a
creature-buddy command) or in the game-object-template catalog (otherwise)
and the search radius is non-zero. -/
theorem C8_LoadScripts_buddy_by_entry (D : Defines) (C : Catalogs) (mgr : ObjectMgr)
    (scripts : ScriptMapMapName) (tablename : String) (c : ScriptInfo)
    (hc : c ∈ allCommands (LoadScripts D C false mgr scripts tablename).scripts)
    (hb : c.buddyEntry ≠ 0)
    (hf : c.data_flags &&& D.SCRIPT_FLAG_BUDDY_BY_GUID = 0) :
    (D.IsCreatureBuddy c = true → C.GetCreatureTemplate c.buddyEntry = true) ∧
    (D.IsCreatureBuddy c = false → (C.GetGameObjectInfo c.buddyEntry).isSome = true) ∧
    c.searchRadiusOrGuid ≠ 0 := by
  rw [mem_allCommands_LoadScripts] at hc
  exact genericBuddyCheck_buddy D C c (rowAccepted_genericBuddyCheck D C mgr c hc.2) hb hf

/-- Witness of C8: the sample buddy row, loaded from the sample gossip table. -/
theorem C8_LoadScripts_buddy_by_entry_witness :
    sampleBuddyRow ∈ allCommands (LoadScripts sampleDefines sampleCatalogs false sampleObjectMgr
        emptyScripts "dbscripts_on_gossip").scripts ∧
    sampleBuddyRow.buddyEntry ≠ 0 ∧
    sampleBuddyRow.data_flags &&& sampleDefines.SCRIPT_FLAG_BUDDY_BY_GUID = 0 ∧
    sampleCatalogs.GetCreatureTemplate sampleBuddyRow.buddyEntry = true ∧
    sampleBuddyRow.searchRadiusOrGuid ≠ 0 :=
  ⟨by decide, by decide, by decide,
   (C8_LoadScripts_buddy_by_entry sampleDefines sampleCatalogs sampleObjectMgr emptyScripts
      "dbscripts_on_gossip" sampleBuddyRow (by decide) (by decide) (by decide)).1 (by decide),
   (C8_LoadScripts_buddy_by_entry sampleDefines sampleCatalogs sampleObjectMgr emptyScripts
      "dbscripts_on_gossip" sampleBuddyRow (by decide) (by decide) (by decide)).2.2⟩

/-- C9: a go-lock-state row whose lock state (column `datalong`) sets both the
lock (0x01) and the unlock (0x02) bit, or both the non-interactable (0x04) and
the interactable (0x08) bit, is excluded: it is not in the table and the loop
leaves its state as it is on that row. -/
theorem C9_LoadScripts_goLockState_conflict (D : Defines) (C : Catalogs) (mgr : ObjectMgr)
    (scripts : ScriptMapMapName) (tablename : String) (tmp : ScriptInfo)
    (hcmd : tmp.command = SCRIPT_COMMAND_GO_LOCK_STATE)
    (hbits : (tmp.datalong &&& 0x01 ≠ 0 ∧ tmp.datalong &&& 0x02 ≠ 0) ∨
      (tmp.datalong &&& 0x04 ≠ 0 ∧ tmp.datalong &&& 0x08 ≠ 0)) :
    tmp ∉ allCommands (LoadScripts D C false mgr scripts tablename).scripts ∧
    ∀ st : LoadState, processRow D C st tmp = st := by
  have hlock : goLockStateCheck tmp = false := by
    by_contra hne
    have hok : goLockStateCheck tmp = true := by simpa using hne
    rw [goLockStateCheck_eq_true] at hok
    rcases hbits with h | h
    · exact hok.1 h
    · exact hok.2.1 h
  have hcheck : ∀ m : ObjectMgr, commandCheck D C m tmp = (m, false) := by
    intro m
    unfold commandCheck
    rw [hcmd]
    simp only [hlock]
  constructor
  · rw [mem_allCommands_LoadScripts]
    rintro ⟨_, hacc⟩
    have := rowAccepted_commandCheck D C mgr tmp hacc
    rw [hcheck mgr] at this
    cases this
  · intro st
    unfold processRow
    simp only [hcheck st.objmgr]
    split_ifs <;> rfl

/-- Witness of C9: the sample row that sets lock and unlock together is read
from the sample gossip table and not loaded. -/
theorem C9_LoadScripts_goLockState_conflict_witness :
    sampleLockUnlockRow ∈ sampleCatalogs.PQuery "dbscripts_on_gossip" ∧
    sampleLockUnlockRow ∉ allCommands (LoadScripts sampleDefines sampleCatalogs false
        sampleObjectMgr emptyScripts "dbscripts_on_gossip").scripts :=
  ⟨by decide,
   (C9_LoadScripts_goLockState_conflict sampleDefines sampleCatalogs sampleObjectMgr emptyScripts
      "dbscripts_on_gossip" sampleLockUnlockRow rfl (Or.inl ⟨by decide, by decide⟩)).1⟩

/-- C10, as stated, fails: the sample go-lock-state row with lock state 0x01
is loaded from the sample event table although it sets neither the
non-interactable (0x04) nor the interactable (0x08) bit. -/
theorem C10_goLockState_exactly_one_counterexample :
    sampleLockRow ∈ allCommands (LoadScripts sampleDefines sampleCatalogs false sampleObjectMgr
        emptyScripts "dbscripts_on_event").scripts ∧
    sampleLockRow.command = SCRIPT_COMMAND_GO_LOCK_STATE ∧
    sampleLockRow.datalong &&& 0x04 = 0 ∧ sampleLockRow.datalong &&& 0x08 = 0 := by
  decide

/-- C10, amended: a go-lock-state row is loaded only if its lock state sets at
most one of lock (0x01) and unlock (0x02) and at most one of non-interactable
(0x04) and interactable (0x08), is non-zero and is below 0x10. -/
theorem C10_LoadScripts_goLockState_at_most_one (D : Defines) (C : Catalogs) (mgr : ObjectMgr)
    (scripts : ScriptMapMapName) (tablename : String) (c : ScriptInfo)
    (hc : c ∈ allCommands (LoadScripts D C false mgr scripts tablename).scripts)
    (hcmd : c.command = SCRIPT_COMMAND_GO_LOCK_STATE) :
    ¬ (c.datalong &&& 0x01 ≠ 0 ∧ c.datalong &&& 0x02 ≠ 0) ∧
    ¬ (c.datalong &&& 0x04 ≠ 0 ∧ c.datalong &&& 0x08 ≠ 0) ∧
    c.datalong ≠ 0 ∧ c.datalong < 0x10 := by
  rw [mem_allCommands_LoadScripts] at hc
  have h := rowAccepted_commandCheck D C mgr c hc.2
  rw [commandCheck_goLockState D C mgr c hcmd, goLockStateCheck_eq_true] at h
  exact h

/-- Witness of the amended C10 on the sample event table. -/
theorem C10_LoadScripts_goLockState_at_most_one_witness :
    sampleLockRow ∈ allCommands (LoadScripts sampleDefines sampleCatalogs false sampleObjectMgr
        emptyScripts "dbscripts_on_event").scripts ∧
    sampleLockRow.command = SCRIPT_COMMAND_GO_LOCK_STATE ∧
    sampleLockRow.datalong ≠ 0 ∧ sampleLockRow.datalong < 0x10 :=
  ⟨by decide, rfl,
   (C10_LoadScripts_goLockState_at_most_one sampleDefines sampleCatalogs sampleObjectMgr
    emptyScripts "dbscripts_on_event" sampleLockRow (by decide) rfl).2.2⟩

/-! ## The loader: the table as a function of the accepted rows -/

theorem storeAll_append_singleton (tablename : String) (l : List ScriptInfo) (r : ScriptInfo) :
    storeAll tablename (l ++ [r]) = storeCommand (storeAll tablename l) r := by
  unfold storeAll
  rw [List.foldl_append]
  rfl

theorem foldl_processRow_scripts (D : Defines) (C : Catalogs) (mgr0 : ObjectMgr)
    (tablename : String) (rs : List ScriptInfo) :
    (rs.foldl (processRow D C)
        { scripts := { first := tablename, second := [] }, objmgr := mgr0, count := 0 }).scripts
      = storeAll tablename (rs.filter (rowAccepted D C mgr0)) := by
  induction rs using List.reverseRecOn with
  | nil => rfl
  | append_singleton l r ih =>
    have hinv := loadInv_foldl D C mgr0 tablename l
    rw [List.foldl_append]
    simp only [List.foldl_cons, List.foldl_nil]
    rw [processRow_scripts, rowAccepted_congr D C _ mgr0 r hinv.quests, ih, List.filter_append]
    by_cases ha : rowAccepted D C mgr0 r = true
    · rw [if_pos ha]
      simp only [List.filter_cons, ha, if_true, List.filter_nil]
      rw [storeAll_append_singleton]
    · rw [if_neg ha]
      simp [List.filter_cons, ha]

theorem LoadScripts_scripts (D : Defines) (C : Catalogs) (mgr : ObjectMgr)
    (scripts : ScriptMapMapName) (tablename : String) :
    (LoadScripts D C false mgr scripts tablename).scripts
      = storeAll tablename ((C.PQuery tablename).filter (rowAccepted D C mgr)) := by
  rw [LoadScripts_eq_foldl]
  exact foldl_processRow_scripts D C mgr tablename _

theorem processRow_withRows (D : Defines) (C : Catalogs) (rows : List ScriptInfo) :
    processRow D (C.withRows rows) = processRow D C := rfl

theorem LoadScripts_withRows (D : Defines) (C : Catalogs) (rows : List ScriptInfo)
    (mgr : ObjectMgr) (scripts : ScriptMapMapName) (tablename : String) :
    LoadScripts D (C.withRows rows) false mgr scripts tablename =
      rows.foldl (processRow D C)
        { scripts := { first := tablename, second := [] }, objmgr := mgr, count := 0 } := by
  rw [LoadScripts_eq_foldl, processRow_withRows]
  rfl

theorem commandCheck_teleportTo (D : Defines) (C : Catalogs) (mgr : ObjectMgr)
    (tmp : ScriptInfo) (hc : tmp.command = SCRIPT_COMMAND_TELEPORT_TO) :
    commandCheck D C mgr tmp = (mgr, teleportToCheck C tmp) := by
  unfold commandCheck
  rw [hc]

/-- C11: a teleport-to row whose map id is not in the map catalog, or whose
coordinates are not valid map coordinates, is dropped: loading the rows
followed by that row gives the same table (and the same count and quest
templates) as loading the rows alone. -/
theorem C11_LoadScripts_teleportTo_dropped (D : Defines) (C : Catalogs) (mgr : ObjectMgr)
    (scripts : ScriptMapMapName) (tablename : String) (rows : List ScriptInfo)
    (tmp : ScriptInfo) (hcmd : tmp.command = SCRIPT_COMMAND_TELEPORT_TO)
    (hbad : C.sMapStore tmp.datalong = false ∨
      C.IsValidMapCoord tmp.x tmp.y tmp.z tmp.o = false) :
    LoadScripts D (C.withRows (rows ++ [tmp])) false mgr scripts tablename
      = LoadScripts D (C.withRows rows) false mgr scripts tablename ∧
    (LoadScripts D (C.withRows (rows ++ [tmp])) false mgr scripts tablename).scripts
      = (LoadScripts D (C.withRows rows) false mgr scripts tablename).scripts := by
  have hcheck : teleportToCheck C tmp = false := by
    unfold teleportToCheck ScriptInfo.teleportTo_mapId
    rcases hbad with h | h
    · rw [if_pos h]
    · split_ifs <;> rfl
  have hrow : ∀ st : LoadState, processRow D C st tmp = st := by
    intro st
    unfold processRow
    simp only [commandCheck_teleportTo D C _ tmp hcmd, hcheck]
    split_ifs <;> rfl
  have heq : LoadScripts D (C.withRows (rows ++ [tmp])) false mgr scripts tablename
      = LoadScripts D (C.withRows rows) false mgr scripts tablename := by
    rw [LoadScripts_withRows, LoadScripts_withRows, List.foldl_append]
    exact hrow _
  exact ⟨heq, by rw [heq]⟩

/-- Witness of C11: the sample teleport-to row to the unknown map 5, read after
three rows that are loaded. -/
theorem C11_LoadScripts_teleportTo_dropped_witness :
    sampleCatalogs.sMapStore sampleTeleportRow.datalong = false ∧
    allCommands (LoadScripts sampleDefines
        (sampleCatalogs.withRows ([sampleRow, sampleLockRow, sampleLateRow] ++ [sampleTeleportRow]))
        false sampleObjectMgr emptyScripts "dbscripts_on_event").scripts
      = [sampleRow, sampleLockRow, sampleLateRow] :=
  ⟨by decide,
   ((C11_LoadScripts_teleportTo_dropped sampleDefines sampleCatalogs sampleObjectMgr emptyScripts
      "dbscripts_on_event" [sampleRow, sampleLockRow, sampleLateRow] sampleTeleportRow rfl
      (Or.inl (by decide))).2 ▸ (by decide))⟩

/-- C17: when no script is scheduled, a reload fully replaces the table. The
table after `LoadScripts` is the accepted rows of the result set stored into
an empty table, whatever the table held before; every command in it is a
fetched row, so a command of the old table that is not fetched again is gone;
and loading the same result set a second time gives the same table. -/
theorem C17_LoadScripts_replaces_table (D : Defines) (C : Catalogs) (mgr : ObjectMgr)
    (scripts scripts' : ScriptMapMapName) (tablename : String) :
    (LoadScripts D C false mgr scripts tablename).scripts
      = storeAll tablename ((C.PQuery tablename).filter (rowAccepted D C mgr)) ∧
    (LoadScripts D C false mgr scripts tablename).scripts
      = (LoadScripts D C false mgr scripts' tablename).scripts ∧
    (∀ c ∈ allCommands (LoadScripts D C false mgr scripts tablename).scripts,
      c ∈ C.PQuery tablename) ∧
    (∀ c ∈ allCommands scripts, c ∉ C.PQuery tablename →
      c ∉ allCommands (LoadScripts D C false mgr scripts tablename).scripts) ∧
    (LoadScripts D C false (LoadScripts D C false mgr scripts tablename).objmgr
        (LoadScripts D C false mgr scripts tablename).scripts tablename).scripts
      = (LoadScripts D C false mgr scripts tablename).scripts := by
  refine ⟨LoadScripts_scripts D C mgr scripts tablename, ?_, ?_, ?_, ?_⟩
  · rw [LoadScripts_scripts, LoadScripts_scripts]
  · intro c hc
    exact ((mem_allCommands_LoadScripts D C mgr scripts tablename c).1 hc).1
  · intro c _ hnot hc
    exact hnot ((mem_allCommands_LoadScripts D C mgr scripts tablename c).1 hc).1
  · have hq := (loadInv_LoadScripts D C mgr scripts tablename).quests
    have hacc : rowAccepted D C (LoadScripts D C false mgr scripts tablename).objmgr
        = rowAccepted D C mgr := by
      funext r
      exact rowAccepted_congr D C _ mgr r hq
    rw [LoadScripts_scripts D C _ _ tablename, hacc, LoadScripts_scripts D C mgr scripts tablename]

/-- C18: while a script is scheduled, `LoadScripts` returns without changing
the table: the name and the command list of every id are the same before and
after the call (and so are the quest templates). -/
theorem C18_LoadScripts_scheduled_unchanged (D : Defines) (C : Catalogs) (mgr : ObjectMgr)
    (scripts : ScriptMapMapName) (tablename : String) :
    (LoadScripts D C true mgr scripts tablename).scripts = scripts ∧
    (LoadScripts D C true mgr scripts tablename).scripts.first = scripts.first ∧
    (∀ id : Nat, commandsOf (LoadScripts D C true mgr scripts tablename).scripts id
      = commandsOf scripts id) ∧
    (LoadScripts D C true mgr scripts tablename).objmgr = mgr := by
  have h : LoadScripts D C true mgr scripts tablename
      = { scripts := scripts, objmgr := mgr, count := 0 } := by
    unfold LoadScripts
    rw [if_pos rfl]
  rw [h]
  exact ⟨rfl, rfl, fun _ => rfl, rfl⟩

/-! ## The loader: the command-specific checks of talk, emote, quest-explored and game objects -/

/-- C12: evaluation of the loader on a talk row with an out-of-range text id.
The sample talk row has the second text id 7, below the sample range
2000000000 .. 2000010000, and is loaded all the same: after the diagnostic the
`continue` of lines 263-270 resumes the loop over the text ids, not the loop
over the rows. -/
theorem C12_talk_out_of_range_row_loaded :
    sampleTalkRow.command = SCRIPT_COMMAND_TALK ∧
    sampleTalkRow.textId 1 ≠ 0 ∧
    sampleTalkRow.textId 1 < sampleDefines.MIN_DB_SCRIPT_STRING_ID ∧
    sampleTalkRow ∈ allCommands (LoadScripts sampleDefines
        (sampleCatalogs.withRows [sampleTalkRow]) false sampleObjectMgr emptyScripts
        "dbscripts_on_gossip").scripts := by
  decide

/-- C13: evaluation of the loader on an emote row with an unknown
alternative emote. The sample emote row has the alternative emote 11, which
is not in the sample emote catalog, and is loaded all the same: after the
diagnostic the `continue` of lines 282-289 resumes the loop over the
alternatives, not the loop over the rows. -/
theorem C13_emote_unknown_alternative_row_loaded :
    sampleEmoteRow.command = SCRIPT_COMMAND_EMOTE ∧
    sampleEmoteRow.textId 1 = 11 ∧
    sampleCatalogs.sEmotesStore 11 = false ∧
    sampleEmoteRow ∈ allCommands (LoadScripts sampleDefines
        (sampleCatalogs.withRows [sampleEmoteRow]) false sampleObjectMgr emptyScripts
        "dbscripts_on_gossip").scripts := by
  decide

theorem commandCheck_questExplored (D : Defines) (C : Catalogs) (mgr : ObjectMgr)
    (tmp : ScriptInfo) (hc : tmp.command = SCRIPT_COMMAND_QUEST_EXPLORED) :
    commandCheck D C mgr tmp = questExploredCheck D mgr tmp := by
  unfold commandCheck
  rw [hc]

theorem questExploredCheck_distance (D : Defines) (mgr : ObjectMgr) (tmp : ScriptInfo)
    (h : (questExploredCheck D mgr tmp).2 = true) :
    (tmp.datalong2 : ℚ) ≤ D.DEFAULT_VISIBILITY_DISTANCE ∧
    (tmp.datalong2 = 0 ∨ D.INTERACTION_DISTANCE ≤ (tmp.datalong2 : ℚ)) := by
  unfold questExploredCheck ScriptInfo.questExplored_distance at h
  split at h
  · cases h
  · simp only at h
    split_ifs at h with h1 h2 h3
    all_goals
      refine ⟨not_lt.1 h1, ?_⟩
      by_cases h0 : tmp.datalong2 = 0
      · exact Or.inl h0
      · right
        by_contra hlt
        exact h3 ⟨h0, not_le.1 hlt⟩

/-- C14, as stated, fails: the sample quest-explored row with completion
distance 0 is loaded although 0 is below the sample interaction distance 5. -/
theorem C14_questExplored_distance_zero_counterexample :
    sampleExploredRow.command = SCRIPT_COMMAND_QUEST_EXPLORED ∧
    sampleExploredRow ∈ allCommands (LoadScripts sampleDefines
        (sampleCatalogs.withRows [sampleExploredRow]) false sampleObjectMgr emptyScripts
        "dbscripts_on_quest_end").scripts ∧
    ¬ (sampleDefines.INTERACTION_DISTANCE ≤ (sampleExploredRow.questExplored_distance : ℚ)) := by
  decide

/-- C14, amended: every quest-explored command loaded by `LoadScripts` has a
completion distance `d` with `d ≤ DEFAULT_VISIBILITY_DISTANCE`, and either
`d = 0` (no distance check) or `INTERACTION_DISTANCE ≤ d`. -/
theorem C14_LoadScripts_questExplored_distance (D : Defines) (C : Catalogs) (mgr : ObjectMgr)
    (scripts : ScriptMapMapName) (tablename : String) (c : ScriptInfo)
    (hc : c ∈ allCommands (LoadScripts D C false mgr scripts tablename).scripts)
    (hcmd : c.command = SCRIPT_COMMAND_QUEST_EXPLORED) :
    (c.questExplored_distance : ℚ) ≤ D.DEFAULT_VISIBILITY_DISTANCE ∧
    (c.questExplored_distance = 0 ∨
      D.INTERACTION_DISTANCE ≤ (c.questExplored_distance : ℚ)) := by
  rw [mem_allCommands_LoadScripts] at hc
  have h := rowAccepted_commandCheck D C mgr c hc.2
  rw [commandCheck_questExplored D C mgr c hcmd] at h
  exact questExploredCheck_distance D mgr c h

/-- Witness of the amended C14: the sample quest-explored row with distance 20. -/
theorem C14_LoadScripts_questExplored_distance_witness :
    sampleExploredFarRow ∈ allCommands (LoadScripts sampleDefines
        (sampleCatalogs.withRows [sampleExploredFarRow]) false sampleObjectMgr emptyScripts
        "dbscripts_on_quest_end").scripts ∧
    (sampleExploredFarRow.questExplored_distance : ℚ) ≤ 90 :=
  ⟨by decide,
   (C14_LoadScripts_questExplored_distance sampleDefines
      (sampleCatalogs.withRows [sampleExploredFarRow]) sampleObjectMgr emptyScripts
      "dbscripts_on_quest_end" sampleExploredFarRow (by decide) rfl).1⟩

theorem questExploredCheck_objmgr (D : Defines) (mgr : ObjectMgr) (tmp : ScriptInfo)
    (quest : Quest) (hq : mgr.GetQuestTemplate tmp.datalong = some quest)
    (hflag : quest.HasSpecialFlag D.QUEST_SPECIAL_FLAG_EXPLORATION_OR_EVENT = false) :
    (questExploredCheck D mgr tmp).1
      = mgr.setQuestSpecialFlag tmp.datalong D.QUEST_SPECIAL_FLAG_EXPLORATION_OR_EVENT := by
  unfold questExploredCheck ScriptInfo.questExplored_questId
  rw [hq]
  simp only [hflag, if_true]
  split_ifs <;> rfl

theorem setSpecialFlag_hasSpecialFlag (q : Quest) (flag : Nat) (h : flag ≠ 0) :
    (q.SetSpecialFlag flag).HasSpecialFlag flag = true := by
  unfold Quest.SetSpecialFlag Quest.HasSpecialFlag
  have hand : (q.m_SpecialFlags ||| flag) &&& flag = flag := by
    apply Nat.eq_of_testBit_eq
    intro i
    rw [Nat.testBit_and, Nat.testBit_or]
    cases q.m_SpecialFlags.testBit i <;> cases flag.testBit i <;> rfl
  simp only [hand]
  simpa using h

/-- C15, as stated, fails: the sample quest-explored row with a buddy entry and
search radius 0 names the sample quest 70, which exists and lacks the
exploration flag, and after the load the quest still lacks the flag: the row
is left at the generic buddy check, before the quest is looked at. -/
theorem C15_questExplored_flag_not_set_counterexample :
    sampleExploredNoRadiusRow.command = SCRIPT_COMMAND_QUEST_EXPLORED ∧
    sampleObjectMgr.GetQuestTemplate sampleExploredNoRadiusRow.questExplored_questId
      = some { m_SpecialFlags := 0 } ∧
    Quest.HasSpecialFlag { m_SpecialFlags := 0 }
      sampleDefines.QUEST_SPECIAL_FLAG_EXPLORATION_OR_EVENT = false ∧
    (LoadScripts sampleDefines (sampleCatalogs.withRows [sampleExploredNoRadiusRow]) false
        sampleObjectMgr emptyScripts "dbscripts_on_quest_end").objmgr.GetQuestTemplate 70
      = some { m_SpecialFlags := 0 } := by
  decide

/-- C15, amended: for a quest-explored row that passes the generic buddy and
flag checks and whose quest exists but lacks the exploration-or-event flag,
the loader does not reject the row for that reason. Processing the row sets
the flag on that quest template and changes no other quest template; the row
is accepted exactly when it is accepted for the quest templates in which the
quest already has the flag, and for those the table and the count after the
row are the same. -/
theorem C15_processRow_questExplored_sets_flag (D : Defines) (C : Catalogs) (st : LoadState)
    (tmp : ScriptInfo) (quest : Quest)
    (hcmd : tmp.command = SCRIPT_COMMAND_QUEST_EXPLORED)
    (hgen : genericBuddyCheck D C tmp = true) (hflags : flagCheck D C tmp = true)
    (hq : st.objmgr.GetQuestTemplate tmp.datalong = some quest)
    (hlack : quest.HasSpecialFlag D.QUEST_SPECIAL_FLAG_EXPLORATION_OR_EVENT = false) :
    (processRow D C st tmp).objmgr
      = st.objmgr.setQuestSpecialFlag tmp.datalong D.QUEST_SPECIAL_FLAG_EXPLORATION_OR_EVENT ∧
    (processRow D C st tmp).objmgr.GetQuestTemplate tmp.datalong
      = some (quest.SetSpecialFlag D.QUEST_SPECIAL_FLAG_EXPLORATION_OR_EVENT) ∧
    (D.QUEST_SPECIAL_FLAG_EXPLORATION_OR_EVENT ≠ 0 →
      (quest.SetSpecialFlag D.QUEST_SPECIAL_FLAG_EXPLORATION_OR_EVENT).HasSpecialFlag
        D.QUEST_SPECIAL_FLAG_EXPLORATION_OR_EVENT = true) ∧
    (∀ q : Nat, q ≠ tmp.datalong →
      (processRow D C st tmp).objmgr.GetQuestTemplate q = st.objmgr.GetQuestTemplate q) ∧
    rowAccepted D C st.objmgr tmp
      = rowAccepted D C
          (st.objmgr.setQuestSpecialFlag tmp.datalong D.QUEST_SPECIAL_FLAG_EXPLORATION_OR_EVENT)
          tmp ∧
    (processRow D C st tmp).scripts
      = (processRow D C
          { st with objmgr := (st.objmgr.setQuestSpecialFlag tmp.datalong
              D.QUEST_SPECIAL_FLAG_EXPLORATION_OR_EVENT) } tmp).scripts ∧
    (processRow D C st tmp).count
      = (processRow D C
          { st with objmgr := (st.objmgr.setQuestSpecialFlag tmp.datalong
              D.QUEST_SPECIAL_FLAG_EXPLORATION_OR_EVENT) } tmp).count := by
  have hobj : (processRow D C st tmp).objmgr
      = st.objmgr.setQuestSpecialFlag tmp.datalong D.QUEST_SPECIAL_FLAG_EXPLORATION_OR_EVENT := by
    unfold processRow
    simp only [hgen, hflags, Bool.true_eq_false, if_false,
      commandCheck_questExplored D C st.objmgr tmp hcmd]
    split_ifs <;> exact questExploredCheck_objmgr D st.objmgr tmp quest hq hlack
  have hsome : ∀ q, (st.objmgr.GetQuestTemplate q).isSome
      = ((st.objmgr.setQuestSpecialFlag tmp.datalong
          D.QUEST_SPECIAL_FLAG_EXPLORATION_OR_EVENT).GetQuestTemplate q).isSome := by
    intro q
    unfold ObjectMgr.setQuestSpecialFlag
    simp only
    split_ifs <;> simp
  have hacc := rowAccepted_congr D C st.objmgr
    (st.objmgr.setQuestSpecialFlag tmp.datalong D.QUEST_SPECIAL_FLAG_EXPLORATION_OR_EVENT) tmp hsome
  refine ⟨hobj, ?_, setSpecialFlag_hasSpecialFlag quest _, ?_, hacc, ?_, ?_⟩
  · rw [hobj]
    unfold ObjectMgr.setQuestSpecialFlag
    simp only [if_true, hq, Option.map_some']
  · intro q hne
    rw [hobj]
    unfold ObjectMgr.setQuestSpecialFlag
    simp only [if_neg hne]
  · rw [processRow_scripts, processRow_scripts, hacc]
  · rw [processRow_count, processRow_count, hacc]

/-- Witness of the amended C15: the sample quest-explored row with distance 20,
processed from the empty table with the sample quest templates, in which the
quest 70 lacks the flag. -/
theorem C15_processRow_questExplored_sets_flag_witness :
    sampleObjectMgr.GetQuestTemplate sampleExploredFarRow.datalong
      = some { m_SpecialFlags := 0 } ∧
    (processRow sampleDefines sampleCatalogs
        { scripts := emptyScripts, objmgr := sampleObjectMgr, count := 0 }
        sampleExploredFarRow).objmgr.GetQuestTemplate 70 = some { m_SpecialFlags := 2 } ∧
    (processRow sampleDefines sampleCatalogs
        { scripts := emptyScripts, objmgr := sampleObjectMgr, count := 0 }
        sampleExploredFarRow).count = 1 :=
  ⟨by decide,
   ((C15_processRow_questExplored_sets_flag sampleDefines sampleCatalogs
      { scripts := emptyScripts, objmgr := sampleObjectMgr, count := 0 } sampleExploredFarRow
      { m_SpecialFlags := 0 } rfl (by decide) (by decide) (by decide) (by decide)).2.1).trans
      (by decide),
   by decide⟩

theorem scriptGoEntry_eq_some (D : Defines) (C : Catalogs) (tmp : ScriptInfo) (goEntry : Nat)
    (h : scriptGoEntry D C tmp = some goEntry) :
    (D.GetGOGuid tmp = 0 ∧ tmp.buddyEntry ≠ 0 ∧ goEntry = tmp.buddyEntry) ∨
    (D.GetGOGuid tmp ≠ 0 ∧
      ∃ data, C.GetGOData (D.GetGOGuid tmp) = some data ∧ goEntry = data.id) := by
  unfold scriptGoEntry at h
  by_cases hg : D.GetGOGuid tmp = 0
  · rw [if_pos hg] at h
    by_cases hb : tmp.buddyEntry = 0
    · rw [if_pos hb] at h; cases h
    · rw [if_neg hb] at h
      exact Or.inl ⟨hg, hb, (Option.some.inj h).symm⟩
  · rw [if_neg hg] at h
    cases hd : C.GetGOData (D.GetGOGuid tmp) with
    | none => rw [hd] at h; cases h
    | some data =>
      rw [hd] at h
      exact Or.inr ⟨hg, data, rfl, (Option.some.inj h).symm⟩

theorem respawnGameobjectCheck_eq_true (D : Defines) (C : Catalogs) (tmp : ScriptInfo)
    (h : respawnGameobjectCheck D C tmp = true) :
    ∃ goEntry info, scriptGoEntry D C tmp = some goEntry ∧
      C.GetGameObjectInfo goEntry = some info ∧
      info.type ≠ GameobjectTypes.GAMEOBJECT_TYPE_FISHINGNODE ∧
      info.type ≠ GameobjectTypes.GAMEOBJECT_TYPE_FISHINGHOLE ∧
      info.type ≠ GameobjectTypes.GAMEOBJECT_TYPE_DOOR ∧
      info.type ≠ GameobjectTypes.GAMEOBJECT_TYPE_BUTTON ∧
      info.type ≠ GameobjectTypes.GAMEOBJECT_TYPE_TRAP := by
  unfold respawnGameobjectCheck at h
  cases he : scriptGoEntry D C tmp with
  | none => rw [he] at h; cases h
  | some goEntry =>
    rw [he] at h
    simp only at h
    cases hi : C.GetGameObjectInfo goEntry with
    | none => rw [hi] at h; cases h
    | some info =>
      rw [hi] at h
      simp only at h
      split_ifs at h with hty
      exact ⟨goEntry, info, rfl, hi, fun h1 => hty (Or.inl h1),
        fun h2 => hty (Or.inr (Or.inl h2)), fun h3 => hty (Or.inr (Or.inr (Or.inl h3))),
        fun h4 => hty (Or.inr (Or.inr (Or.inr (Or.inl h4)))),
        fun h5 => hty (Or.inr (Or.inr (Or.inr (Or.inr h5))))⟩

theorem changeDoorCheck_eq_true (D : Defines) (C : Catalogs) (tmp : ScriptInfo)
    (h : changeDoorCheck D C tmp = true) :
    ∃ goEntry info, scriptGoEntry D C tmp = some goEntry ∧
      C.GetGameObjectInfo goEntry = some info ∧
      info.type = GameobjectTypes.GAMEOBJECT_TYPE_DOOR := by
  unfold changeDoorCheck at h
  cases he : scriptGoEntry D C tmp with
  | none => rw [he] at h; cases h
  | some goEntry =>
    rw [he] at h
    simp only at h
    cases hi : C.GetGameObjectInfo goEntry with
    | none => rw [hi] at h; cases h
    | some info =>
      rw [hi] at h
      simp only at h
      split_ifs at h with hty
      exact ⟨goEntry, info, rfl, hi, not_not.1 hty⟩

theorem commandCheck_respawnGameobject (D : Defines) (C : Catalogs) (mgr : ObjectMgr)
    (tmp : ScriptInfo) (hc : tmp.command = SCRIPT_COMMAND_RESPAWN_GAMEOBJECT) :
    commandCheck D C mgr tmp = (mgr, respawnGameobjectCheck D C tmp) := by
  unfold commandCheck
  rw [hc]

theorem commandCheck_changeDoor (D : Defines) (C : Catalogs) (mgr : ObjectMgr)
    (tmp : ScriptInfo)
    (hc : tmp.command = SCRIPT_COMMAND_OPEN_DOOR ∨ tmp.command = SCRIPT_COMMAND_CLOSE_DOOR) :
    commandCheck D C mgr tmp = (mgr, changeDoorCheck D C tmp) := by
  unfold commandCheck
  rcases hc with hc | hc <;> rw [hc]

/-- C16: every respawn-object command loaded by `LoadScripts` designates, by
the spawn guid `GetGOGuid()` when that is set and by the buddy entry otherwise,
a game-object template that exists and whose type is none of fishing node,
fishing hole, door, button, trap; every loaded open-door or close-door command
designates in the same way an existing template of type door; and no loaded
command of these three kinds has neither a guid nor a buddy entry. -/
theorem C16_LoadScripts_gameobject_target (D : Defines) (C : Catalogs) (mgr : ObjectMgr)
    (scripts : ScriptMapMapName) (tablename : String) (c : ScriptInfo)
    (hc : c ∈ allCommands (LoadScripts D C false mgr scripts tablename).scripts) :
    (c.command = SCRIPT_COMMAND_RESPAWN_GAMEOBJECT →
      ∃ goEntry info,
        ((D.GetGOGuid c = 0 ∧ c.buddyEntry ≠ 0 ∧ goEntry = c.buddyEntry) ∨
          (D.GetGOGuid c ≠ 0 ∧
            ∃ data, C.GetGOData (D.GetGOGuid c) = some data ∧ goEntry = data.id)) ∧
        C.GetGameObjectInfo goEntry = some info ∧
        info.type ≠ GameobjectTypes.GAMEOBJECT_TYPE_FISHINGNODE ∧
        info.type ≠ GameobjectTypes.GAMEOBJECT_TYPE_FISHINGHOLE ∧
        info.type ≠ GameobjectTypes.GAMEOBJECT_TYPE_DOOR ∧
        info.type ≠ GameobjectTypes.GAMEOBJECT_TYPE_BUTTON ∧
        info.type ≠ GameobjectTypes.GAMEOBJECT_TYPE_TRAP) ∧
    (c.command = SCRIPT_COMMAND_OPEN_DOOR ∨ c.command = SCRIPT_COMMAND_CLOSE_DOOR →
      ∃ goEntry info,
        ((D.GetGOGuid c = 0 ∧ c.buddyEntry ≠ 0 ∧ goEntry = c.buddyEntry) ∨
          (D.GetGOGuid c ≠ 0 ∧
            ∃ data, C.GetGOData (D.GetGOGuid c) = some data ∧ goEntry = data.id)) ∧
        C.GetGameObjectInfo goEntry = some info ∧
        info.type = GameobjectTypes.GAMEOBJECT_TYPE_DOOR) ∧
    (c.command = SCRIPT_COMMAND_RESPAWN_GAMEOBJECT ∨ c.command = SCRIPT_COMMAND_OPEN_DOOR
        ∨ c.command = SCRIPT_COMMAND_CLOSE_DOOR →
      ¬ (D.GetGOGuid c = 0 ∧ c.buddyEntry = 0)) := by
  rw [mem_allCommands_LoadScripts] at hc
  have hcheck := rowAccepted_commandCheck D C mgr c hc.2
  have hresp : c.command = SCRIPT_COMMAND_RESPAWN_GAMEOBJECT →
      ∃ goEntry info, scriptGoEntry D C c = some goEntry ∧
        C.GetGameObjectInfo goEntry = some info ∧
        info.type ≠ GameobjectTypes.GAMEOBJECT_TYPE_FISHINGNODE ∧
        info.type ≠ GameobjectTypes.GAMEOBJECT_TYPE_FISHINGHOLE ∧
        info.type ≠ GameobjectTypes.GAMEOBJECT_TYPE_DOOR ∧
        info.type ≠ GameobjectTypes.GAMEOBJECT_TYPE_BUTTON ∧
        info.type ≠ GameobjectTypes.GAMEOBJECT_TYPE_TRAP := by
    intro hcmd
    rw [commandCheck_respawnGameobject D C mgr c hcmd] at hcheck
    exact respawnGameobjectCheck_eq_true D C c hcheck
  have hdoor : c.command = SCRIPT_COMMAND_OPEN_DOOR ∨ c.command = SCRIPT_COMMAND_CLOSE_DOOR →
      ∃ goEntry info, scriptGoEntry D C c = some goEntry ∧
        C.GetGameObjectInfo goEntry = some info ∧
        info.type = GameobjectTypes.GAMEOBJECT_TYPE_DOOR := by
    intro hcmd
    rw [commandCheck_changeDoor D C mgr c hcmd] at hcheck
    exact changeDoorCheck_eq_true D C c hcheck
  have hnone : ∀ goEntry, scriptGoEntry D C c = some goEntry →
      ¬ (D.GetGOGuid c = 0 ∧ c.buddyEntry = 0) := by
    rintro goEntry he ⟨hg, hb⟩
    rcases scriptGoEntry_eq_some D C c goEntry he with ⟨_, hb', _⟩ | ⟨hg', _⟩
    · exact hb' hb
    · exact hg' hg
  refine ⟨?_, ?_, ?_⟩
  · intro hcmd
    obtain ⟨goEntry, info, he, hrest⟩ := hresp hcmd
    exact ⟨goEntry, info, scriptGoEntry_eq_some D C c goEntry he, hrest⟩
  · intro hcmd
    obtain ⟨goEntry, info, he, hrest⟩ := hdoor hcmd
    exact ⟨goEntry, info, scriptGoEntry_eq_some D C c goEntry he, hrest⟩
  · rintro (hcmd | hcmd | hcmd)
    · obtain ⟨goEntry, _, he, _⟩ := hresp hcmd
      exact hnone goEntry he
    · obtain ⟨goEntry, _, he, _⟩ := hdoor (Or.inl hcmd)
      exact hnone goEntry he
    · obtain ⟨goEntry, _, he, _⟩ := hdoor (Or.inr hcmd)
      exact hnone goEntry he

/-- Witness of C16: of the sample respawn row for the spawn 3, the sample
open-door row for the spawn 2 and the sample respawn row with neither guid nor
buddy, the first two are loaded and the third is not. -/
theorem C16_LoadScripts_gameobject_target_witness :
    allCommands (LoadScripts sampleDefines
        (sampleCatalogs.withRows [sampleRespawnRow, sampleRespawnNothingRow, sampleDoorRow])
        false sampleObjectMgr emptyScripts "dbscripts_on_go_use").scripts
      = [sampleRespawnRow, sampleDoorRow] ∧
    ¬ (sampleDefines.GetGOGuid sampleDoorRow = 0 ∧ sampleDoorRow.buddyEntry = 0) :=
  ⟨by decide,
   (C16_LoadScripts_gameobject_target sampleDefines
      (sampleCatalogs.withRows [sampleRespawnRow, sampleRespawnNothingRow, sampleDoorRow])
      sampleObjectMgr emptyScripts "dbscripts_on_go_use" sampleDoorRow (by decide)).2.2
      (Or.inr (Or.inl rfl))⟩

/-! ## Target resolution: properties -/

theorem scriptFinalTargets_eq_spec (D : Defines) (m_script : ScriptInfo)
    (pOrigSource pOrigTarget pBuddy : Option WorldObject) :
    scriptFinalTargets D m_script pOrigSource pOrigTarget pBuddy =
      specProcessTargets
        (decide (m_script.data_flags &&& D.SCRIPT_FLAG_BUDDY_AS_TARGET ≠ 0))
        (decide (m_script.data_flags &&& D.SCRIPT_FLAG_REVERSE_DIRECTION ≠ 0))
        (decide (m_script.data_flags &&& D.SCRIPT_FLAG_SOURCE_TARGETS_SELF ≠ 0))
        pOrigSource pOrigTarget pBuddy := by
  unfold scriptFinalTargets specProcessTargets specStepSelf specStepReverse specStepBuddy
  cases pBuddy <;>
    by_cases h1 : m_script.data_flags &&& D.SCRIPT_FLAG_BUDDY_AS_TARGET = 0 <;>
    by_cases h2 : m_script.data_flags &&& D.SCRIPT_FLAG_REVERSE_DIRECTION = 0 <;>
    by_cases h3 : m_script.data_flags &&& D.SCRIPT_FLAG_SOURCE_TARGETS_SELF = 0 <;>
    simp [h1, h2, h3]

/-- C19: whenever `GetScriptProcessTargets` succeeds with buddy `b`, the final
source and target are those of the specification's three steps: (a) with
buddy-as-target the original source and `b`, otherwise `b` if present else
the original source, and the original target; (b) swapped with
reverse-direction; (c) the target set to the source with source-targets-self.
The buddy is absent when the command has no buddy entry; with no buddy entry
and none of the three flags the results are the originals; with
source-targets-self the final target equals the final source. -/
theorem C19_GetScriptProcessTargets_flag_steps (D : Defines) (M : MapEnv)
    (m_script : ScriptInfo) (pOrigSource pOrigTarget b : Option WorldObject)
    (hb : scriptBuddy D M m_script pOrigSource pOrigTarget = some b) :
    GetScriptProcessTargets D M m_script pOrigSource pOrigTarget =
      some (specProcessTargets
        (decide (m_script.data_flags &&& D.SCRIPT_FLAG_BUDDY_AS_TARGET ≠ 0))
        (decide (m_script.data_flags &&& D.SCRIPT_FLAG_REVERSE_DIRECTION ≠ 0))
        (decide (m_script.data_flags &&& D.SCRIPT_FLAG_SOURCE_TARGETS_SELF ≠ 0))
        pOrigSource pOrigTarget b) ∧
    (m_script.buddyEntry = 0 → b = none) ∧
    (m_script.buddyEntry = 0 →
      m_script.data_flags &&& D.SCRIPT_FLAG_BUDDY_AS_TARGET = 0 →
      m_script.data_flags &&& D.SCRIPT_FLAG_REVERSE_DIRECTION = 0 →
      m_script.data_flags &&& D.SCRIPT_FLAG_SOURCE_TARGETS_SELF = 0 →
      GetScriptProcessTargets D M m_script pOrigSource pOrigTarget
        = some (pOrigSource, pOrigTarget)) ∧
    (m_script.data_flags &&& D.SCRIPT_FLAG_SOURCE_TARGETS_SELF ≠ 0 →
      ∀ p, GetScriptProcessTargets D M m_script pOrigSource pOrigTarget = some p →
        p.2 = p.1) := by
  have hres : GetScriptProcessTargets D M m_script pOrigSource pOrigTarget
      = some (scriptFinalTargets D m_script pOrigSource pOrigTarget b) := by
    unfold GetScriptProcessTargets
    rw [hb]
  have hnone : m_script.buddyEntry = 0 → b = none := by
    intro h0
    unfold scriptBuddy at hb
    rw [if_neg (not_not.2 h0)] at hb
    exact (Option.some.inj hb).symm
  refine ⟨?_, hnone, ?_, ?_⟩
  · rw [hres, scriptFinalTargets_eq_spec]
  · intro h0 h1 h2 h3
    rw [hres, hnone h0]
    unfold scriptFinalTargets
    simp [h1, h2, h3]
  · intro h3 p hp
    rw [hres] at hp
    have := Option.some.inj hp
    subst this
    unfold scriptFinalTargets
    simp [h3]

/-- Witness of C19: the sample row with reverse-direction and
source-targets-self, run for the sample player as source and no target; the
buddy is the sample creature, which the swap makes the target, and the last
step overwrites with the (absent) source. -/
theorem C19_GetScriptProcessTargets_flag_steps_witness :
    scriptBuddy sampleDefines sampleMapEnv sampleReverseSelfRow (some samplePlayer) none
      = some (some sampleCreature) ∧
    GetScriptProcessTargets sampleDefines sampleMapEnv sampleReverseSelfRow (some samplePlayer) none
      = some (none, none) :=
  ⟨by decide,
   ((C19_GetScriptProcessTargets_flag_steps sampleDefines sampleMapEnv sampleReverseSelfRow
      (some samplePlayer) none (some sampleCreature) (by decide)).1).trans (by decide)⟩

theorem scriptSearcher_eq_none (pOrigSource pOrigTarget : Option WorldObject) :
    scriptSearcher pOrigSource pOrigTarget = none ↔ pOrigSource = none ∧ pOrigTarget = none := by
  unfold scriptSearcher
  cases pOrigSource <;> cases pOrigTarget <;> simp
  split_ifs <;> simp

/-- C20: `GetScriptProcessTargets` returns false exactly when the command has
a non-zero buddy entry and no buddy is obtained: by guid, the creature is not
in the map or is dead, or the game object is not in the map; by entry, both
the original source and the original target are absent, or the search from
the searcher finds nothing and the searcher is not itself a creature buddy of
that entry. A command with buddy entry 0 never fails. -/
theorem C20_GetScriptProcessTargets_fails_iff (D : Defines) (M : MapEnv)
    (m_script : ScriptInfo) (pOrigSource pOrigTarget : Option WorldObject) :
    (GetScriptProcessTargets D M m_script pOrigSource pOrigTarget = none ↔
      m_script.buddyEntry ≠ 0 ∧
      ((m_script.data_flags &&& D.SCRIPT_FLAG_BUDDY_BY_GUID ≠ 0 ∧
          ((D.IsCreatureBuddy m_script = true ∧
              (M.GetCreature m_script.buddyEntry m_script.searchRadiusOrGuid = none ∨
                ∃ c, M.GetCreature m_script.buddyEntry m_script.searchRadiusOrGuid = some c ∧
                  c.isAlive = false)) ∨
            (D.IsCreatureBuddy m_script = false ∧
              M.GetGameObject m_script.buddyEntry m_script.searchRadiusOrGuid = none))) ∨
        (m_script.data_flags &&& D.SCRIPT_FLAG_BUDDY_BY_GUID = 0 ∧
          ((pOrigSource = none ∧ pOrigTarget = none) ∨
            ∃ pSearcher, scriptSearcher pOrigSource pOrigTarget = some pSearcher ∧
              ((D.IsCreatureBuddy m_script = true ∧
                  (if m_script.data_flags &&& D.SCRIPT_FLAG_BUDDY_IS_PET ≠ 0 then
                      M.NearestCreatureInWorld pSearcher m_script.buddyEntry
                        m_script.searchRadiusOrGuid
                    else M.NearestCreatureInGrid pSearcher m_script.buddyEntry
                        m_script.searchRadiusOrGuid) = none ∧
                  pSearcher.GetEntry ≠ m_script.buddyEntry) ∨
                (D.IsCreatureBuddy m_script = false ∧
                  M.NearestGameObjectInGrid pSearcher m_script.buddyEntry
                    m_script.searchRadiusOrGuid = none)))))) ∧
    (m_script.buddyEntry = 0 →
      GetScriptProcessTargets D M m_script pOrigSource pOrigTarget ≠ none) := by
  have hiff : GetScriptProcessTargets D M m_script pOrigSource pOrigTarget = none ↔
      scriptBuddy D M m_script pOrigSource pOrigTarget = none := by
    unfold GetScriptProcessTargets
    cases scriptBuddy D M m_script pOrigSource pOrigTarget <;> simp
  constructor
  · rw [hiff]
    unfold scriptBuddy
    by_cases h0 : m_script.buddyEntry = 0
    · simp [h0]
    · rw [if_pos h0]
      by_cases hg : m_script.data_flags &&& D.SCRIPT_FLAG_BUDDY_BY_GUID = 0
      · rw [if_neg (not_not.2 hg)]
        cases hs : scriptSearcher pOrigSource pOrigTarget with
        | none =>
          have := (scriptSearcher_eq_none pOrigSource pOrigTarget).1 hs
          simp [h0, hg, this]
        | some pSearcher =>
          have hne : ¬ (pOrigSource = none ∧ pOrigTarget = none) := by
            intro h
            rw [(scriptSearcher_eq_none pOrigSource pOrigTarget).2 h] at hs
            cases hs
          simp only [h0, hg, hne, ne_eq, not_false_eq_true, not_true_eq_false, true_and,
            false_and, false_or, Option.some.injEq, exists_eq_left']
          unfold scriptBuddyByEntry
          by_cases hc : D.IsCreatureBuddy m_script = true
          · simp only [hc, if_true]
            generalize (if m_script.data_flags &&& D.SCRIPT_FLAG_BUDDY_IS_PET ≠ 0 then
                M.NearestCreatureInWorld pSearcher m_script.buddyEntry m_script.searchRadiusOrGuid
              else M.NearestCreatureInGrid pSearcher m_script.buddyEntry
                m_script.searchRadiusOrGuid) = found
            cases found with
            | some f => simp
            | none =>
              by_cases he : pSearcher.GetEntry = m_script.buddyEntry <;> simp [he]
          · have hc' : D.IsCreatureBuddy m_script = false := by simpa using hc
            simp only [hc', Bool.false_eq_true, if_false]
            cases M.NearestGameObjectInGrid pSearcher m_script.buddyEntry
              m_script.searchRadiusOrGuid <;> simp
      · rw [if_pos hg]
        by_cases hc : D.IsCreatureBuddy m_script = true
        · simp only [hc, if_true]
          cases hcr : M.GetCreature m_script.buddyEntry m_script.searchRadiusOrGuid with
          | none => simp [h0, hg]
          | some c =>
            by_cases ha : c.isAlive = false <;> simp [h0, hg, ha]
        · have hc' : D.IsCreatureBuddy m_script = false := by simpa using hc
          simp only [hc', Bool.false_eq_true, if_false]
          cases M.GetGameObject m_script.buddyEntry m_script.searchRadiusOrGuid <;>
            simp [h0, hg]
  · intro h0
    rw [Ne, hiff]
    unfold scriptBuddy
    simp [h0]

/-- Witness of C20: resolution fails for the sample row whose buddy, named by
guid, is the dead creature spawn 9, and succeeds for a row without buddy. -/
theorem C20_GetScriptProcessTargets_fails_iff_witness :
    GetScriptProcessTargets sampleDefines sampleMapEnv sampleDeadBuddyRow
        (some samplePlayer) none = none ∧
    GetScriptProcessTargets sampleDefines sampleMapEnv sampleRow (some samplePlayer) none
      ≠ none :=
  ⟨((C20_GetScriptProcessTargets_fails_iff sampleDefines sampleMapEnv sampleDeadBuddyRow
      (some samplePlayer) none).1).2
      ⟨by decide, Or.inl ⟨by decide, Or.inl ⟨by decide,
        Or.inr ⟨sampleDeadCreature, by decide, rfl⟩⟩⟩⟩,
   (C20_GetScriptProcessTargets_fails_iff sampleDefines sampleMapEnv sampleRow
      (some samplePlayer) none).2 rfl⟩

/-- C21: for buddy-by-entry resolution the search origin is whichever of the
original source and target is not a player, defaulting to the source. It is
the target when the source is absent, and when the source is a player while
the target is present and not a player; in every other case with a source it
is the source, in particular when source and target are both players or both
non-players; for a source and a target that are not the same it is the target
exactly in the two cases named. Resolution by entry searches from it. -/
theorem C21_scriptSearcher_prefers_non_player (D : Defines) (M : MapEnv) (m_script : ScriptInfo)
    (pOrigSource pOrigTarget : Option WorldObject) :
    (pOrigSource = none → scriptSearcher pOrigSource pOrigTarget = pOrigTarget) ∧
    (∀ s t, pOrigSource = some s → pOrigTarget = some t →
      s.GetTypeId = TypeID.TYPEID_PLAYER → t.GetTypeId ≠ TypeID.TYPEID_PLAYER →
      scriptSearcher pOrigSource pOrigTarget = some t) ∧
    (∀ s, pOrigSource = some s →
      ¬ (s.GetTypeId = TypeID.TYPEID_PLAYER ∧
          ∃ t, pOrigTarget = some t ∧ t.GetTypeId ≠ TypeID.TYPEID_PLAYER) →
      scriptSearcher pOrigSource pOrigTarget = some s) ∧
    (∀ s t, pOrigSource = some s → pOrigTarget = some t →
      (s.GetTypeId = TypeID.TYPEID_PLAYER ↔ t.GetTypeId = TypeID.TYPEID_PLAYER) →
      scriptSearcher pOrigSource pOrigTarget = some s) ∧
    (pOrigSource ≠ pOrigTarget →
      (scriptSearcher pOrigSource pOrigTarget = pOrigTarget ↔
        (pOrigSource = none ∨
          ∃ s t, pOrigSource = some s ∧ pOrigTarget = some t ∧
            s.GetTypeId = TypeID.TYPEID_PLAYER ∧ t.GetTypeId ≠ TypeID.TYPEID_PLAYER))) ∧
    (m_script.buddyEntry ≠ 0 → m_script.data_flags &&& D.SCRIPT_FLAG_BUDDY_BY_GUID = 0 →
      scriptBuddy D M m_script pOrigSource pOrigTarget =
        match scriptSearcher pOrigSource pOrigTarget with
        | none => none
        | some pSearcher => (scriptBuddyByEntry D M m_script pSearcher).map some) := by
  refine ⟨?_, ?_, ?_, ?_, ?_, ?_⟩
  · rintro rfl
    cases pOrigTarget with
    | none => rfl
    | some t =>
      unfold scriptSearcher
      simp only
      split_ifs <;> rfl
  · rintro s t rfl rfl hs ht
    simp [scriptSearcher, hs, ht]
  · rintro s rfl hn
    cases pOrigTarget with
    | none => rfl
    | some t =>
      unfold scriptSearcher
      simp only
      rw [if_neg]
      rintro ⟨h1, h2⟩
      exact hn ⟨h1, t, rfl, h2⟩
  · rintro s t rfl rfl hiff
    unfold scriptSearcher
    simp only
    rw [if_neg]
    rintro ⟨h1, h2⟩
    exact h2 (hiff.1 h1)
  · intro hne
    cases pOrigSource with
    | none => cases pOrigTarget <;> simp [scriptSearcher]
    | some s =>
      cases pOrigTarget with
      | none => simp [scriptSearcher]
      | some t =>
        have hst : s ≠ t := fun h => hne (by rw [h])
        unfold scriptSearcher
        simp only
        by_cases hc : s.GetTypeId = TypeID.TYPEID_PLAYER ∧ t.GetTypeId ≠ TypeID.TYPEID_PLAYER
        · rw [if_pos hc]
          simp [hc.1, hc.2]
        · rw [if_neg hc]
          constructor
          · intro h
            exact absurd (Option.some.inj h) hst
          · rintro (h | ⟨s', t', hs', ht', h1, h2⟩)
            · cases h
            · cases hs'
              cases ht'
              exact absurd ⟨h1, h2⟩ hc
  · intro hb hg
    unfold scriptBuddy
    rw [if_pos hb, if_neg (not_not.2 hg)]
    cases scriptSearcher pOrigSource pOrigTarget with
    | none => rfl
    | some p =>
      simp only
      cases scriptBuddyByEntry D M m_script p <;> rfl

/-- C22, as stated, fails for a game-object buddy: the sample go-lock-state
row looks by entry for a game object of entry 200, the searcher is the sample
game object, whose own entry is 200, the search finds nothing, and resolution
fails. -/
theorem C22_gameobject_buddy_self_match_counterexample :
    sampleDefines.IsCreatureBuddy sampleGoBuddyRow = false ∧
    scriptSearcher (some sampleGameObject) none = some sampleGameObject ∧
    sampleGameObject.GetEntry = sampleGoBuddyRow.buddyEntry ∧
    sampleMapEnv.NearestGameObjectInGrid sampleGameObject sampleGoBuddyRow.buddyEntry
      sampleGoBuddyRow.searchRadiusOrGuid = none ∧
    GetScriptProcessTargets sampleDefines sampleMapEnv sampleGoBuddyRow
      (some sampleGameObject) none = none := by
  decide

/-- C22, amended: for buddy-by-entry resolution of a creature buddy, when the
nearest-match search finds nothing but the searcher's own template entry
equals the buddy entry, resolution does not fail and the searcher itself is
the buddy. -/
theorem C22_creature_buddy_self_match (D : Defines) (M : MapEnv) (m_script : ScriptInfo)
    (pOrigSource pOrigTarget : Option WorldObject) (pSearcher : WorldObject)
    (hb : m_script.buddyEntry ≠ 0)
    (hg : m_script.data_flags &&& D.SCRIPT_FLAG_BUDDY_BY_GUID = 0)
    (hc : D.IsCreatureBuddy m_script = true)
    (hs : scriptSearcher pOrigSource pOrigTarget = some pSearcher)
    (hfind : (if m_script.data_flags &&& D.SCRIPT_FLAG_BUDDY_IS_PET ≠ 0 then
        M.NearestCreatureInWorld pSearcher m_script.buddyEntry m_script.searchRadiusOrGuid
      else M.NearestCreatureInGrid pSearcher m_script.buddyEntry m_script.searchRadiusOrGuid)
        = none)
    (hself : pSearcher.GetEntry = m_script.buddyEntry) :
    scriptBuddy D M m_script pOrigSource pOrigTarget = some (some pSearcher) ∧
    GetScriptProcessTargets D M m_script pOrigSource pOrigTarget
      = some (scriptFinalTargets D m_script pOrigSource pOrigTarget (some pSearcher)) := by
  have hbuddy : scriptBuddy D M m_script pOrigSource pOrigTarget = some (some pSearcher) := by
    unfold scriptBuddy
    rw [if_pos hb, if_neg (not_not.2 hg), hs]
    unfold scriptBuddyByEntry
    simp only [hc, if_true, hfind, hself]
  refine ⟨hbuddy, ?_⟩
  unfold GetScriptProcessTargets
  rw [hbuddy]

/-- Witness of the amended C22: the sample row that looks by entry for a
creature 100, run with the sample creature (entry 100) as source. -/
theorem C22_creature_buddy_self_match_witness :
    sampleMapEnv.NearestCreatureInGrid sampleCreature 100 10 = none ∧
    scriptBuddy sampleDefines sampleMapEnv sampleCreatureBuddyRow (some sampleCreature) none
      = some (some sampleCreature) :=
  ⟨by decide,
   (C22_creature_buddy_self_match sampleDefines sampleMapEnv sampleCreatureBuddyRow
      (some sampleCreature) none sampleCreature (by decide) (by decide) (by decide) (by decide)
      (by decide) (by decide)).1⟩

/-! ## Execution of one step: the value returned -/

theorem stepTalk_halt (W : ScriptWorld) (m_script : ScriptInfo)
    (pSource pTarget : Option WorldObject) : (stepTalk W m_script pSource pTarget).halt = false := by
  unfold stepTalk
  repeat' first
    | rfl
    | split

theorem stepEmote_halt (W : ScriptWorld) (m_script : ScriptInfo) (pSource : Option WorldObject) :
    (stepEmote W m_script pSource).halt = false := by
  unfold stepEmote
  repeat' first
    | rfl
    | split

theorem stepField_halt (F : ScriptFields) (W : ScriptWorld) (fieldId : Nat)
    (pSourceOrItem : Option ScriptObject) (call : ScriptObject → Effect) :
    (stepField F W fieldId pSourceOrItem call).halt = false := by
  unfold stepField
  repeat' first
    | rfl
    | split

theorem stepMoveTo_halt (D : Defines) (F : ScriptFields) (W : ScriptWorld) (m_script : ScriptInfo)
    (pSource : Option WorldObject) : (stepMoveTo D F W m_script pSource).halt = false := by
  unfold stepMoveTo
  repeat' first
    | rfl
    | split

theorem stepTeleportTo_halt (m_script : ScriptInfo) (pSource pTarget : Option WorldObject) :
    (stepTeleportTo m_script pSource pTarget).halt = false := by
  unfold stepTeleportTo
  repeat' first
    | rfl
    | split

theorem stepQuestExplored_halt (W : ScriptWorld) (m_script : ScriptInfo)
    (pSource pTarget : Option WorldObject) :
    ∃ es, stepQuestExplored W m_script pSource pTarget = some (stepBreak es) := by
  unfold stepQuestExplored
  cases GetPlayerTargetOrSourceAndLog pSource pTarget with
  | none => exact ⟨[], rfl⟩
  | some pPlayer =>
    simp only
    by_cases h : m_script.questExplored_distance ≠ 0 ∧
        questExploredWorldObject W pSource pTarget = none
    · rw [if_pos h]
      exact ⟨[], rfl⟩
    · rw [if_neg h]
      cases hw : questExploredWorldObject W pSource pTarget with
      | none =>
        have hd : m_script.questExplored_distance = 0 := by
          by_contra hd
          exact h ⟨hd, hw⟩
        simp only [hd, ne_eq, not_true_eq_false, if_false]
        exact ⟨_, rfl⟩
      | some w =>
        simp only
        split_ifs <;> exact ⟨_, rfl⟩

theorem stepKillCredit_halt (F : ScriptFields) (m_script : ScriptInfo)
    (pSource pTarget : Option WorldObject) :
    (stepKillCredit F m_script pSource pTarget).halt = false := by
  unfold stepKillCredit
  repeat' first
    | rfl
    | split

theorem stepRespawnGameobject_halt (F : ScriptFields) (W : ScriptWorld) (m_script : ScriptInfo)
    (pSource : Option WorldObject) :
    (stepRespawnGameobject F W m_script pSource).halt = false := by
  unfold stepRespawnGameobject
  repeat' first
    | rfl
    | split

theorem stepTempSummonCreature_halt (D : Defines) (F : ScriptFields) (m_script : ScriptInfo)
    (pSource : Option WorldObject) :
    (stepTempSummonCreature D F m_script pSource).halt = false := by
  unfold stepTempSummonCreature
  repeat' first
    | rfl
    | split

theorem stepChangeDoor_halt (F : ScriptFields) (W : ScriptWorld) (m_script : ScriptInfo)
    (pSource pTarget : Option WorldObject) :
    (stepChangeDoor F W m_script pSource pTarget).halt = false := by
  unfold stepChangeDoor
  repeat' first
    | rfl
    | split

theorem stepActivateObject_halt (W : ScriptWorld) (pSource pTarget : Option WorldObject) :
    (stepActivateObject W pSource pTarget).halt = false := by
  unfold stepActivateObject
  repeat' first
    | rfl
    | split

theorem stepRemoveAura_halt (W : ScriptWorld) (m_script : ScriptInfo)
    (pSource : Option WorldObject) : (stepRemoveAura W m_script pSource).halt = false := by
  unfold stepRemoveAura
  repeat' first
    | rfl
    | split

theorem stepCastSpell_halt (D : Defines) (W : ScriptWorld) (m_script : ScriptInfo)
    (pSource pTarget : Option WorldObject) :
    (stepCastSpell D W m_script pSource pTarget).halt = false := by
  unfold stepCastSpell
  repeat' first
    | rfl
    | split

theorem stepPlaySound_halt (W : ScriptWorld) (m_script : ScriptInfo)
    (pSource pTarget : Option WorldObject) :
    (stepPlaySound W m_script pSource pTarget).halt = false := by
  unfold stepPlaySound
  repeat' first
    | rfl
    | split
    | simp only []

theorem stepCreateItem_halt (W : ScriptWorld) (m_script : ScriptInfo)
    (pSource pTarget : Option WorldObject) :
    (stepCreateItem W m_script pSource pTarget).halt = false := by
  unfold stepCreateItem
  repeat' first
    | rfl
    | split

theorem stepDespawnSelf_halt (F : ScriptFields) (m_script : ScriptInfo)
    (pSource pTarget : Option WorldObject) :
    (stepDespawnSelf F m_script pSource pTarget).halt = false := by
  unfold stepDespawnSelf
  repeat' first
    | rfl
    | split
    | simp only []

theorem stepMovement_halt (D : Defines) (F : ScriptFields) (W : ScriptWorld)
    (m_script : ScriptInfo) (pSource : Option WorldObject) :
    (stepMovement D F W m_script pSource).halt = false := by
  unfold stepMovement
  repeat' first
    | rfl
    | split

theorem stepOnCreature_halt (pSource : Option WorldObject) (calls : WorldObject → List Effect) :
    (stepOnCreature pSource calls).halt = false := by
  unfold stepOnCreature
  repeat' first
    | rfl
    | split

theorem stepAttackStart_halt (W : ScriptWorld) (pSource pTarget : Option WorldObject) :
    (stepAttackStart W pSource pTarget).halt = false := by
  unfold stepAttackStart
  repeat' first
    | rfl
    | split

theorem stepGoLockState_halt (m_script : ScriptInfo) (pSource : Option WorldObject) :
    (stepGoLockState m_script pSource).halt = false := by
  unfold stepGoLockState
  repeat' first
    | rfl
    | split

theorem stepOnPlayer_halt (pSource pTarget : Option WorldObject)
    (calls : WorldObject → List Effect) : (stepOnPlayer pSource pTarget calls).halt = false := by
  unfold stepOnPlayer
  repeat' first
    | rfl
    | split

theorem stepPauseWaypoints_halt (F : ScriptFields) (m_script : ScriptInfo)
    (pSource : Option WorldObject) : (stepPauseWaypoints F m_script pSource).halt = false := by
  unfold stepPauseWaypoints
  repeat' first
    | rfl
    | split

theorem some_eq_some_false_of_halt (r : StepResult) (h : r.halt = false) :
    ∃ es, some r = some ({ halt := false, effects := es } : StepResult) := by
  cases r with
  | mk halt effects =>
    simp only at h
    subst h
    exact ⟨effects, rfl⟩

theorem commandStep_returns_false (D : Defines) (F : ScriptFields) (W : ScriptWorld)
    (m_script : ScriptInfo) (pSource pTarget : Option WorldObject)
    (pSourceOrItem : Option ScriptObject)
    (h1 : m_script.command ≠ SCRIPT_COMMAND_TERMINATE_SCRIPT)
    (h2 : m_script.command ≠ SCRIPT_COMMAND_TERMINATE_COND) :
    ∃ es, commandStep D F W m_script pSource pTarget pSourceOrItem
      = some { halt := false, effects := es } := by
  unfold commandStep
  split
  case h_32 hc => exact absurd hc h1
  case h_35 hc => exact absurd hc h2
  case h_8 => exact stepQuestExplored_halt W m_script pSource pTarget
  all_goals
    first
    | exact ⟨[], rfl⟩
    | exact some_eq_some_false_of_halt _ (stepTalk_halt _ _ _ _)
    | exact some_eq_some_false_of_halt _ (stepEmote_halt _ _ _)
    | exact some_eq_some_false_of_halt _ (stepField_halt _ _ _ _ _)
    | exact some_eq_some_false_of_halt _ (stepMoveTo_halt _ _ _ _ _)
    | exact some_eq_some_false_of_halt _ (stepTeleportTo_halt _ _ _)
    | exact some_eq_some_false_of_halt _ (stepKillCredit_halt _ _ _ _)
    | exact some_eq_some_false_of_halt _ (stepRespawnGameobject_halt _ _ _ _)
    | exact some_eq_some_false_of_halt _ (stepTempSummonCreature_halt _ _ _ _)
    | exact some_eq_some_false_of_halt _ (stepChangeDoor_halt _ _ _ _ _)
    | exact some_eq_some_false_of_halt _ (stepActivateObject_halt _ _ _)
    | exact some_eq_some_false_of_halt _ (stepRemoveAura_halt _ _ _)
    | exact some_eq_some_false_of_halt _ (stepCastSpell_halt _ _ _ _ _)
    | exact some_eq_some_false_of_halt _ (stepPlaySound_halt _ _ _ _)
    | exact some_eq_some_false_of_halt _ (stepCreateItem_halt _ _ _ _)
    | exact some_eq_some_false_of_halt _ (stepDespawnSelf_halt _ _ _ _)
    | exact some_eq_some_false_of_halt _ (stepMovement_halt _ _ _ _ _)
    | exact some_eq_some_false_of_halt _ (stepOnCreature_halt _ _)
    | exact some_eq_some_false_of_halt _ (stepAttackStart_halt _ _ _)
    | exact some_eq_some_false_of_halt _ (stepGoLockState_halt _ _)
    | exact some_eq_some_false_of_halt _ (stepOnPlayer_halt _ _ _)
    | exact some_eq_some_false_of_halt _ (stepPauseWaypoints_halt _ _ _)

/-- C23: `HandleScriptStep` returns the halt signal only for the two
termination discriminants: for every command that is neither terminate-script
nor terminate-condition it returns false, whatever the guids of the action and
the state of the world are, so that no failed or skipped step stops the rest
of the sequence. -/
theorem C23_HandleScriptStep_halts_only_on_termination (D : Defines) (F : ScriptFields)
    (W : ScriptWorld) (a : ScriptAction)
    (h1 : a.m_script.command ≠ SCRIPT_COMMAND_TERMINATE_SCRIPT)
    (h2 : a.m_script.command ≠ SCRIPT_COMMAND_TERMINATE_COND) :
    ∃ es, HandleScriptStep D F W a = some { halt := false, effects := es } := by
  unfold HandleScriptStep
  cases scriptStepTargets D W a with
  | none => exact ⟨[], rfl⟩
  | some t =>
    obtain ⟨pSource, pTarget, pSourceOrItem⟩ := t
    exact commandStep_returns_false D F W a.m_script pSource pTarget pSourceOrItem h1 h2

/-- Witness of C23: the sample open-door step toggles the door and returns false. -/
theorem C23_HandleScriptStep_halts_only_on_termination_witness :
    ∃ es, HandleScriptStep sampleDefines sampleFields sampleWorld (sampleAction sampleDoorRow)
      = some { halt := false, effects := es } :=
  C23_HandleScriptStep_halts_only_on_termination sampleDefines sampleFields sampleWorld
    (sampleAction sampleDoorRow) (by decide) (by decide)

/-- C24: if the acquisition of the source or of the target fails
(`GetScriptCommandObject` returns false) or the resolution of the buddy fails
(`GetScriptProcessTargets` returns false), `HandleScriptStep` makes no call
that changes the world and returns false, for every command, terminate-script
and terminate-condition included. -/
theorem C24_HandleScriptStep_resolution_failure (D : Defines) (F : ScriptFields)
    (W : ScriptWorld) (a : ScriptAction)
    (hfail :
      GetScriptCommandObject W a.m_ownerGuid a.m_sourceGuid true = none ∨
      GetScriptCommandObject W a.m_ownerGuid a.m_targetGuid false = none ∨
      ∃ source target,
        GetScriptCommandObject W a.m_ownerGuid a.m_sourceGuid true = some source ∧
        GetScriptCommandObject W a.m_ownerGuid a.m_targetGuid false = some target ∧
        GetScriptProcessTargets D W.map a.m_script (worldObjectPtr source)
          (worldObjectPtr target) = none) :
    HandleScriptStep D F W a = some { halt := false, effects := [] } := by
  have hnone : scriptStepTargets D W a = none := by
    unfold scriptStepTargets
    rcases hfail with h | h | ⟨source, target, hs, ht, hp⟩
    · rw [h]
    · cases GetScriptCommandObject W a.m_ownerGuid a.m_sourceGuid true with
      | none => rfl
      | some source => simp only [h]
    · simp only [hs, ht, hp]
  unfold HandleScriptStep
  rw [hnone]

/-- Witness of C24: a terminate-script step without npc entry, which halts
when its objects are acquired, returns false without any call when its target
guid is the guid of an item. -/
theorem C24_HandleScriptStep_resolution_failure_witness :
    (HandleScriptStep sampleDefines sampleFields sampleWorld
      (sampleAction sampleTerminateRow)).map StepResult.halt = some true ∧
    HandleScriptStep sampleDefines sampleFields sampleWorld
      { sampleAction sampleTerminateRow with m_targetGuid := sampleItemGuid }
      = some { halt := false, effects := [] } :=
  ⟨by decide,
   C24_HandleScriptStep_resolution_failure sampleDefines sampleFields sampleWorld
    { sampleAction sampleTerminateRow with m_targetGuid := sampleItemGuid }
    (Or.inr (Or.inl (by decide)))⟩

/-! ## Execution of a talk step -/

theorem talkTextIdBound_cases (m_script : ScriptInfo) :
    (m_script.textId 2 = 0 ∧ talkTextIdBound m_script = 2) ∨
    (m_script.textId 2 ≠ 0 ∧ m_script.textId 3 = 0 ∧ talkTextIdBound m_script = 3) ∨
    (m_script.textId 2 ≠ 0 ∧ m_script.textId 3 ≠ 0 ∧ talkTextIdBound m_script = 4) := by
  have hr : List.range' 2 (MAX_TEXT_ID - 2) = [2, 3] := rfl
  unfold talkTextIdBound
  rw [hr]
  by_cases h2 : m_script.textId 2 = 0
  · left
    simp [List.find?, h2]
  · by_cases h3 : m_script.textId 3 = 0
    · right
      left
      simp [List.find?, h2, h3]
    · right
      right
      simp [List.find?, h2, h3, MAX_TEXT_ID]

/-- C25, counterexample: with the text ids [5, 0, 7, 0] the third slot is
populated with 7, but whatever the random draw is the text displayed is 5: the
sample talk step displays the text 5 and the id 7 is never selected. -/
theorem C25_talk_gap_counterexample :
    sampleTalkGapRow.textId 2 = 7 ∧
    (List.range MAX_TEXT_ID).map sampleTalkGapRow.textId = [5, 0, 7, 0] ∧
    (∀ (W : ScriptWorld) (source : WorldObject) (pTarget : Option WorldObject),
      ∃ unitTarget, (stepTalk W sampleTalkGapRow (some source) pTarget).effects
        = [Effect.DoDisplayText source 5 unitTarget]) ∧
    HandleScriptStep sampleDefines sampleFields sampleWorld (sampleAction sampleTalkGapRow)
      = some { halt := false,
               effects := [Effect.DoDisplayText samplePlayer 5 (some sampleCreature)] } :=
  ⟨by decide, by decide, fun _ _ _ => ⟨_, rfl⟩, rfl⟩

/-- C25, amended: a talk step with a source makes exactly one call, the
display of one text id, and the ids that can be displayed are those of the
leading slots `0 .. n-1`, where `n` (`talkTextCount`) is 1 when the second
slot is empty and otherwise the index of the first empty slot from the third
on (`MAX_TEXT_ID` when there is none): for a draw in its range the id
displayed is that of one of these slots, each of them is displayed for some
value of the draw, the slots `1 .. n-1` are populated and slot `n`, if there
is one, is empty. -/
theorem C25_talk_selects_among_leading_slots (W : ScriptWorld) (m_script : ScriptInfo)
    (source : WorldObject) (pTarget : Option WorldObject)
    (hdraw : ∀ lo hi, lo ≤ hi → lo ≤ W.urand lo hi ∧ W.urand lo hi ≤ hi) :
    (∃ unitTarget, (stepTalk W m_script (some source) pTarget).effects
      = [Effect.DoDisplayText source (talkTextId W m_script) unitTarget]) ∧
    (∃ k, k < talkTextCount m_script ∧ talkTextId W m_script = m_script.textId k) ∧
    (∀ k, k < talkTextCount m_script →
      talkTextId { W with urand := fun _ _ => k } m_script = m_script.textId k) ∧
    (1 ≤ talkTextCount m_script ∧ talkTextCount m_script ≤ MAX_TEXT_ID) ∧
    (∀ k, 1 ≤ k → k < talkTextCount m_script → m_script.textId k ≠ 0) ∧
    (talkTextCount m_script < MAX_TEXT_ID → m_script.textId (talkTextCount m_script) = 0) := by
  refine ⟨⟨_, rfl⟩, ?_, ?_, ?_, ?_, ?_⟩
  · unfold talkTextCount talkTextId
    by_cases h1 : m_script.textId 1 ≠ 0
    · rw [if_pos h1, if_pos h1]
      refine ⟨W.urand 0 (talkTextIdBound m_script - 1), ?_, rfl⟩
      have hb := (hdraw 0 (talkTextIdBound m_script - 1) (Nat.zero_le _)).2
      rcases talkTextIdBound_cases m_script with ⟨_, h⟩ | ⟨_, _, h⟩ | ⟨_, _, h⟩ <;>
        rw [h] at hb ⊢ <;> omega
    · rw [if_neg h1, if_neg h1]
      exact ⟨0, Nat.one_pos, rfl⟩
  · intro k hk
    unfold talkTextCount at hk
    unfold talkTextId
    by_cases h1 : m_script.textId 1 ≠ 0
    · rw [if_pos h1]
    · rw [if_neg h1] at hk
      rw [if_neg h1]
      have hk0 : k = 0 := by omega
      rw [hk0]
  · unfold talkTextCount
    by_cases h1 : m_script.textId 1 ≠ 0
    · rw [if_pos h1]
      rcases talkTextIdBound_cases m_script with ⟨_, h⟩ | ⟨_, _, h⟩ | ⟨_, _, h⟩ <;>
        rw [h] <;> decide
    · rw [if_neg h1]
      decide
  · intro k hk1 hk
    unfold talkTextCount at hk
    by_cases h1 : m_script.textId 1 ≠ 0
    · rw [if_pos h1] at hk
      rcases talkTextIdBound_cases m_script with ⟨_, h⟩ | ⟨h2, _, h⟩ | ⟨h2, h3, h⟩
      · rw [h] at hk
        have hk0 : k = 1 := by omega
        rw [hk0]
        exact h1
      · rw [h] at hk
        have hk0 : k = 1 ∨ k = 2 := by omega
        rcases hk0 with hk0 | hk0 <;> rw [hk0] <;> assumption
      · rw [h] at hk
        have hk0 : k = 1 ∨ k = 2 ∨ k = 3 := by omega
        rcases hk0 with hk0 | hk0 | hk0 <;> rw [hk0] <;> assumption
    · rw [if_neg h1] at hk
      omega
  · intro hlt
    unfold talkTextCount at hlt ⊢
    by_cases h1 : m_script.textId 1 ≠ 0
    · rw [if_pos h1] at hlt ⊢
      rcases talkTextIdBound_cases m_script with ⟨h2, h⟩ | ⟨_, h3, h⟩ | ⟨_, _, h⟩
      · rw [h]
        exact h2
      · rw [h]
        exact h3
      · rw [h] at hlt
        exact absurd hlt (by decide)
    · rw [if_neg h1]
      exact not_not.mp h1

/-- Witness of C25, amended: with the text ids [5, 7, 0, 0] the step chooses
among the two leading slots. -/
theorem C25_talk_selects_among_leading_slots_witness :
    talkTextCount sampleTalkPairRow = 2 ∧
    ((∃ unitTarget, (stepTalk sampleWorld sampleTalkPairRow (some samplePlayer)
        (some sampleCreature)).effects
      = [Effect.DoDisplayText samplePlayer (talkTextId sampleWorld sampleTalkPairRow)
          unitTarget]) ∧
    (∃ k, k < talkTextCount sampleTalkPairRow ∧
      talkTextId sampleWorld sampleTalkPairRow = sampleTalkPairRow.textId k) ∧
    (∀ k, k < talkTextCount sampleTalkPairRow →
      talkTextId { sampleWorld with urand := fun _ _ => k } sampleTalkPairRow
        = sampleTalkPairRow.textId k) ∧
    (1 ≤ talkTextCount sampleTalkPairRow ∧ talkTextCount sampleTalkPairRow ≤ MAX_TEXT_ID) ∧
    (∀ k, 1 ≤ k → k < talkTextCount sampleTalkPairRow → sampleTalkPairRow.textId k ≠ 0) ∧
    (talkTextCount sampleTalkPairRow < MAX_TEXT_ID →
      sampleTalkPairRow.textId (talkTextCount sampleTalkPairRow) = 0)) :=
  ⟨by decide,
   C25_talk_selects_among_leading_slots sampleWorld sampleTalkPairRow samplePlayer
    (some sampleCreature) (fun _ _ h => ⟨h, le_refl _⟩)⟩

/-! ## Execution of the respawn and door steps -/

theorem HandleScriptStep_of_targets (D : Defines) (F : ScriptFields) (W : ScriptWorld)
    (a : ScriptAction) (pSource pTarget : Option WorldObject)
    (pSourceOrItem : Option ScriptObject)
    (ht : scriptStepTargets D W a = some (pSource, pTarget, pSourceOrItem)) :
    HandleScriptStep D F W a = commandStep D F W a.m_script pSource pTarget pSourceOrItem := by
  unfold HandleScriptStep
  rw [ht]

theorem commandStep_respawn (D : Defines) (F : ScriptFields) (W : ScriptWorld)
    (m_script : ScriptInfo) (pSource pTarget : Option WorldObject)
    (pSourceOrItem : Option ScriptObject)
    (hc : m_script.command = SCRIPT_COMMAND_RESPAWN_GAMEOBJECT) :
    commandStep D F W m_script pSource pTarget pSourceOrItem
      = some (stepRespawnGameobject F W m_script pSource) := by
  unfold commandStep
  rw [hc]

theorem commandStep_door (D : Defines) (F : ScriptFields) (W : ScriptWorld)
    (m_script : ScriptInfo) (pSource pTarget : Option WorldObject)
    (pSourceOrItem : Option ScriptObject)
    (hc : m_script.command = SCRIPT_COMMAND_OPEN_DOOR ∨
      m_script.command = SCRIPT_COMMAND_CLOSE_DOOR) :
    commandStep D F W m_script pSource pTarget pSourceOrItem
      = some (stepChangeDoor F W m_script pSource pTarget) := by
  unfold commandStep
  rcases hc with hc | hc <;> rw [hc]

theorem stepRespawnGameobject_effects (F : ScriptFields) (W : ScriptWorld)
    (m_script : ScriptInfo) (pSource : Option WorldObject) :
    (stepRespawnGameobject F W m_script pSource).effects = [] ∨
    ∃ pGo, stepGameObject W (F.respawnGo_goGuid m_script) pSource = some pGo ∧
      W.GetGoType pGo ≠ GameobjectTypes.GAMEOBJECT_TYPE_FISHINGNODE ∧
      W.GetGoType pGo ≠ GameobjectTypes.GAMEOBJECT_TYPE_DOOR ∧
      W.GetGoType pGo ≠ GameobjectTypes.GAMEOBJECT_TYPE_BUTTON ∧
      W.GetGoType pGo ≠ GameobjectTypes.GAMEOBJECT_TYPE_TRAP ∧
      W.isSpawned pGo = false ∧
      (stepRespawnGameobject F W m_script pSource).effects
        = [Effect.SetLootState pGo LootState.GO_READY,
           Effect.SetRespawnTime pGo (max 5 (F.respawnGo_despawnDelay m_script)),
           Effect.Refresh pGo] := by
  have hmax : (if F.respawnGo_despawnDelay m_script < 5 then 5
      else F.respawnGo_despawnDelay m_script) = max 5 (F.respawnGo_despawnDelay m_script) := by
    split_ifs with h
    · exact (max_eq_left (le_of_lt h)).symm
    · exact (max_eq_right (not_lt.mp h)).symm
  unfold stepRespawnGameobject
  simp only [hmax]
  cases hgo : stepGameObject W (F.respawnGo_goGuid m_script) pSource with
  | none => exact Or.inl rfl
  | some pGo =>
    simp only
    split_ifs with htype hspawned
    · exact Or.inl rfl
    · exact Or.inl rfl
    · right
      refine ⟨pGo, rfl, ?_, ?_, ?_, ?_, ?_, rfl⟩
      · exact fun h => htype (Or.inl h)
      · exact fun h => htype (Or.inr (Or.inl h))
      · exact fun h => htype (Or.inr (Or.inr (Or.inl h)))
      · exact fun h => htype (Or.inr (Or.inr (Or.inr h)))
      · cases hs : W.isSpawned pGo with
        | false => rfl
        | true => exact absurd hs hspawned

/-- C26: a respawn-object step never applies another respawn time than
`max 5 despawnDelay`: every `SetRespawnTime` call of the step carries that
value, and a step that reaches the respawn (its game object is found, is not
of a type the step excludes and is not spawned) makes exactly the calls
`SetLootState(GO_READY)`, `SetRespawnTime(max 5 despawnDelay)`, `Refresh` on
that object; so a delay of 2 is applied as 5 and a delay of at least 5 is
applied unchanged. -/
theorem C26_respawn_delay_is_floored (D : Defines) (F : ScriptFields) (W : ScriptWorld)
    (a : ScriptAction)
    (hc : a.m_script.command = SCRIPT_COMMAND_RESPAWN_GAMEOBJECT) :
    ∃ r, HandleScriptStep D F W a = some r ∧
      (∀ go t, Effect.SetRespawnTime go t ∈ r.effects →
        t = max 5 (F.respawnGo_despawnDelay a.m_script) ∧
        (F.respawnGo_despawnDelay a.m_script = 2 → t = 5) ∧
        (5 ≤ F.respawnGo_despawnDelay a.m_script → t = F.respawnGo_despawnDelay a.m_script)) ∧
      (∀ pSource pTarget pSourceOrItem pGo,
        scriptStepTargets D W a = some (pSource, pTarget, pSourceOrItem) →
        stepGameObject W (F.respawnGo_goGuid a.m_script) pSource = some pGo →
        W.GetGoType pGo ≠ GameobjectTypes.GAMEOBJECT_TYPE_FISHINGNODE →
        W.GetGoType pGo ≠ GameobjectTypes.GAMEOBJECT_TYPE_DOOR →
        W.GetGoType pGo ≠ GameobjectTypes.GAMEOBJECT_TYPE_BUTTON →
        W.GetGoType pGo ≠ GameobjectTypes.GAMEOBJECT_TYPE_TRAP →
        W.isSpawned pGo = false →
        r.effects = [Effect.SetLootState pGo LootState.GO_READY,
          Effect.SetRespawnTime pGo (max 5 (F.respawnGo_despawnDelay a.m_script)),
          Effect.Refresh pGo]) := by
  have hval : ∀ t, t = max 5 (F.respawnGo_despawnDelay a.m_script) →
      t = max 5 (F.respawnGo_despawnDelay a.m_script) ∧
      (F.respawnGo_despawnDelay a.m_script = 2 → t = 5) ∧
      (5 ≤ F.respawnGo_despawnDelay a.m_script → t = F.respawnGo_despawnDelay a.m_script) := by
    intro t ht
    refine ⟨ht, ?_, ?_⟩
    · intro h2
      rw [ht, h2]
      rfl
    · intro h5
      rw [ht]
      exact max_eq_right h5
  cases ht : scriptStepTargets D W a with
  | none =>
    refine ⟨{ halt := false, effects := [] }, ?_, ?_, ?_⟩
    · unfold HandleScriptStep
      rw [ht]
    · intro go t hmem
      exact absurd hmem (List.not_mem_nil _)
    · intro pSource pTarget pSourceOrItem pGo h
      exact absurd h (by simp)
  | some targets =>
    obtain ⟨pSource, pTarget, pSourceOrItem⟩ := targets
    refine ⟨stepRespawnGameobject F W a.m_script pSource, ?_, ?_, ?_⟩
    · rw [HandleScriptStep_of_targets D F W a pSource pTarget pSourceOrItem ht,
        commandStep_respawn D F W a.m_script pSource pTarget pSourceOrItem hc]
    · intro go t hmem
      rcases stepRespawnGameobject_effects F W a.m_script pSource with h | ⟨pGo, _, _, _, _, _, _, h⟩
      · rw [h] at hmem
        exact absurd hmem (List.not_mem_nil _)
      · rw [h] at hmem
        simp only [List.mem_cons, List.mem_singleton, Effect.SetRespawnTime.injEq,
          reduceCtorEq, false_or, or_false, List.not_mem_nil] at hmem
        exact hval t hmem.2
    · intro pSource' pTarget' pSourceOrItem' pGo h hgo h1 h2 h3 h4 hs
      simp only [Option.some.injEq, Prod.mk.injEq] at h
      obtain ⟨hsrc, _, _⟩ := h
      subst hsrc
      unfold stepRespawnGameobject
      have hmax : (if F.respawnGo_despawnDelay a.m_script < 5 then 5
          else F.respawnGo_despawnDelay a.m_script)
          = max 5 (F.respawnGo_despawnDelay a.m_script) := by
        split_ifs with h
        · exact (max_eq_left (le_of_lt h)).symm
        · exact (max_eq_right (not_lt.mp h)).symm
      simp only [hmax, hgo]
      rw [if_neg (by
        rintro (h | h | h | h)
        · exact h1 h
        · exact h2 h
        · exact h3 h
        · exact h4 h), if_neg (by rw [hs]; decide)]
      rfl

/-- Witness of C26: the sample respawn step has the despawn delay 2 and sets
the respawn time 5 on the chest it respawns. -/
theorem C26_respawn_delay_is_floored_witness :
    sampleFields.respawnGo_despawnDelay sampleRespawnRow = 2 ∧
    HandleScriptStep sampleDefines sampleFields sampleWorld (sampleAction sampleRespawnRow)
      = some { halt := false,
               effects := [Effect.SetLootState sampleChest LootState.GO_READY,
                 Effect.SetRespawnTime sampleChest 5, Effect.Refresh sampleChest] } ∧
    ∃ r, HandleScriptStep sampleDefines sampleFields sampleWorld (sampleAction sampleRespawnRow)
        = some r ∧
      (∀ go t, Effect.SetRespawnTime go t ∈ r.effects →
        t = max 5 (sampleFields.respawnGo_despawnDelay (sampleAction sampleRespawnRow).m_script) ∧
        (sampleFields.respawnGo_despawnDelay (sampleAction sampleRespawnRow).m_script = 2 →
          t = 5) ∧
        (5 ≤ sampleFields.respawnGo_despawnDelay (sampleAction sampleRespawnRow).m_script →
          t = sampleFields.respawnGo_despawnDelay (sampleAction sampleRespawnRow).m_script)) ∧
      (∀ pSource pTarget pSourceOrItem pGo,
        scriptStepTargets sampleDefines sampleWorld (sampleAction sampleRespawnRow)
          = some (pSource, pTarget, pSourceOrItem) →
        stepGameObject sampleWorld
          (sampleFields.respawnGo_goGuid (sampleAction sampleRespawnRow).m_script) pSource
          = some pGo →
        sampleWorld.GetGoType pGo ≠ GameobjectTypes.GAMEOBJECT_TYPE_FISHINGNODE →
        sampleWorld.GetGoType pGo ≠ GameobjectTypes.GAMEOBJECT_TYPE_DOOR →
        sampleWorld.GetGoType pGo ≠ GameobjectTypes.GAMEOBJECT_TYPE_BUTTON →
        sampleWorld.GetGoType pGo ≠ GameobjectTypes.GAMEOBJECT_TYPE_TRAP →
        sampleWorld.isSpawned pGo = false →
        r.effects = [Effect.SetLootState pGo LootState.GO_READY,
          Effect.SetRespawnTime pGo
            (max 5 (sampleFields.respawnGo_despawnDelay (sampleAction sampleRespawnRow).m_script)),
          Effect.Refresh pGo]) :=
  ⟨rfl, rfl,
   C26_respawn_delay_is_floored sampleDefines sampleFields sampleWorld
    (sampleAction sampleRespawnRow) rfl⟩

/-- C27, failing input: the type test of the respawn step at execution names
the fishing node, the door, the button and the trap only. On a game object of
one of these four types the step makes no call; but the sample step whose
resolved game object is a fishing hole that is not spawned sets its loot
state and its respawn time. -/
theorem C27_respawn_fishing_hole_not_rejected :
    sampleWorld.GetGoType sampleFishingHole = GameobjectTypes.GAMEOBJECT_TYPE_FISHINGHOLE ∧
    stepGameObject sampleWorld (sampleFields.respawnGo_goGuid sampleRespawnHoleRow)
      (some samplePlayer) = some sampleFishingHole ∧
    HandleScriptStep sampleDefines sampleFields sampleWorld (sampleAction sampleRespawnHoleRow)
      = some { halt := false,
               effects := [Effect.SetLootState sampleFishingHole LootState.GO_READY,
                 Effect.SetRespawnTime sampleFishingHole 5, Effect.Refresh sampleFishingHole] } ∧
    (∀ (F : ScriptFields) (W : ScriptWorld) (m_script : ScriptInfo)
        (pSource : Option WorldObject) (pGo : WorldObject),
      stepGameObject W (F.respawnGo_goGuid m_script) pSource = some pGo →
      (W.GetGoType pGo = GameobjectTypes.GAMEOBJECT_TYPE_FISHINGNODE ∨
        W.GetGoType pGo = GameobjectTypes.GAMEOBJECT_TYPE_DOOR ∨
        W.GetGoType pGo = GameobjectTypes.GAMEOBJECT_TYPE_BUTTON ∨
        W.GetGoType pGo = GameobjectTypes.GAMEOBJECT_TYPE_TRAP) →
      stepRespawnGameobject F W m_script pSource = { halt := false, effects := [] }) := by
  refine ⟨rfl, rfl, rfl, ?_⟩
  intro F W m_script pSource pGo hgo htype
  unfold stepRespawnGameobject
  simp only [hgo]
  rw [if_pos htype]
  rfl

/-- C28: an open-door or close-door step whose game object is found and is a
door toggles it, with the reset delay `max 15 resetDelay`, exactly when it is
not in the desired state: open-door on a door in state `GO_STATE_READY`
(closed), close-door on a door in another state. Then the step calls
`UseDoorOrButton` on the door and, if the target is a game object of type
button, on the target, with the same delay; otherwise it makes no call at
all. -/
theorem C28_door_toggled_iff_not_in_desired_state (D : Defines) (F : ScriptFields)
    (W : ScriptWorld) (a : ScriptAction) (pSource pTarget : Option WorldObject)
    (pSourceOrItem : Option ScriptObject) (pDoor : WorldObject)
    (hc : a.m_script.command = SCRIPT_COMMAND_OPEN_DOOR ∨
      a.m_script.command = SCRIPT_COMMAND_CLOSE_DOOR)
    (ht : scriptStepTargets D W a = some (pSource, pTarget, pSourceOrItem))
    (hdoor : stepGameObject W (F.changeDoor_goGuid a.m_script) pSource = some pDoor)
    (htype : W.GetGoType pDoor = GameobjectTypes.GAMEOBJECT_TYPE_DOOR) :
    ∃ r, HandleScriptStep D F W a = some r ∧ r.halt = false ∧
      ((∃ go t, Effect.UseDoorOrButton go t ∈ r.effects) ↔
        ((a.m_script.command = SCRIPT_COMMAND_OPEN_DOOR ∧
            W.GetGoState pDoor = GOState.GO_STATE_READY) ∨
         (a.m_script.command = SCRIPT_COMMAND_CLOSE_DOOR ∧
            W.GetGoState pDoor ≠ GOState.GO_STATE_READY))) ∧
      (((a.m_script.command = SCRIPT_COMMAND_OPEN_DOOR ∧
            W.GetGoState pDoor = GOState.GO_STATE_READY) ∨
         (a.m_script.command = SCRIPT_COMMAND_CLOSE_DOOR ∧
            W.GetGoState pDoor ≠ GOState.GO_STATE_READY)) →
        r.effects = Effect.UseDoorOrButton pDoor (max 15 (F.changeDoor_resetDelay a.m_script)) ::
          doorButtonCalls W pTarget (max 15 (F.changeDoor_resetDelay a.m_script))) ∧
      (¬ ((a.m_script.command = SCRIPT_COMMAND_OPEN_DOOR ∧
            W.GetGoState pDoor = GOState.GO_STATE_READY) ∨
         (a.m_script.command = SCRIPT_COMMAND_CLOSE_DOOR ∧
            W.GetGoState pDoor ≠ GOState.GO_STATE_READY)) →
        r.effects = []) := by
  have hmax : (if F.changeDoor_resetDelay a.m_script < 15 then 15
      else F.changeDoor_resetDelay a.m_script)
      = max 15 (F.changeDoor_resetDelay a.m_script) := by
    split_ifs with h
    · exact (max_eq_left (le_of_lt h)).symm
    · exact (max_eq_right (not_lt.mp h)).symm
  have hne : SCRIPT_COMMAND_OPEN_DOOR ≠ SCRIPT_COMMAND_CLOSE_DOOR := by decide
  have hskip : ((a.m_script.command = SCRIPT_COMMAND_OPEN_DOOR ∧
        W.GetGoState pDoor ≠ GOState.GO_STATE_READY) ∨
      (a.m_script.command = SCRIPT_COMMAND_CLOSE_DOOR ∧
        W.GetGoState pDoor = GOState.GO_STATE_READY)) ↔
      ¬ ((a.m_script.command = SCRIPT_COMMAND_OPEN_DOOR ∧
          W.GetGoState pDoor = GOState.GO_STATE_READY) ∨
        (a.m_script.command = SCRIPT_COMMAND_CLOSE_DOOR ∧
          W.GetGoState pDoor ≠ GOState.GO_STATE_READY)) := by
    rcases hc with hc | hc <;>
      by_cases hs : W.GetGoState pDoor = GOState.GO_STATE_READY <;>
      simp [hc, hs, hne, hne.symm]
  refine ⟨stepChangeDoor F W a.m_script pSource pTarget, ?_, stepChangeDoor_halt _ _ _ _ _, ?_⟩
  · rw [HandleScriptStep_of_targets D F W a pSource pTarget pSourceOrItem ht,
      commandStep_door D F W a.m_script pSource pTarget pSourceOrItem hc]
  · have htoggle : ((a.m_script.command = SCRIPT_COMMAND_OPEN_DOOR ∧
            W.GetGoState pDoor = GOState.GO_STATE_READY) ∨
         (a.m_script.command = SCRIPT_COMMAND_CLOSE_DOOR ∧
            W.GetGoState pDoor ≠ GOState.GO_STATE_READY)) →
        (stepChangeDoor F W a.m_script pSource pTarget).effects
          = Effect.UseDoorOrButton pDoor (max 15 (F.changeDoor_resetDelay a.m_script)) ::
          doorButtonCalls W pTarget (max 15 (F.changeDoor_resetDelay a.m_script)) := by
      intro h
      unfold stepChangeDoor
      simp only [hmax, hdoor]
      rw [if_neg (not_not.mpr htype), if_neg (fun hs => hskip.mp hs h)]
      rfl
    have hidle : ¬ ((a.m_script.command = SCRIPT_COMMAND_OPEN_DOOR ∧
            W.GetGoState pDoor = GOState.GO_STATE_READY) ∨
         (a.m_script.command = SCRIPT_COMMAND_CLOSE_DOOR ∧
            W.GetGoState pDoor ≠ GOState.GO_STATE_READY)) →
        (stepChangeDoor F W a.m_script pSource pTarget).effects = [] := by
      intro h
      unfold stepChangeDoor
      simp only [hmax, hdoor]
      rw [if_neg (not_not.mpr htype), if_pos (hskip.mpr h)]
      rfl
    refine ⟨⟨?_, ?_⟩, htoggle, hidle⟩
    · rintro ⟨go, t, hmem⟩
      by_contra h
      rw [hidle h] at hmem
      exact absurd hmem (List.not_mem_nil _)
    · intro h
      refine ⟨pDoor, max 15 (F.changeDoor_resetDelay a.m_script), ?_⟩
      rw [htoggle h]
      exact List.mem_cons_self _ _

/-- Witness of C28: the sample open-door step on the closed sample door
toggles it with the reset delay 15 (its reset delay is 0); the sample
close-door step on the same door makes no call. -/
theorem C28_door_toggled_iff_not_in_desired_state_witness :
    HandleScriptStep sampleDefines sampleFields sampleWorld (sampleAction sampleDoorRow)
      = some { halt := false, effects := [Effect.UseDoorOrButton sampleGameObject 15] } ∧
    HandleScriptStep sampleDefines sampleFields sampleWorld (sampleAction sampleCloseDoorRow)
      = some { halt := false, effects := [] } ∧
    ∃ r, HandleScriptStep sampleDefines sampleFields sampleWorld (sampleAction sampleDoorRow)
        = some r ∧ r.halt = false ∧
      ((∃ go t, Effect.UseDoorOrButton go t ∈ r.effects) ↔
        (((sampleAction sampleDoorRow).m_script.command = SCRIPT_COMMAND_OPEN_DOOR ∧
            sampleWorld.GetGoState sampleGameObject = GOState.GO_STATE_READY) ∨
         ((sampleAction sampleDoorRow).m_script.command = SCRIPT_COMMAND_CLOSE_DOOR ∧
            sampleWorld.GetGoState sampleGameObject ≠ GOState.GO_STATE_READY))) ∧
      ((((sampleAction sampleDoorRow).m_script.command = SCRIPT_COMMAND_OPEN_DOOR ∧
            sampleWorld.GetGoState sampleGameObject = GOState.GO_STATE_READY) ∨
         ((sampleAction sampleDoorRow).m_script.command = SCRIPT_COMMAND_CLOSE_DOOR ∧
            sampleWorld.GetGoState sampleGameObject ≠ GOState.GO_STATE_READY)) →
        r.effects = Effect.UseDoorOrButton sampleGameObject
            (max 15 (sampleFields.changeDoor_resetDelay (sampleAction sampleDoorRow).m_script)) ::
          doorButtonCalls sampleWorld (some sampleCreature)
            (max 15 (sampleFields.changeDoor_resetDelay (sampleAction sampleDoorRow).m_script))) ∧
      (¬ (((sampleAction sampleDoorRow).m_script.command = SCRIPT_COMMAND_OPEN_DOOR ∧
            sampleWorld.GetGoState sampleGameObject = GOState.GO_STATE_READY) ∨
         ((sampleAction sampleDoorRow).m_script.command = SCRIPT_COMMAND_CLOSE_DOOR ∧
            sampleWorld.GetGoState sampleGameObject ≠ GOState.GO_STATE_READY)) →
        r.effects = []) :=
  ⟨rfl, rfl,
   C28_door_toggled_iff_not_in_desired_state sampleDefines sampleFields sampleWorld
    (sampleAction sampleDoorRow) (some samplePlayer) (some sampleCreature)
    (some (ScriptObject.worldObject samplePlayer)) sampleGameObject (Or.inl rfl) rfl rfl rfl⟩

/-! ## Execution of the termination steps -/

theorem commandStep_terminate_script (D : Defines) (F : ScriptFields) (W : ScriptWorld)
    (m_script : ScriptInfo) (pSource pTarget : Option WorldObject)
    (pSourceOrItem : Option ScriptObject)
    (hc : m_script.command = SCRIPT_COMMAND_TERMINATE_SCRIPT) :
    commandStep D F W m_script pSource pTarget pSourceOrItem
      = stepTerminateScript D F W m_script pSource pTarget := by
  unfold commandStep
  rw [hc]

theorem commandStep_terminate_cond (D : Defines) (F : ScriptFields) (W : ScriptWorld)
    (m_script : ScriptInfo) (pSource pTarget : Option WorldObject)
    (pSourceOrItem : Option ScriptObject)
    (hc : m_script.command = SCRIPT_COMMAND_TERMINATE_COND) :
    commandStep D F W m_script pSource pTarget pSourceOrItem
      = some (stepTerminateCond D W m_script pSource pTarget) := by
  unfold commandStep
  rw [hc]

theorem runInvocation_nil {World : Type} (step : World → ScriptAction → Option StepResult)
    (apply : World → List Effect → World) (w : World) :
    runInvocation step apply w [] = some (w, [], false) := rfl

theorem runInvocation_cons_halt {World : Type} (step : World → ScriptAction → Option StepResult)
    (apply : World → List Effect → World) (w : World) (a : ScriptAction)
    (rest : List ScriptAction) (r : StepResult) (hr : step w a = some r)
    (hh : r.halt = true) :
    runInvocation step apply w (a :: rest) = some (apply w r.effects, r.effects, true) := by
  simp only [runInvocation, hr, hh, if_true]

theorem runInvocation_cons_continue {World : Type}
    (step : World → ScriptAction → Option StepResult)
    (apply : World → List Effect → World) (w : World) (a : ScriptAction)
    (rest : List ScriptAction) (r : StepResult) (hr : step w a = some r)
    (hh : r.halt = false) :
    runInvocation step apply w (a :: rest)
      = (runInvocation step apply (apply w r.effects) rest).map
          (fun res => (res.1, r.effects ++ res.2.1, res.2.2)) := by
  simp only [runInvocation, hr, hh, Bool.false_eq_true, if_false]
  cases runInvocation step apply (apply w r.effects) rest with
  | none => rfl
  | some res =>
    obtain ⟨w', es, halted⟩ := res
    rfl

theorem runInvocation_cons_some {World : Type}
    (step : World → ScriptAction → Option StepResult)
    (apply : World → List Effect → World) (w : World) (a : ScriptAction)
    (rest : List ScriptAction) (w1 : World) (es1 : List Effect)
    (h : runInvocation step apply w (a :: rest) = some (w1, es1, false)) :
    ∃ r es, step w a = some r ∧ r.halt = false ∧
      runInvocation step apply (apply w r.effects) rest = some (w1, es, false) ∧
      es1 = r.effects ++ es := by
  cases hr : step w a with
  | none =>
    simp only [runInvocation, hr] at h
    exact absurd h (by simp)
  | some r =>
    cases hh : r.halt with
    | true =>
      rw [runInvocation_cons_halt step apply w a rest r hr hh] at h
      simp only [Option.some.injEq, Prod.mk.injEq] at h
      exact absurd h.2.2 (by decide)
    | false =>
      rw [runInvocation_cons_continue step apply w a rest r hr hh] at h
      cases hrest : runInvocation step apply (apply w r.effects) rest with
      | none =>
        rw [hrest] at h
        exact absurd h (by simp)
      | some res =>
        obtain ⟨w', es, halted⟩ := res
        rw [hrest] at h
        simp only [Option.map_some', Option.some.injEq, Prod.mk.injEq] at h
        obtain ⟨hw, hes, hhal⟩ := h
        subst hw
        subst hhal
        exact ⟨r, es, rfl, hh, hrest, hes.symm⟩

theorem runInvocation_append_halt {World : Type}
    (step : World → ScriptAction → Option StepResult)
    (apply : World → List Effect → World) (before : List ScriptAction) :
    ∀ (w0 w1 : World) (es1 : List Effect) (a : ScriptAction) (after : List ScriptAction)
      (r : StepResult),
      runInvocation step apply w0 before = some (w1, es1, false) →
      step w1 a = some r → r.halt = true →
      runInvocation step apply w0 (before ++ a :: after)
        = some (apply w1 r.effects, es1 ++ r.effects, true) := by
  induction before with
  | nil =>
    intro w0 w1 es1 a after r h hr hh
    rw [runInvocation_nil] at h
    simp only [Option.some.injEq, Prod.mk.injEq] at h
    obtain ⟨hw, hes, _⟩ := h
    subst hw
    subst hes
    rw [List.nil_append, List.nil_append]
    exact runInvocation_cons_halt step apply w0 a after r hr hh
  | cons b bs ih =>
    intro w0 w1 es1 a after r h hr hh
    obtain ⟨rb, es, hrb, hhb, hrest, hes⟩ := runInvocation_cons_some step apply w0 b bs w1 es1 h
    rw [List.cons_append, runInvocation_cons_continue step apply w0 b _ rb hrb hhb,
      ih (apply w0 rb.effects) w1 es a after r hrest hr hh, hes]
    simp only [Option.map_some', List.append_assoc]

/-- C29: a terminate-script step with a non-zero npc entry and a searcher
(the source or the target is non-null) returns, and it returns the halt signal
exactly when the additional flag is clear and the search for a live creature
of that entry within the search distance finds nothing, or the additional flag
is set and the search finds one; otherwise it returns false without any
call. -/
theorem C29_terminate_script_halts_iff (D : Defines) (F : ScriptFields) (W : ScriptWorld)
    (a : ScriptAction) (pSource pTarget : Option WorldObject)
    (pSourceOrItem : Option ScriptObject) (pSearcher : WorldObject)
    (hc : a.m_script.command = SCRIPT_COMMAND_TERMINATE_SCRIPT)
    (hnpc : a.m_script.terminateScript_npcEntry ≠ 0)
    (ht : scriptStepTargets D W a = some (pSource, pTarget, pSourceOrItem))
    (hs : scriptSearcher pSource pTarget = some pSearcher) :
    ∃ r, HandleScriptStep D F W a = some r ∧
      (r.halt = true ↔
        (a.m_script.data_flags &&& D.SCRIPT_FLAG_COMMAND_ADDITIONAL = 0 ∧
          W.map.NearestCreatureInGrid pSearcher a.m_script.terminateScript_npcEntry
            (F.terminateScript_searchDist a.m_script) = none) ∨
        (a.m_script.data_flags &&& D.SCRIPT_FLAG_COMMAND_ADDITIONAL ≠ 0 ∧
          W.map.NearestCreatureInGrid pSearcher a.m_script.terminateScript_npcEntry
            (F.terminateScript_searchDist a.m_script) ≠ none)) ∧
      (r.halt = false → r.effects = []) := by
  rw [HandleScriptStep_of_targets D F W a pSource pTarget pSourceOrItem ht,
    commandStep_terminate_script D F W a.m_script pSource pTarget pSourceOrItem hc]
  unfold stepTerminateScript terminateScriptResult
  rw [if_pos hnpc]
  simp only [hs]
  by_cases h1 : a.m_script.data_flags &&& D.SCRIPT_FLAG_COMMAND_ADDITIONAL = 0 ∧
      W.map.NearestCreatureInGrid pSearcher a.m_script.terminateScript_npcEntry
        (F.terminateScript_searchDist a.m_script) = none
  · rw [if_pos h1]
    exact ⟨_, rfl, ⟨fun _ => Or.inl h1, fun _ => rfl⟩, fun h => Bool.noConfusion h⟩
  · rw [if_neg h1]
    by_cases h2 : a.m_script.data_flags &&& D.SCRIPT_FLAG_COMMAND_ADDITIONAL ≠ 0 ∧
        W.map.NearestCreatureInGrid pSearcher a.m_script.terminateScript_npcEntry
          (F.terminateScript_searchDist a.m_script) ≠ none
    · rw [if_pos h2]
      exact ⟨_, rfl, ⟨fun _ => Or.inr h2, fun _ => rfl⟩, fun h => Bool.noConfusion h⟩
    · rw [if_neg h2]
      refine ⟨_, rfl, ⟨fun h => absurd h (by decide), ?_⟩, fun _ => rfl⟩
      rintro (h | h)
      · exact absurd h h1
      · exact absurd h h2

/-- Witness of C29: the sample terminate-script step looks for a live creature
of entry 100 around the sample creature, the additional flag is clear and
nothing is found: the step halts. -/
theorem C29_terminate_script_halts_iff_witness :
    HandleScriptStep sampleDefines sampleFields sampleWorld (sampleAction sampleTerminateNpcRow)
      = some { halt := true, effects := [] } ∧
    ∃ r, HandleScriptStep sampleDefines sampleFields sampleWorld
        (sampleAction sampleTerminateNpcRow) = some r ∧
      (r.halt = true ↔
        ((sampleAction sampleTerminateNpcRow).m_script.data_flags &&&
            sampleDefines.SCRIPT_FLAG_COMMAND_ADDITIONAL = 0 ∧
          sampleWorld.map.NearestCreatureInGrid sampleCreature
            (sampleAction sampleTerminateNpcRow).m_script.terminateScript_npcEntry
            (sampleFields.terminateScript_searchDist (sampleAction sampleTerminateNpcRow).m_script)
            = none) ∨
        ((sampleAction sampleTerminateNpcRow).m_script.data_flags &&&
            sampleDefines.SCRIPT_FLAG_COMMAND_ADDITIONAL ≠ 0 ∧
          sampleWorld.map.NearestCreatureInGrid sampleCreature
            (sampleAction sampleTerminateNpcRow).m_script.terminateScript_npcEntry
            (sampleFields.terminateScript_searchDist (sampleAction sampleTerminateNpcRow).m_script)
            ≠ none)) ∧
      (r.halt = false → r.effects = []) :=
  ⟨rfl,
   C29_terminate_script_halts_iff sampleDefines sampleFields sampleWorld
    (sampleAction sampleTerminateNpcRow) (some samplePlayer) (some sampleCreature)
    (some (ScriptObject.worldObject samplePlayer)) sampleCreature rfl (by decide) rfl rfl⟩

/-- C30: a terminate-condition step whose objects are resolved returns the
evaluation of the stored condition for the player actor (the target when it is
a player, otherwise the source when it is a player, otherwise no player),
negated when the additional flag is set. That value is the halt signal: in an
invocation whose earlier steps have run without halting, a step that evaluates
to terminate ends the invocation with the calls of the earlier steps and its
own applied and none of a later step. -/
theorem C30_terminate_cond_value_is_halt_signal (D : Defines) (F : ScriptFields)
    (W : ScriptWorld) (a : ScriptAction) (pSource pTarget : Option WorldObject)
    (pSourceOrItem : Option ScriptObject)
    (hc : a.m_script.command = SCRIPT_COMMAND_TERMINATE_COND)
    (ht : scriptStepTargets D W a = some (pSource, pTarget, pSourceOrItem)) :
    ∃ r, HandleScriptStep D F W a = some r ∧
      r.halt =
        (if a.m_script.data_flags &&& D.SCRIPT_FLAG_COMMAND_ADDITIONAL ≠ 0 then
          !W.IsPlayerMeetToCondition a.m_script.terminateCond_conditionId
            (terminateCondPlayer pSource pTarget) (terminateCondSecond pSource pTarget)
         else
          W.IsPlayerMeetToCondition a.m_script.terminateCond_conditionId
            (terminateCondPlayer pSource pTarget) (terminateCondSecond pSource pTarget)) ∧
      (isPlayerPtr pTarget = true → terminateCondPlayer pSource pTarget = pTarget) ∧
      (isPlayerPtr pTarget = false → isPlayerPtr pSource = true →
        terminateCondPlayer pSource pTarget = pSource) ∧
      (isPlayerPtr pTarget = false → isPlayerPtr pSource = false →
        terminateCondPlayer pSource pTarget = none) ∧
      (r.halt = true →
        ∀ (World : Type) (view : World → ScriptWorld) (apply : World → List Effect → World)
          (w0 w1 : World) (before after : List ScriptAction) (es1 : List Effect),
          runInvocation (fun w b => HandleScriptStep D F (view w) b) apply w0 before
            = some (w1, es1, false) →
          view w1 = W →
          runInvocation (fun w b => HandleScriptStep D F (view w) b) apply w0
              (before ++ a :: after)
            = some (apply w1 r.effects, es1 ++ r.effects, true)) := by
  have hstep : HandleScriptStep D F W a = some (stepTerminateCond D W a.m_script pSource pTarget) := by
    rw [HandleScriptStep_of_targets D F W a pSource pTarget pSourceOrItem ht,
      commandStep_terminate_cond D F W a.m_script pSource pTarget pSourceOrItem hc]
  refine ⟨stepTerminateCond D W a.m_script pSource pTarget, hstep, rfl, ?_, ?_, ?_, ?_⟩
  · intro h
    unfold terminateCondPlayer
    rw [if_pos h]
  · intro h1 h2
    unfold terminateCondPlayer
    rw [if_neg (by rw [h1]; decide), if_pos h2]
  · intro h1 h2
    unfold terminateCondPlayer
    rw [if_neg (by rw [h1]; decide), if_neg (by rw [h2]; decide)]
  · intro hh World view apply w0 w1 before after es1 hrun hview
    refine runInvocation_append_halt (fun w b => HandleScriptStep D F (view w) b) apply before
      w0 w1 es1 a after _ hrun ?_ hh
    simp only [hview]
    exact hstep

/-- Witness of C30: the condition 60 of the sample terminate-condition step
holds for the sample player, its source; the step fails the quest 70 of the
group member that has it incomplete and returns true; and in the invocation
open-door, terminate-condition, respawn the door is toggled, the quest failed
and the respawn never run. -/
theorem C30_terminate_cond_value_is_halt_signal_witness :
    HandleScriptStep sampleDefines sampleFields sampleWorld (sampleAction sampleTerminateCondRow)
      = some { halt := true, effects := [Effect.FailQuest samplePlayer2 70] } ∧
    runInvocation (fun (_ : Unit) b => HandleScriptStep sampleDefines sampleFields sampleWorld b)
        (fun w _ => w) ()
        [sampleAction sampleDoorRow, sampleAction sampleTerminateCondRow,
          sampleAction sampleRespawnRow]
      = some ((), [Effect.UseDoorOrButton sampleGameObject 15,
          Effect.FailQuest samplePlayer2 70], true) ∧
    ∃ r, HandleScriptStep sampleDefines sampleFields sampleWorld
        (sampleAction sampleTerminateCondRow) = some r ∧
      r.halt =
        (if (sampleAction sampleTerminateCondRow).m_script.data_flags &&&
            sampleDefines.SCRIPT_FLAG_COMMAND_ADDITIONAL ≠ 0 then
          !sampleWorld.IsPlayerMeetToCondition
            (sampleAction sampleTerminateCondRow).m_script.terminateCond_conditionId
            (terminateCondPlayer (some samplePlayer) (some sampleCreature))
            (terminateCondSecond (some samplePlayer) (some sampleCreature))
         else
          sampleWorld.IsPlayerMeetToCondition
            (sampleAction sampleTerminateCondRow).m_script.terminateCond_conditionId
            (terminateCondPlayer (some samplePlayer) (some sampleCreature))
            (terminateCondSecond (some samplePlayer) (some sampleCreature))) ∧
      (isPlayerPtr (some sampleCreature) = true →
        terminateCondPlayer (some samplePlayer) (some sampleCreature) = some sampleCreature) ∧
      (isPlayerPtr (some sampleCreature) = false → isPlayerPtr (some samplePlayer) = true →
        terminateCondPlayer (some samplePlayer) (some sampleCreature) = some samplePlayer) ∧
      (isPlayerPtr (some sampleCreature) = false → isPlayerPtr (some samplePlayer) = false →
        terminateCondPlayer (some samplePlayer) (some sampleCreature) = none) ∧
      (r.halt = true →
        ∀ (World : Type) (view : World → ScriptWorld) (apply : World → List Effect → World)
          (w0 w1 : World) (before after : List ScriptAction) (es1 : List Effect),
          runInvocation (fun w b => HandleScriptStep sampleDefines sampleFields (view w) b)
              apply w0 before
            = some (w1, es1, false) →
          view w1 = sampleWorld →
          runInvocation (fun w b => HandleScriptStep sampleDefines sampleFields (view w) b)
              apply w0 (before ++ sampleAction sampleTerminateCondRow :: after)
            = some (apply w1 r.effects, es1 ++ r.effects, true)) :=
  ⟨rfl, rfl,
   C30_terminate_cond_value_is_halt_signal sampleDefines sampleFields sampleWorld
    (sampleAction sampleTerminateCondRow) (some samplePlayer) (some sampleCreature)
    (some (ScriptObject.worldObject samplePlayer)) rfl rfl⟩

/-! ## Execution of the terminate-condition and kill-credit steps: the calls made -/

theorem commandStep_kill_credit (D : Defines) (F : ScriptFields) (W : ScriptWorld)
    (m_script : ScriptInfo) (pSource pTarget : Option WorldObject)
    (pSourceOrItem : Option ScriptObject)
    (hc : m_script.command = SCRIPT_COMMAND_KILL_CREDIT) :
    commandStep D F W m_script pSource pTarget pSourceOrItem
      = some (stepKillCredit F m_script pSource pTarget) := by
  unfold commandStep
  rw [hc]

theorem mem_terminateCondFailQuest (W : ScriptWorld) (failQuest : Nat) (player p : WorldObject)
    (q : Nat) :
    Effect.FailQuest p q ∈ terminateCondFailQuest W failQuest player ↔
      q = failQuest ∧ p ∈ (W.GetGroup player).getD [player] ∧
        W.GetQuestStatus p failQuest = QuestStatus.QUEST_STATUS_INCOMPLETE := by
  unfold terminateCondFailQuest
  cases W.GetGroup player with
  | some members =>
    simp only [List.mem_map, List.mem_filter, decide_eq_true_eq, Effect.FailQuest.injEq,
      Option.getD_some]
    constructor
    · rintro ⟨m, ⟨hm, hst⟩, rfl, rfl⟩
      exact ⟨rfl, hm, hst⟩
    · rintro ⟨rfl, hm, hst⟩
      exact ⟨p, ⟨hm, hst⟩, rfl, rfl⟩
  | none =>
    simp only [Option.getD_none, List.mem_singleton]
    split_ifs with hst
    · simp only [List.mem_singleton, Effect.FailQuest.injEq]
      constructor
      · rintro ⟨rfl, rfl⟩
        exact ⟨rfl, rfl, hst⟩
      · rintro ⟨rfl, rfl, _⟩
        exact ⟨rfl, rfl⟩
    · simp only [List.not_mem_nil, false_iff]
      rintro ⟨_, rfl, h⟩
      exact hst h

theorem terminateCondFailQuest_only_FailQuest (W : ScriptWorld) (failQuest : Nat)
    (player : WorldObject) (e : Effect) (he : e ∈ terminateCondFailQuest W failQuest player) :
    ∃ p, e = Effect.FailQuest p failQuest := by
  unfold terminateCondFailQuest at he
  cases hg : W.GetGroup player with
  | some members =>
    rw [hg] at he
    simp only [List.mem_map] at he
    obtain ⟨m, _, rfl⟩ := he
    exact ⟨m, rfl⟩
  | none =>
    rw [hg] at he
    simp only at he
    split_ifs at he
    · rw [List.mem_singleton] at he
      exact ⟨player, he⟩
    · exact absurd he (List.not_mem_nil _)

/-- C31: a terminate-condition step with a fail-quest makes no call when it
evaluates to continue. When it evaluates to terminate, every call it makes is
a `FailQuest` of the configured quest, and the players it is called on are
exactly the members of the group of the acting player (the acting player alone
when there is no group) whose status for that quest is incomplete; without an
acting player it makes no call. -/
theorem C31_terminate_cond_fails_incomplete_members (D : Defines) (F : ScriptFields)
    (W : ScriptWorld) (a : ScriptAction) (pSource pTarget : Option WorldObject)
    (pSourceOrItem : Option ScriptObject)
    (hc : a.m_script.command = SCRIPT_COMMAND_TERMINATE_COND)
    (hq : a.m_script.terminateCond_failQuest ≠ 0)
    (ht : scriptStepTargets D W a = some (pSource, pTarget, pSourceOrItem)) :
    ∃ r, HandleScriptStep D F W a = some r ∧
      (r.halt = false → r.effects = []) ∧
      (r.halt = true → terminateCondPlayer pSource pTarget = none → r.effects = []) ∧
      (r.halt = true → ∀ player, terminateCondPlayer pSource pTarget = some player →
        (∀ e, e ∈ r.effects → ∃ p, e = Effect.FailQuest p a.m_script.terminateCond_failQuest) ∧
        (∀ p q, Effect.FailQuest p q ∈ r.effects ↔
          q = a.m_script.terminateCond_failQuest ∧
          p ∈ (W.GetGroup player).getD [player] ∧
          W.GetQuestStatus p a.m_script.terminateCond_failQuest
            = QuestStatus.QUEST_STATUS_INCOMPLETE)) := by
  refine ⟨stepTerminateCond D W a.m_script pSource pTarget, ?_, ?_, ?_, ?_⟩
  · rw [HandleScriptStep_of_targets D F W a pSource pTarget pSourceOrItem ht,
      commandStep_terminate_cond D F W a.m_script pSource pTarget pSourceOrItem hc]
  · intro hh
    unfold stepTerminateCond at hh ⊢
    simp only at hh ⊢
    rw [if_neg]
    rintro ⟨h, _⟩
    rw [hh] at h
    exact Bool.noConfusion h
  · intro _ hp
    unfold stepTerminateCond
    simp only [hp]
    split_ifs <;> rfl
  · intro hh player hp
    have heff : (stepTerminateCond D W a.m_script pSource pTarget).effects
        = terminateCondFailQuest W a.m_script.terminateCond_failQuest player := by
      unfold stepTerminateCond at hh ⊢
      simp only at hh ⊢
      rw [if_pos ⟨hh, hq⟩, hp]
    rw [heff]
    exact ⟨fun e he => terminateCondFailQuest_only_FailQuest W _ player e he,
      fun p q => mem_terminateCondFailQuest W _ player p q⟩

/-- Witness of C31: in a group of three with the quest 70 incomplete for two
members, the step fails the quest of exactly these two; for a player without
group it fails the quest of that player; a step that evaluates to continue
fails no quest. -/
theorem C31_terminate_cond_fails_incomplete_members_witness :
    HandleScriptStep sampleDefines sampleFields sampleGroupWorld
        (sampleAction sampleTerminateCondRow)
      = some { halt := true,
               effects := [Effect.FailQuest samplePlayer 70, Effect.FailQuest samplePlayer2 70] } ∧
    HandleScriptStep sampleDefines sampleFields sampleSoloWorld
        (sampleAction sampleTerminateCondRow)
      = some { halt := true, effects := [Effect.FailQuest samplePlayer 70] } ∧
    HandleScriptStep sampleDefines sampleFields sampleGroupWorld
        (sampleAction sampleTerminateCondContinueRow)
      = some { halt := false, effects := [] } ∧
    ∃ r, HandleScriptStep sampleDefines sampleFields sampleGroupWorld
        (sampleAction sampleTerminateCondRow) = some r ∧
      (r.halt = false → r.effects = []) ∧
      (r.halt = true →
        terminateCondPlayer (some samplePlayer) (some sampleCreature) = none → r.effects = []) ∧
      (r.halt = true → ∀ player,
        terminateCondPlayer (some samplePlayer) (some sampleCreature) = some player →
        (∀ e, e ∈ r.effects → ∃ p, e = Effect.FailQuest p
          (sampleAction sampleTerminateCondRow).m_script.terminateCond_failQuest) ∧
        (∀ p q, Effect.FailQuest p q ∈ r.effects ↔
          q = (sampleAction sampleTerminateCondRow).m_script.terminateCond_failQuest ∧
          p ∈ (sampleGroupWorld.GetGroup player).getD [player] ∧
          sampleGroupWorld.GetQuestStatus p
              (sampleAction sampleTerminateCondRow).m_script.terminateCond_failQuest
            = QuestStatus.QUEST_STATUS_INCOMPLETE)) :=
  ⟨rfl, rfl, rfl,
   C31_terminate_cond_fails_incomplete_members sampleDefines sampleFields sampleGroupWorld
    (sampleAction sampleTerminateCondRow) (some samplePlayer) (some sampleCreature)
    (some (ScriptObject.worldObject samplePlayer)) rfl (by decide) rfl⟩

/-- C32: a kill-credit step with a player credits the creature entry of the
command when it is non-zero; when it is zero it credits the template entry of
the resolved source if the source is a creature, else that of the resolved
target if the target is a creature, and makes no call when neither is a
creature. The credit is one call on the player, `RewardPlayerAndGroupAtEvent`
for a group credit and `KilledMonsterCredit` otherwise, with that entry. -/
theorem C32_kill_credit_entry (D : Defines) (F : ScriptFields) (W : ScriptWorld)
    (a : ScriptAction) (pSource pTarget : Option WorldObject)
    (pSourceOrItem : Option ScriptObject) (pPlayer : WorldObject)
    (hc : a.m_script.command = SCRIPT_COMMAND_KILL_CREDIT)
    (ht : scriptStepTargets D W a = some (pSource, pTarget, pSourceOrItem))
    (hp : GetPlayerTargetOrSourceAndLog pSource pTarget = some pPlayer) :
    ∃ r, HandleScriptStep D F W a = some r ∧ r.halt = false ∧
      (a.m_script.killCredit_creatureEntry ≠ 0 →
        killCreditEntry a.m_script pSource pTarget = some a.m_script.killCredit_creatureEntry) ∧
      (a.m_script.killCredit_creatureEntry = 0 → ∀ s, pSource = some s →
        s.GetTypeId = TypeID.TYPEID_UNIT →
        killCreditEntry a.m_script pSource pTarget = some s.GetEntry) ∧
      (a.m_script.killCredit_creatureEntry = 0 →
        (∀ s, pSource = some s → s.GetTypeId ≠ TypeID.TYPEID_UNIT) →
        ∀ t, pTarget = some t → t.GetTypeId = TypeID.TYPEID_UNIT →
        killCreditEntry a.m_script pSource pTarget = some t.GetEntry) ∧
      (a.m_script.killCredit_creatureEntry = 0 →
        (∀ s, pSource = some s → s.GetTypeId ≠ TypeID.TYPEID_UNIT) →
        (∀ t, pTarget = some t → t.GetTypeId ≠ TypeID.TYPEID_UNIT) →
        killCreditEntry a.m_script pSource pTarget = none) ∧
      (killCreditEntry a.m_script pSource pTarget = none → r.effects = []) ∧
      (∀ creatureEntry, killCreditEntry a.m_script pSource pTarget = some creatureEntry →
        (F.killCredit_isGroupCredit a.m_script ≠ 0 →
          ∃ pSearcher,
            r.effects = [Effect.RewardPlayerAndGroupAtEvent pPlayer creatureEntry pSearcher]) ∧
        (F.killCredit_isGroupCredit a.m_script = 0 →
          r.effects = [Effect.KilledMonsterCredit pPlayer creatureEntry
            (killCreditRewardSource pSource pTarget)])) := by
  refine ⟨stepKillCredit F a.m_script pSource pTarget, ?_, stepKillCredit_halt _ _ _ _,
    ?_, ?_, ?_, ?_, ?_, ?_⟩
  · rw [HandleScriptStep_of_targets D F W a pSource pTarget pSourceOrItem ht,
      commandStep_kill_credit D F W a.m_script pSource pTarget pSourceOrItem hc]
  · intro h
    unfold killCreditEntry
    rw [if_pos h]
  · rintro h s rfl hs
    unfold killCreditEntry killCreditRewardSource
    rw [if_neg (not_not.mpr h)]
    simp only [hs, if_true]
  · rintro h hsrc t rfl htu
    unfold killCreditEntry killCreditRewardSource
    rw [if_neg (not_not.mpr h)]
    cases pSource with
    | none => simp only [htu, if_true]
    | some s => simp only [hsrc s rfl, htu, if_true, if_false]
  · intro h hsrc htgt
    unfold killCreditEntry killCreditRewardSource
    rw [if_neg (not_not.mpr h)]
    cases pSource with
    | none =>
      cases pTarget with
      | none => rfl
      | some t => simp only [htgt t rfl, if_false]
    | some s =>
      cases pTarget with
      | none => simp only [hsrc s rfl, if_false]
      | some t => simp only [hsrc s rfl, htgt t rfl, if_false]
  · intro h
    unfold stepKillCredit
    simp only [hp, h]
    rfl
  · intro creatureEntry h
    constructor
    · intro hg
      unfold stepKillCredit
      simp only [hp, h]
      rw [if_pos hg]
      exact ⟨_, rfl⟩
    · intro hg
      unfold stepKillCredit
      simp only [hp, h]
      rw [if_neg (not_not.mpr hg)]
      rfl

/-- Witness of C32: with the sample player as source and the sample creature
(entry 100) as target, a step with the entry 150 credits 150 and a step
without entry credits 100; without a creature the step without entry makes no
call. -/
theorem C32_kill_credit_entry_witness :
    HandleScriptStep sampleDefines sampleFields sampleWorld (sampleAction sampleKillCreditRow)
      = some { halt := false,
               effects := [Effect.KilledMonsterCredit samplePlayer 150 (some sampleCreature)] } ∧
    HandleScriptStep sampleDefines sampleFields sampleWorld
        (sampleAction sampleKillCreditDynamicRow)
      = some { halt := false,
               effects := [Effect.KilledMonsterCredit samplePlayer 100 (some sampleCreature)] } ∧
    HandleScriptStep sampleDefines sampleFields sampleWorld
        (sampleActionPlayerOnly sampleKillCreditDynamicRow)
      = some { halt := false, effects := [] } ∧
    ∃ r, HandleScriptStep sampleDefines sampleFields sampleWorld
        (sampleAction sampleKillCreditDynamicRow) = some r ∧ r.halt = false ∧
      ((sampleAction sampleKillCreditDynamicRow).m_script.killCredit_creatureEntry ≠ 0 →
        killCreditEntry (sampleAction sampleKillCreditDynamicRow).m_script (some samplePlayer)
            (some sampleCreature)
          = some (sampleAction sampleKillCreditDynamicRow).m_script.killCredit_creatureEntry) ∧
      ((sampleAction sampleKillCreditDynamicRow).m_script.killCredit_creatureEntry = 0 →
        ∀ s, some samplePlayer = some s → s.GetTypeId = TypeID.TYPEID_UNIT →
        killCreditEntry (sampleAction sampleKillCreditDynamicRow).m_script (some samplePlayer)
            (some sampleCreature) = some s.GetEntry) ∧
      ((sampleAction sampleKillCreditDynamicRow).m_script.killCredit_creatureEntry = 0 →
        (∀ s, some samplePlayer = some s → s.GetTypeId ≠ TypeID.TYPEID_UNIT) →
        ∀ t, some sampleCreature = some t → t.GetTypeId = TypeID.TYPEID_UNIT →
        killCreditEntry (sampleAction sampleKillCreditDynamicRow).m_script (some samplePlayer)
            (some sampleCreature) = some t.GetEntry) ∧
      ((sampleAction sampleKillCreditDynamicRow).m_script.killCredit_creatureEntry = 0 →
        (∀ s, some samplePlayer = some s → s.GetTypeId ≠ TypeID.TYPEID_UNIT) →
        (∀ t, some sampleCreature = some t → t.GetTypeId ≠ TypeID.TYPEID_UNIT) →
        killCreditEntry (sampleAction sampleKillCreditDynamicRow).m_script (some samplePlayer)
            (some sampleCreature) = none) ∧
      (killCreditEntry (sampleAction sampleKillCreditDynamicRow).m_script (some samplePlayer)
          (some sampleCreature) = none → r.effects = []) ∧
      (∀ creatureEntry,
        killCreditEntry (sampleAction sampleKillCreditDynamicRow).m_script (some samplePlayer)
          (some sampleCreature) = some creatureEntry →
        (sampleFields.killCredit_isGroupCredit (sampleAction sampleKillCreditDynamicRow).m_script
            ≠ 0 →
          ∃ pSearcher,
            r.effects
              = [Effect.RewardPlayerAndGroupAtEvent samplePlayer creatureEntry pSearcher]) ∧
        (sampleFields.killCredit_isGroupCredit (sampleAction sampleKillCreditDynamicRow).m_script
            = 0 →
          r.effects = [Effect.KilledMonsterCredit samplePlayer creatureEntry
            (killCreditRewardSource (some samplePlayer) (some sampleCreature))])) :=
  ⟨rfl, rfl, rfl,
   C32_kill_credit_entry sampleDefines sampleFields sampleWorld
    (sampleAction sampleKillCreditDynamicRow) (some samplePlayer) (some sampleCreature)
    (some (ScriptObject.worldObject samplePlayer)) samplePlayer rfl rfl rfl⟩

/-! ## Start of event scripts: the execution parameter -/

/-- C34: when `StartEvents_Event` reaches the start of the event table (the
event is taken neither by the script library nor by a pvp handler), the
execution parameter it passes is unique-by-source if the source is a creature
or a game object; otherwise unique-by-target if there is a target and it is
a creature or a game object; otherwise unique-by-source-and-target. The value
returned is then the one of `ScriptsStart`. -/
theorem C34_StartEvents_Event_execParam (E : EventEnv) (id : Nat) (source : ScriptObject)
    (target : Option ScriptObject) (isStart : Bool) (forwardToPvp : Option WorldObject)
    (p : ScriptExecutionParam)
    (hreach : (StartEvents_Event E id source target isStart forwardToPvp).execParam = some p) :
    (E.isType source TypeMask.TYPEMASK_CREATURE_OR_GAMEOBJECT = true →
      p = ScriptExecutionParam.SCRIPT_EXEC_PARAM_UNIQUE_BY_SOURCE) ∧
    (E.isType source TypeMask.TYPEMASK_CREATURE_OR_GAMEOBJECT = false →
      (∃ t, target = some t ∧ E.isType t TypeMask.TYPEMASK_CREATURE_OR_GAMEOBJECT = true) →
      p = ScriptExecutionParam.SCRIPT_EXEC_PARAM_UNIQUE_BY_TARGET) ∧
    (E.isType source TypeMask.TYPEMASK_CREATURE_OR_GAMEOBJECT = false →
      (∀ t, target = some t → E.isType t TypeMask.TYPEMASK_CREATURE_OR_GAMEOBJECT = false) →
      p = ScriptExecutionParam.SCRIPT_EXEC_PARAM_UNIQUE_BY_SOURCE_TARGET) ∧
    (StartEvents_Event E id source target isStart forwardToPvp).value
      = E.ScriptsStart id source target p ∧
    E.OnProcessEvent id source target isStart = false ∧
    eventHandledByPvp E id source forwardToPvp = false := by
  unfold StartEvents_Event at hreach ⊢
  by_cases h1 : E.OnProcessEvent id source target isStart = true
  · rw [if_pos h1] at hreach
    exact absurd hreach (by simp)
  · rw [if_neg h1] at hreach ⊢
    by_cases h2 : eventHandledByPvp E id source forwardToPvp = true
    · rw [if_pos h2] at hreach
      exact absurd hreach (by simp)
    · rw [if_neg h2] at hreach ⊢
      simp only [Option.some.injEq] at hreach
      subst hreach
      refine ⟨?_, ?_, ?_, rfl, ?_, ?_⟩
      · intro hs
        rw [if_pos hs]
      · rintro hs ⟨t, rfl, htt⟩
        rw [if_neg (by rw [hs]; decide), if_pos htt]
      · intro hs htgt
        rw [if_neg (by rw [hs]; decide), if_neg]
        cases target with
        | none => exact Bool.false_ne_true
        | some t =>
          simp only [htgt t rfl]
          exact Bool.false_ne_true
      · cases h : E.OnProcessEvent id source target isStart with
        | false => rfl
        | true => exact absurd h h1
      · cases h : eventHandledByPvp E id source forwardToPvp with
        | false => rfl
        | true => exact absurd h h2

/-- Witness of C34: an event sent by the sample game object is started
unique-by-source; an event whose source is an item and whose target is the
sample creature is started unique-by-target; with an item as source and no
target it is started unique-by-source-and-target. -/
theorem C34_StartEvents_Event_execParam_witness :
    (StartEvents_Event sampleEventEnv 1 (ScriptObject.worldObject sampleGameObject) none true
        none).execParam = some ScriptExecutionParam.SCRIPT_EXEC_PARAM_UNIQUE_BY_SOURCE ∧
    (StartEvents_Event sampleEventEnv 1 (ScriptObject.item sampleItem) none true
        none).execParam = some ScriptExecutionParam.SCRIPT_EXEC_PARAM_UNIQUE_BY_SOURCE_TARGET ∧
    ((sampleEventEnv.isType (ScriptObject.item sampleItem)
        TypeMask.TYPEMASK_CREATURE_OR_GAMEOBJECT = true →
      ScriptExecutionParam.SCRIPT_EXEC_PARAM_UNIQUE_BY_TARGET
        = ScriptExecutionParam.SCRIPT_EXEC_PARAM_UNIQUE_BY_SOURCE) ∧
    (sampleEventEnv.isType (ScriptObject.item sampleItem)
        TypeMask.TYPEMASK_CREATURE_OR_GAMEOBJECT = false →
      (∃ t, some (ScriptObject.worldObject sampleCreature) = some t ∧
        sampleEventEnv.isType t TypeMask.TYPEMASK_CREATURE_OR_GAMEOBJECT = true) →
      ScriptExecutionParam.SCRIPT_EXEC_PARAM_UNIQUE_BY_TARGET
        = ScriptExecutionParam.SCRIPT_EXEC_PARAM_UNIQUE_BY_TARGET) ∧
    (sampleEventEnv.isType (ScriptObject.item sampleItem)
        TypeMask.TYPEMASK_CREATURE_OR_GAMEOBJECT = false →
      (∀ t, some (ScriptObject.worldObject sampleCreature) = some t →
        sampleEventEnv.isType t TypeMask.TYPEMASK_CREATURE_OR_GAMEOBJECT = false) →
      ScriptExecutionParam.SCRIPT_EXEC_PARAM_UNIQUE_BY_TARGET
        = ScriptExecutionParam.SCRIPT_EXEC_PARAM_UNIQUE_BY_SOURCE_TARGET) ∧
    (StartEvents_Event sampleEventEnv 1 (ScriptObject.item sampleItem)
        (some (ScriptObject.worldObject sampleCreature)) true none).value
      = sampleEventEnv.ScriptsStart 1 (ScriptObject.item sampleItem)
          (some (ScriptObject.worldObject sampleCreature))
          ScriptExecutionParam.SCRIPT_EXEC_PARAM_UNIQUE_BY_TARGET ∧
    sampleEventEnv.OnProcessEvent 1 (ScriptObject.item sampleItem)
      (some (ScriptObject.worldObject sampleCreature)) true = false ∧
    eventHandledByPvp sampleEventEnv 1 (ScriptObject.item sampleItem) none = false) :=
  ⟨by decide, by decide,
   C34_StartEvents_Event_execParam sampleEventEnv 1 (ScriptObject.item sampleItem)
    (some (ScriptObject.worldObject sampleCreature)) true none
    ScriptExecutionParam.SCRIPT_EXEC_PARAM_UNIQUE_BY_TARGET (by decide)⟩

/-! ## Spell-effect priority rule: the selection is never empty -/

theorem exists_first_maximal_priority (n : Nat) (f : Nat → Nat) (hn : ∃ i, i < n ∧ f i ≠ 0) :
    ∃ idx, idx < n ∧ f idx ≠ 0 ∧ (∀ i, i < n → f i ≤ f idx) ∧
      (∀ i, i < n → i < idx → f i ≠ f idx) := by
  obtain ⟨i0, hi0, hf0⟩ := hn
  have hne : (Finset.range n).Nonempty := ⟨i0, Finset.mem_range.mpr hi0⟩
  obtain ⟨m, hm, hmax⟩ := Finset.exists_max_image (Finset.range n) f hne
  have hex : ∃ k, k < n ∧ f k = f m := ⟨m, Finset.mem_range.mp hm, rfl⟩
  refine ⟨Nat.find hex, (Nat.find_spec hex).1, ?_, ?_, ?_⟩
  · rw [(Nat.find_spec hex).2]
    have := hmax i0 (Finset.mem_range.mpr hi0)
    omega
  · intro i hi
    rw [(Nat.find_spec hex).2]
    exact hmax i (Finset.mem_range.mpr hi)
  · intro i hi hlt heq
    exact Nat.find_min hex hlt ⟨hi, by rw [heq, (Nat.find_spec hex).2]⟩

/-- C35: for a spell in which at least one effect index below
`MAX_EFFECT_INDEX` has a non-zero start priority, exactly one effect index
below `MAX_EFFECT_INDEX` satisfies `CanSpellEffectStartDBScript`: its priority
is the greatest of the spell and no lower index has that priority. -/
theorem C35_canSpellEffectStartDBScript_exists_unique (MAX_EFFECT_INDEX : Nat)
    (sSpellStore : SpellStore) (spellinfo : SpellEntry)
    (hprio : ∃ i, i < MAX_EFFECT_INDEX ∧
      GetSpellStartDBScriptPriority sSpellStore spellinfo i ≠ 0) :
    ∃ effIdx, effIdx < MAX_EFFECT_INDEX ∧
      CanSpellEffectStartDBScript MAX_EFFECT_INDEX sSpellStore spellinfo effIdx = true ∧
      (∀ i, i < MAX_EFFECT_INDEX → GetSpellStartDBScriptPriority sSpellStore spellinfo i
        ≤ GetSpellStartDBScriptPriority sSpellStore spellinfo effIdx) ∧
      (∀ i, i < MAX_EFFECT_INDEX →
        GetSpellStartDBScriptPriority sSpellStore spellinfo i
          = GetSpellStartDBScriptPriority sSpellStore spellinfo effIdx → effIdx ≤ i) ∧
      (∀ other, other < MAX_EFFECT_INDEX →
        CanSpellEffectStartDBScript MAX_EFFECT_INDEX sSpellStore spellinfo other = true →
        other = effIdx) := by
  obtain ⟨idx, hidx, hne, hmax, hfirst⟩ := exists_first_maximal_priority MAX_EFFECT_INDEX
    (GetSpellStartDBScriptPriority sSpellStore spellinfo) hprio
  refine ⟨idx, hidx, ?_, hmax, ?_, ?_⟩
  · rw [canSpellEffectStartDBScript_eq_true]
    exact ⟨hne, hmax, hfirst⟩
  · intro i hi heq
    by_contra hlt
    exact hfirst i hi (not_le.mp hlt) heq
  · intro other hother hcan
    rw [canSpellEffectStartDBScript_eq_true] at hcan
    obtain ⟨_, homax, hofirst⟩ := hcan
    have heq : GetSpellStartDBScriptPriority sSpellStore spellinfo other
        = GetSpellStartDBScriptPriority sSpellStore spellinfo idx :=
      le_antisymm (hmax other hother) (homax idx hidx)
    rcases Nat.lt_trichotomy other idx with h | h | h
    · exact absurd heq (hfirst other hother h)
    · exact h
    · exact absurd heq.symm (hofirst idx hidx h)

/-- Witness of C35: in the spell with a dummy effect at index 0 and script
effects at the indexes 1 and 2 the index 1 is selected, and no other one. -/
theorem C35_canSpellEffectStartDBScript_exists_unique_witness :
    (List.range 3).map (CanSpellEffectStartDBScript 3 sampleSpellStore sampleTwoScriptSpell)
      = [false, true, false] ∧
    ∃ effIdx, effIdx < 3 ∧
      CanSpellEffectStartDBScript 3 sampleSpellStore sampleTwoScriptSpell effIdx = true ∧
      (∀ i, i < 3 → GetSpellStartDBScriptPriority sampleSpellStore sampleTwoScriptSpell i
        ≤ GetSpellStartDBScriptPriority sampleSpellStore sampleTwoScriptSpell effIdx) ∧
      (∀ i, i < 3 →
        GetSpellStartDBScriptPriority sampleSpellStore sampleTwoScriptSpell i
          = GetSpellStartDBScriptPriority sampleSpellStore sampleTwoScriptSpell effIdx →
        effIdx ≤ i) ∧
      (∀ other, other < 3 →
        CanSpellEffectStartDBScript 3 sampleSpellStore sampleTwoScriptSpell other = true →
        other = effIdx) :=
  ⟨by decide,
   C35_canSpellEffectStartDBScript_exists_unique 3 sampleSpellStore sampleTwoScriptSpell
    ⟨1, by decide, by decide⟩⟩

/-! ## Loaded talk commands and the text displayed -/

theorem commandCheck_talk (D : Defines) (C : Catalogs) (mgr : ObjectMgr)
    (tmp : ScriptInfo) (hc : tmp.command = SCRIPT_COMMAND_TALK) :
    commandCheck D C mgr tmp = (mgr, talkCheck tmp) := by
  unfold commandCheck
  rw [hc]

theorem talkCheck_primary (tmp : ScriptInfo) (h : talkCheck tmp = true) : tmp.textId 0 ≠ 0 := by
  unfold talkCheck at h
  intro h0
  rw [if_pos h0] at h
  exact Bool.noConfusion h

theorem talkTextId_ne_zero (W : ScriptWorld) (m_script : ScriptInfo)
    (hdraw : ∀ lo hi, lo ≤ hi → lo ≤ W.urand lo hi ∧ W.urand lo hi ≤ hi)
    (h0 : m_script.textId 0 ≠ 0) : talkTextId W m_script ≠ 0 := by
  unfold talkTextId
  by_cases h1 : m_script.textId 1 ≠ 0
  · rw [if_pos h1]
    have hb := (hdraw 0 (talkTextIdBound m_script - 1) (Nat.zero_le _)).2
    have hslot : ∀ k, k ≤ talkTextIdBound m_script - 1 → m_script.textId k ≠ 0 := by
      intro k hk
      rcases talkTextIdBound_cases m_script with ⟨_, h⟩ | ⟨h2, _, h⟩ | ⟨h2, h3, h⟩
      · rw [h] at hk
        have hk' : k = 0 ∨ k = 1 := by omega
        rcases hk' with hk' | hk' <;> rw [hk'] <;> assumption
      · rw [h] at hk
        have hk' : k = 0 ∨ k = 1 ∨ k = 2 := by omega
        rcases hk' with hk' | hk' | hk' <;> rw [hk'] <;> assumption
      · rw [h] at hk
        have hk' : k = 0 ∨ k = 1 ∨ k = 2 ∨ k = 3 := by omega
        rcases hk' with hk' | hk' | hk' | hk' <;> rw [hk'] <;> assumption
    exact hslot _ hb
  · rw [if_neg h1]
    exact h0

/-- C36: for a talk command loaded by `LoadScripts` and a random draw that
stays in its range, the text id the talk step displays is never 0: the
primary text id of a loaded talk command is not 0, and the index drawn
addresses one of the leading slots, which are populated. -/
theorem C36_loaded_talk_displays_populated_slot (D : Defines) (C : Catalogs) (mgr : ObjectMgr)
    (scripts : ScriptMapMapName) (tablename : String) (c : ScriptInfo) (W : ScriptWorld)
    (hc : c ∈ allCommands (LoadScripts D C false mgr scripts tablename).scripts)
    (hcmd : c.command = SCRIPT_COMMAND_TALK)
    (hdraw : ∀ lo hi, lo ≤ hi → lo ≤ W.urand lo hi ∧ W.urand lo hi ≤ hi) :
    c.textId 0 ≠ 0 ∧ talkTextId W c ≠ 0 ∧
    ∀ (source : WorldObject) (pTarget : Option WorldObject) (textId : Int)
      (target : Option WorldObject),
      Effect.DoDisplayText source textId target ∈ (stepTalk W c (some source) pTarget).effects →
      textId ≠ 0 := by
  rw [mem_allCommands_LoadScripts] at hc
  have h := rowAccepted_commandCheck D C mgr c hc.2
  rw [commandCheck_talk D C mgr c hcmd] at h
  have h0 := talkCheck_primary c h
  have hne := talkTextId_ne_zero W c hdraw h0
  refine ⟨h0, hne, ?_⟩
  intro source pTarget textId target hmem
  unfold stepTalk stepBreak at hmem
  simp only [List.mem_singleton, Effect.DoDisplayText.injEq] at hmem
  rw [hmem.2.1]
  exact hne

/-- Witness of C36: the talk row with the text ids 5, 7, 0, 0 is loaded and
the sample step displays the text 7. -/
theorem C36_loaded_talk_displays_populated_slot_witness :
    HandleScriptStep sampleDefines sampleFields sampleWorld (sampleAction sampleTalkPairRow)
      = some { halt := false,
               effects := [Effect.DoDisplayText samplePlayer 7 (some sampleCreature)] } ∧
    (sampleTalkPairRow.textId 0 ≠ 0 ∧ talkTextId sampleWorld sampleTalkPairRow ≠ 0 ∧
    ∀ (source : WorldObject) (pTarget : Option WorldObject) (textId : Int)
      (target : Option WorldObject),
      Effect.DoDisplayText source textId target
        ∈ (stepTalk sampleWorld sampleTalkPairRow (some source) pTarget).effects →
      textId ≠ 0) :=
  ⟨rfl,
   C36_loaded_talk_displays_populated_slot sampleDefines
    (sampleCatalogs.withRows [sampleTalkPairRow]) sampleObjectMgr emptyScripts
    "dbscripts_on_event" sampleTalkPairRow sampleWorld (by decide) rfl
    (fun _ _ h => ⟨h, le_refl _⟩)⟩

/-! ## The terminate-script step: halting and the searcher -/

/-- C37: a terminate-script step whose npc entry is 0 and whose objects are
resolved returns true, whatever the flags, the resolved source and the
resolved target are. -/
theorem C37_terminate_script_without_npc_halts (D : Defines) (F : ScriptFields)
    (W : ScriptWorld) (a : ScriptAction) (pSource pTarget : Option WorldObject)
    (pSourceOrItem : Option ScriptObject)
    (hc : a.m_script.command = SCRIPT_COMMAND_TERMINATE_SCRIPT)
    (hnpc : a.m_script.terminateScript_npcEntry = 0)
    (ht : scriptStepTargets D W a = some (pSource, pTarget, pSourceOrItem)) :
    ∃ es, HandleScriptStep D F W a = some { halt := true, effects := es } := by
  rw [HandleScriptStep_of_targets D F W a pSource pTarget pSourceOrItem ht,
    commandStep_terminate_script D F W a.m_script pSource pTarget pSourceOrItem hc]
  unfold stepTerminateScript terminateScriptResult
  rw [if_neg (not_not.mpr hnpc)]
  exact ⟨_, rfl⟩

/-- Witness of C37: the sample terminate-script step without npc entry halts,
with the sample objects and without any object. -/
theorem C37_terminate_script_without_npc_halts_witness :
    HandleScriptStep sampleDefines sampleFields sampleWorld
        (sampleActionWithoutObjects sampleTerminateRow)
      = some { halt := true, effects := [] } ∧
    ∃ es, HandleScriptStep sampleDefines sampleFields sampleWorld (sampleAction sampleTerminateRow)
      = some { halt := true, effects := es } :=
  ⟨rfl,
   C37_terminate_script_without_npc_halts sampleDefines sampleFields sampleWorld
    (sampleAction sampleTerminateRow) (some samplePlayer) (some sampleCreature)
    (some (ScriptObject.worldObject samplePlayer)) rfl rfl rfl⟩

/-- C38, failing input: the sample terminate-script row with the npc entry 100
is accepted by the loader; for a step of it whose source is a creature that is
no longer on the map and whose target guid is empty, the resolution succeeds
with neither a source nor a target, and the step evaluates
`pSearcher->GetTypeId()` on a null searcher. So does every terminate-script
step with a non-zero npc entry whose resolved source and target are both
absent. -/
theorem C38_terminate_script_null_searcher :
    rowAccepted sampleDefines sampleCatalogs sampleObjectMgr sampleTerminateNpcRow = true ∧
    sampleTerminateNpcRow.terminateScript_npcEntry ≠ 0 ∧
    GetScriptCommandObject sampleWorld emptyGuid sampleGoneCreatureGuid true = some none ∧
    scriptStepTargets sampleDefines sampleWorld (sampleActionGoneSource sampleTerminateNpcRow)
      = some (none, none, none) ∧
    HandleScriptStep sampleDefines sampleFields sampleWorld
      (sampleActionGoneSource sampleTerminateNpcRow) = none ∧
    (∀ (D : Defines) (F : ScriptFields) (W : ScriptWorld) (a : ScriptAction)
        (pSourceOrItem : Option ScriptObject),
      a.m_script.command = SCRIPT_COMMAND_TERMINATE_SCRIPT →
      a.m_script.terminateScript_npcEntry ≠ 0 →
      scriptStepTargets D W a = some (none, none, pSourceOrItem) →
      HandleScriptStep D F W a = none) := by
  refine ⟨by decide, by decide, by decide, by decide, rfl, ?_⟩
  intro D F W a pSourceOrItem hc hnpc ht
  rw [HandleScriptStep_of_targets D F W a none none pSourceOrItem ht,
    commandStep_terminate_script D F W a.m_script none none pSourceOrItem hc]
  unfold stepTerminateScript terminateScriptResult
  rw [if_pos hnpc]
  rfl

/-! ## The quest-explored step: the reference object of the distance test -/

theorem commandStep_questExplored_step (D : Defines) (F : ScriptFields) (W : ScriptWorld)
    (m_script : ScriptInfo) (pSource pTarget : Option WorldObject)
    (pSourceOrItem : Option ScriptObject)
    (hc : m_script.command = SCRIPT_COMMAND_QUEST_EXPLORED) :
    commandStep D F W m_script pSource pTarget pSourceOrItem
      = stepQuestExplored W m_script pSource pTarget := by
  unfold commandStep
  rw [hc]

/-- C39: a quest-explored step never evaluates the distance test on an absent
reference object: for every resolved source and target and every distance
the step returns (the case in which `pWorldObject->IsWithinDistInMap` would be
evaluated with a null `pWorldObject` does not occur), and so does
`HandleScriptStep` for a quest-explored command. -/
theorem C39_quest_explored_distance_test_has_object (D : Defines) (F : ScriptFields)
    (W : ScriptWorld) (a : ScriptAction)
    (hc : a.m_script.command = SCRIPT_COMMAND_QUEST_EXPLORED) :
    (∀ pSource pTarget, ∃ es,
      stepQuestExplored W a.m_script pSource pTarget = some { halt := false, effects := es }) ∧
    (∀ pSource pTarget pPlayer, GetPlayerTargetOrSourceAndLog pSource pTarget = some pPlayer →
      a.m_script.questExplored_distance ≠ 0 →
      questExploredWorldObject W pSource pTarget = none →
      stepQuestExplored W a.m_script pSource pTarget = some { halt := false, effects := [] }) ∧
    ∃ r, HandleScriptStep D F W a = some r := by
  refine ⟨fun pSource pTarget => stepQuestExplored_halt W a.m_script pSource pTarget, ?_, ?_⟩
  · intro pSource pTarget pPlayer hp hd hw
    unfold stepQuestExplored
    simp only [hp]
    rw [if_pos ⟨hd, hw⟩]
    rfl
  · unfold HandleScriptStep
    cases scriptStepTargets D W a with
    | none => exact ⟨_, rfl⟩
    | some t =>
      obtain ⟨pSource, pTarget, pSourceOrItem⟩ := t
      simp only
      rw [commandStep_questExplored_step D F W a.m_script pSource pTarget pSourceOrItem hc]
      obtain ⟨es, hes⟩ := stepQuestExplored_halt W a.m_script pSource pTarget
      exact ⟨_, hes⟩

/-- Witness of C39: the sample quest-explored step with the distance 20 is
skipped when it has no object at all, and credits the event to the sample
player when the sample player and the sample creature are its objects. -/
theorem C39_quest_explored_distance_test_has_object_witness :
    HandleScriptStep sampleDefines sampleFields sampleWorld
        (sampleActionWithoutObjects sampleExploredFarRow)
      = some { halt := false, effects := [] } ∧
    HandleScriptStep sampleDefines sampleFields sampleWorld (sampleAction sampleExploredFarRow)
      = some { halt := false,
               effects := [Effect.AreaExploredOrEventHappens samplePlayer 70] } ∧
    ((∀ pSource pTarget, ∃ es,
      stepQuestExplored sampleWorld (sampleAction sampleExploredFarRow).m_script pSource pTarget
        = some { halt := false, effects := es }) ∧
    (∀ pSource pTarget pPlayer, GetPlayerTargetOrSourceAndLog pSource pTarget = some pPlayer →
      (sampleAction sampleExploredFarRow).m_script.questExplored_distance ≠ 0 →
      questExploredWorldObject sampleWorld pSource pTarget = none →
      stepQuestExplored sampleWorld (sampleAction sampleExploredFarRow).m_script pSource pTarget
        = some { halt := false, effects := [] }) ∧
    ∃ r, HandleScriptStep sampleDefines sampleFields sampleWorld
      (sampleAction sampleExploredFarRow) = some r) :=
  ⟨rfl, rfl,
   C39_quest_explored_distance_test_has_object sampleDefines sampleFields sampleWorld
    (sampleAction sampleExploredFarRow) rfl⟩

/-! ## Script names: properties -/

theorem getD_le_of_sorted (v : ScriptNameMap) (hs : v.Sorted (fun a b => a ≤ b)) (i j : Nat)
    (hij : i ≤ j) (hj : j < v.length) : v.getD i [] ≤ v.getD j [] := by
  have hi : i < v.length := lt_of_le_of_lt hij hj
  rw [List.getD_eq_getElem v [] hi, List.getD_eq_getElem v [] hj]
  rcases Nat.eq_or_lt_of_le hij with h | h
  · subst h
    exact le_refl _
  · exact List.pairwise_iff_getElem.mp hs i j hi hj h

theorem lowerBoundLoop_spec (v : ScriptNameMap) (value : List Nat)
    (hs : v.Sorted (fun a b => a ≤ b)) :
    ∀ (fuel first len : Nat), len ≤ fuel → first + len ≤ v.length →
      (∀ i, i < first → v.getD i [] < value) →
      (∀ i, first + len ≤ i → i < v.length → ¬ v.getD i [] < value) →
      lowerBoundLoop v value fuel first len ≤ v.length ∧
      (∀ i, i < lowerBoundLoop v value fuel first len → v.getD i [] < value) ∧
      (∀ i, lowerBoundLoop v value fuel first len ≤ i → i < v.length →
        ¬ v.getD i [] < value) := by
  intro fuel
  induction fuel with
  | zero =>
    intro first len hfuel hlen hlow hhigh
    have hl : len = 0 := Nat.le_zero.mp hfuel
    subst hl
    exact ⟨hlen, hlow, hhigh⟩
  | succ fuel ih =>
    intro first len hfuel hlen hlow hhigh
    unfold lowerBoundLoop
    by_cases hl : len = 0
    · rw [if_pos hl]
      subst hl
      exact ⟨hlen, hlow, hhigh⟩
    · rw [if_neg hl]
      have hhalf : len / 2 < len := Nat.div_lt_self (Nat.pos_of_ne_zero hl) (by decide)
      by_cases hmid : v.getD (first + len / 2) [] < value
      · rw [if_pos hmid]
        apply ih
        · omega
        · omega
        · intro i hi
          have hmidlt : first + len / 2 < v.length := by omega
          exact lt_of_le_of_lt (getD_le_of_sorted v hs i (first + len / 2) (by omega) hmidlt) hmid
        · intro i hi hiv
          exact hhigh i (by omega) hiv
      · rw [if_neg hmid]
        apply ih
        · omega
        · omega
        · exact hlow
        · intro i hi hiv hlt
          exact hmid (lt_of_le_of_lt (getD_le_of_sorted v hs (first + len / 2) i hi hiv) hlt)

theorem lower_bound_spec (v : ScriptNameMap) (value : List Nat)
    (hs : v.Sorted (fun a b => a ≤ b)) :
    lower_bound v value ≤ v.length ∧
    (∀ i, i < lower_bound v value → v.getD i [] < value) ∧
    (∀ i, lower_bound v value ≤ i → i < v.length → ¬ v.getD i [] < value) := by
  unfold lower_bound
  apply lowerBoundLoop_spec v value hs v.length 0 v.length (le_refl _) (by omega)
  · intro i hi
    exact absurd hi (Nat.not_lt_zero i)
  · intro i hi hiv
    omega

theorem lowerBoundLoop_le (v : ScriptNameMap) (value : List Nat) :
    ∀ (fuel first len : Nat), lowerBoundLoop v value fuel first len ≤ first + len := by
  intro fuel
  induction fuel with
  | zero =>
    intro first len
    exact Nat.le_add_right first len
  | succ fuel ih =>
    intro first len
    unfold lowerBoundLoop
    by_cases hl : len = 0
    · rw [if_pos hl]
      exact Nat.le_add_right first len
    · rw [if_neg hl]
      have hhalf : len / 2 < len := Nat.div_lt_self (Nat.pos_of_ne_zero hl) (by decide)
      by_cases hmid : v.getD (first + len / 2) [] < value
      · rw [if_pos hmid]
        have := ih (first + len / 2 + 1) (len - len / 2 - 1)
        omega
      · rw [if_neg hmid]
        have := ih first (len / 2)
        omega

theorem lowerBoundLoop_fuel (v : ScriptNameMap) (value : List Nat) :
    ∀ (len fuel first : Nat), len ≤ fuel →
      lowerBoundLoop v value fuel first len = lowerBoundLoop v value len first len := by
  intro len
  induction len using Nat.strong_induction_on with
  | _ len ih =>
    intro fuel first hfuel
    cases len with
    | zero =>
      cases fuel with
      | zero => rfl
      | succ fuel => rfl
    | succ len =>
      cases fuel with
      | zero => omega
      | succ fuel =>
        have hhalf : (len + 1) / 2 < len + 1 := Nat.div_lt_self (Nat.succ_pos len) (by decide)
        unfold lowerBoundLoop
        rw [if_neg (Nat.succ_ne_zero len), if_neg (Nat.succ_ne_zero len)]
        by_cases hmid : v.getD (first + (len + 1) / 2) [] < value
        · rw [if_pos hmid, if_pos hmid,
            ih (len + 1 - (len + 1) / 2 - 1) (by omega) fuel _ (by omega),
            ih (len + 1 - (len + 1) / 2 - 1) (by omega) len _ (by omega)]
        · rw [if_neg hmid, if_neg hmid,
            ih ((len + 1) / 2) hhalf fuel _ (by omega),
            ih ((len + 1) / 2) hhalf len _ (by omega)]

theorem lower_bound_of_mem (v : ScriptNameMap) (value : List Nat)
    (hs : v.Sorted (fun a b => a ≤ b)) (hmem : value ∈ v) :
    lower_bound v value < v.length ∧ v.getD (lower_bound v value) [] = value := by
  obtain ⟨hle, hlow, hhigh⟩ := lower_bound_spec v value hs
  obtain ⟨j, hj, hjv⟩ := List.getElem_of_mem hmem
  have hjD : v.getD j [] = value := by
    rw [List.getD_eq_getElem v [] hj]
    exact hjv
  have hrj : lower_bound v value ≤ j := by
    by_contra h
    have := hlow j (not_le.mp h)
    rw [hjD] at this
    exact lt_irrefl _ this
  have hlt : lower_bound v value < v.length := lt_of_le_of_lt hrj hj
  refine ⟨hlt, le_antisymm ?_ ?_⟩
  · have h := getD_le_of_sorted v hs (lower_bound v value) j hrj hj
    rw [hjD] at h
    exact h
  · exact not_lt.mp (hhigh _ (le_refl _) hlt)

theorem GetScriptId_of_mem (v : ScriptNameMap) (value : List Nat)
    (hs : v.Sorted (fun a b => a ≤ b)) (hlen : v.length ≤ 2 ^ 32) (hmem : value ∈ v) :
    GetScriptId v (some value) = lower_bound v value := by
  obtain ⟨hlt, hval⟩ := lower_bound_of_mem v value hs hmem
  unfold GetScriptId
  simp only
  rw [if_neg]
  · exact Nat.mod_eq_of_lt (lt_of_lt_of_le hlt hlen)
  · rintro (h | h)
    · omega
    · exact h hval

theorem GetScriptId_of_not_mem (v : ScriptNameMap) (value : List Nat) (hmem : value ∉ v) :
    GetScriptId v (some value) = 0 := by
  unfold GetScriptId
  simp only
  by_cases h : lower_bound v value = v.length ∨ v.getD (lower_bound v value) [] ≠ value
  · rw [if_pos h]
  · exfalso
    rw [not_or, not_not] at h
    obtain ⟨h1, h2⟩ := h
    have hle : lower_bound v value ≤ v.length := by
      have := lowerBoundLoop_le v value v.length 0 v.length
      unfold lower_bound
      omega
    have hlt : lower_bound v value < v.length := lt_of_le_of_ne hle h1
    apply hmem
    rw [List.getD_eq_getElem v [] hlt] at h2
    rw [← h2]
    exact List.getElem_mem hlt

theorem lower_bound_le_of_getD_eq (v : ScriptNameMap) (value : List Nat)
    (hs : v.Sorted (fun a b => a ≤ b)) (j : Nat) (hj : v.getD j [] = value) :
    lower_bound v value ≤ j := by
  by_contra h
  have hlt := (lower_bound_spec v value hs).2.1 j (not_le.mp h)
  rw [hj] at hlt
  exact lt_irrefl _ hlt

theorem getD_of_getElem? (v : ScriptNameMap) (j : Nat) (name : List Nat)
    (h : v[j]? = some name) : v.getD j [] = name := by
  rw [List.getD_eq_getElem?_getD, h]
  rfl

theorem nil_le_name (n : List Nat) : ([] : List Nat) ≤ n := by
  rw [← not_lt]
  intro h
  cases h

theorem LoadScriptNames_perm (result : List (List Nat)) :
    (LoadScriptNames [] result).Perm ([] :: result) := by
  unfold LoadScriptNames
  cases result with
  | nil => exact List.Perm.refl _
  | cons row rest => exact List.perm_insertionSort _ _

theorem LoadScriptNames_sorted (result : List (List Nat)) :
    (LoadScriptNames [] result).Sorted (fun a b => a ≤ b) := by
  unfold LoadScriptNames
  cases result with
  | nil => exact List.sorted_singleton _
  | cons row rest => exact List.sorted_insertionSort _ _

theorem LoadScriptNames_head (result : List (List Nat)) :
    (LoadScriptNames [] result)[0]? = some [] := by
  have hperm := LoadScriptNames_perm result
  have hsorted := LoadScriptNames_sorted result
  have hmem : ([] : List Nat) ∈ LoadScriptNames [] result :=
    hperm.mem_iff.mpr (List.mem_cons_self _ _)
  cases hnames : LoadScriptNames [] result with
  | nil =>
    rw [hnames] at hmem
    exact absurd hmem (List.not_mem_nil _)
  | cons first rest =>
    rw [hnames] at hmem hsorted
    have hle : first ≤ [] := by
      rcases List.mem_cons.mp hmem with h | h
      · rw [h]
      · exact List.rel_of_sorted_cons hsorted _ h
    have hfirst : first = [] := le_antisymm hle (nil_le_name first)
    rw [hfirst, List.getElem?_cons_zero]

/-- C33: for a name vector sorted ascending (with at most 2^32 names, so that
an index fits the `uint32` returned), `GetScriptId` returns 0 for the null
name and for a name that does not occur in the vector, and for a name that
occurs it returns an index at which the vector holds that name, the smallest
such index: the name stored at the returned id is the name looked up. -/
theorem C33_GetScriptId_sorted (m_scriptNames : ScriptNameMap)
    (hs : m_scriptNames.Sorted (fun a b => a ≤ b)) (hlen : m_scriptNames.length ≤ 2 ^ 32) :
    GetScriptId m_scriptNames none = 0 ∧
    (∀ name, name ∈ m_scriptNames →
      m_scriptNames[GetScriptId m_scriptNames (some name)]? = some name ∧
      ∀ j, m_scriptNames[j]? = some name → GetScriptId m_scriptNames (some name) ≤ j) ∧
    (∀ name, name ∉ m_scriptNames → GetScriptId m_scriptNames (some name) = 0) := by
  refine ⟨rfl, ?_, fun name hmem => GetScriptId_of_not_mem m_scriptNames name hmem⟩
  intro name hmem
  rw [GetScriptId_of_mem m_scriptNames name hs hlen hmem]
  obtain ⟨hlt, hval⟩ := lower_bound_of_mem m_scriptNames name hs hmem
  constructor
  · rw [List.getD_eq_getElem m_scriptNames [] hlt] at hval
    rw [List.getElem?_eq_getElem hlt, hval]
  · intro j hj
    exact lower_bound_le_of_getD_eq m_scriptNames name hs j
      (getD_of_getElem? m_scriptNames j name hj)

/-- Witness of C33: in the vector loaded from the three sample names the name
`item_key` has the id 2 and an unknown name the id 0. -/
theorem C33_GetScriptId_sorted_witness :
    LoadScriptNames [] sampleScriptNames
      = [[], sampleName "go_door", sampleName "item_key", sampleName "npc_guard"] ∧
    GetScriptId (LoadScriptNames [] sampleScriptNames) (some (sampleName "item_key")) = 2 ∧
    GetScriptId (LoadScriptNames [] sampleScriptNames) (some (sampleName "quest_x")) = 0 ∧
    (GetScriptId (LoadScriptNames [] sampleScriptNames) none = 0 ∧
    (∀ name, name ∈ LoadScriptNames [] sampleScriptNames →
      (LoadScriptNames [] sampleScriptNames)[GetScriptId (LoadScriptNames [] sampleScriptNames)
        (some name)]? = some name ∧
      ∀ j, (LoadScriptNames [] sampleScriptNames)[j]? = some name →
        GetScriptId (LoadScriptNames [] sampleScriptNames) (some name) ≤ j) ∧
    (∀ name, name ∉ LoadScriptNames [] sampleScriptNames →
      GetScriptId (LoadScriptNames [] sampleScriptNames) (some name) = 0)) :=
  ⟨by decide, by decide, by decide,
   C33_GetScriptId_sorted (LoadScriptNames [] sampleScriptNames) (by decide) (by decide)⟩

/-- C40: after `LoadScriptNames` on an empty vector, whatever names the query
fetches (the query fetches non-empty names; fewer than 2^32 of them, so that
an index fits the `uint32` returned), the vector is sorted and its element 0
is the empty name; so `GetScriptId` gives a non-zero id exactly to the names
that are non-empty and among the fetched names, and the id 0 to the null
name. -/
theorem C40_LoadScriptNames_id_zero_is_no_script (result : List (List Nat))
    (hlen : result.length < 2 ^ 32) :
    (LoadScriptNames [] result).Sorted (fun a b => a ≤ b) ∧
    (LoadScriptNames [] result)[0]? = some [] ∧
    (∀ n, GetScriptId (LoadScriptNames [] result) (some n) ≠ 0 ↔ n ≠ [] ∧ n ∈ result) ∧
    GetScriptId (LoadScriptNames [] result) none = 0 := by
  have hperm := LoadScriptNames_perm result
  have hsorted := LoadScriptNames_sorted result
  have hhead := LoadScriptNames_head result
  have hlength : (LoadScriptNames [] result).length ≤ 2 ^ 32 := by
    rw [hperm.length_eq, List.length_cons]
    omega
  refine ⟨hsorted, hhead, ?_, rfl⟩
  intro n
  constructor
  · intro hid
    have hmem : n ∈ LoadScriptNames [] result := by
      by_contra hmem
      exact hid (GetScriptId_of_not_mem _ n hmem)
    have hn : n ≠ [] := by
      intro hn
      apply hid
      rw [GetScriptId_of_mem _ n hsorted hlength hmem]
      have h0 := lower_bound_le_of_getD_eq (LoadScriptNames [] result) n hsorted 0
        (by rw [hn]; exact getD_of_getElem? _ 0 [] hhead)
      omega
    refine ⟨hn, ?_⟩
    rcases List.mem_cons.mp (hperm.mem_iff.mp hmem) with h | h
    · exact absurd h hn
    · exact h
  · rintro ⟨hn, hres⟩
    have hmem : n ∈ LoadScriptNames [] result := hperm.mem_iff.mpr (List.mem_cons_of_mem _ hres)
    rw [GetScriptId_of_mem _ n hsorted hlength hmem]
    intro h0
    have hval := (lower_bound_of_mem _ n hsorted hmem).2
    rw [h0, getD_of_getElem? _ 0 [] hhead] at hval
    exact hn hval.symm

/-- Witness of C40: the three sample names. -/
theorem C40_LoadScriptNames_id_zero_is_no_script_witness :
    GetScriptId (LoadScriptNames [] sampleScriptNames) (some (sampleName "go_door")) = 1 ∧
    GetScriptId (LoadScriptNames [] sampleScriptNames) (some []) = 0 ∧
    ((LoadScriptNames [] sampleScriptNames).Sorted (fun a b => a ≤ b) ∧
    (LoadScriptNames [] sampleScriptNames)[0]? = some [] ∧
    (∀ n, GetScriptId (LoadScriptNames [] sampleScriptNames) (some n) ≠ 0 ↔
      n ≠ [] ∧ n ∈ sampleScriptNames) ∧
    GetScriptId (LoadScriptNames [] sampleScriptNames) none = 0) :=
  ⟨by decide, by decide,
   C40_LoadScriptNames_id_zero_is_no_script sampleScriptNames (by decide)⟩
end ZeroServer
